import Mathlib

/-! # Appointment scheduling core of the appointment service

A shallow embedding of `services/appointment-service` (package `utils`, the
appointment controller and the models they share) together with the
properties established about it.

Conventions of the embedding:

* an instant (`time.Time`, an SQL timestamp) is an integer number of
  nanoseconds since the Unix epoch; a `time.Duration` is an integer number of
  nanoseconds, and arithmetic that Go performs on `int64` is wrapped
  explicitly with `wrapInt64`;
* the relational store is a record of row lists; an SQL statement is a pure
  function of that record;
* a statement that can fail for reasons outside the data (connection loss,
  timeout) takes a Boolean fault flag, `true` meaning that the driver returned
  an error;
* a `float64` is an IEEE 754 binary64 value (`Float64`): a finite value is
  carried by the rational it denotes, and every operation rounds its exact
  result to the nearest binary64 value, ties to even (`roundFloat64`).
-/

namespace AppointmentService

/-! ## Instants and durations -/

/-- An instant: nanoseconds since 1970-01-01 00:00:00 UTC. -/
abbrev Time := Int

/-- Go constant `time.Minute` (a `time.Duration`, in nanoseconds). -/
def Minute : Int := 60000000000

/-- Go constant `time.Hour`. -/
def Hour : Int := 3600000000000

/-- Largest `int64`. -/
def maxInt64 : Int := 9223372036854775807

/-- Smallest `int64`. -/
def minInt64 : Int := -9223372036854775808

/-- Result of an `int64` operation whose exact value is `x`: Go wraps around
(two's complement). -/
def wrapInt64 (x : Int) : Int :=
  (x + 9223372036854775808) % 18446744073709551616 - 9223372036854775808

/-- Go expression `time.Duration(n) * time.Minute` for an `int` value `n`. -/
def minutesDuration (n : Int) : Int := wrapInt64 (n * Minute)

/-! ## Floating-point numbers

Go `float64` is IEEE 754 binary64: 53 significant bits, the unit in the last
place between `2 ^ (-1074)` and `2 ^ 971`, signed zeros, infinities and NaN. -/

/-- Go `float64`, an IEEE 754 binary64 value. A finite value other than
negative zero is carried by the rational number it denotes; the operations
below round every result to a binary64 value. -/
inductive Float64 where
  /-- a finite value other than negative zero -/
  | finite (value : ℚ)
  /-- negative zero -/
  | negZero
  /-- an infinity, negative when the flag is set -/
  | inf (negative : Bool)
  /-- not a number -/
  | nan
  deriving DecidableEq, Repr

/-- The sign bit, `true` for a negative value. -/
def Float64.signBit : Float64 → Bool
  | .finite value => decide (value < 0)
  | .negZero => true
  | .inf negative => negative
  | .nan => false

/-- The rational denoted by a finite value; 0 for the other values. -/
def Float64.toRat : Float64 → ℚ
  | .finite value => value
  | _ => 0

/-- A zero of the given sign. -/
def Float64.zero (negative : Bool) : Float64 :=
  if negative then .negZero else .finite 0

/-- The power `2 ^ e` of two as a rational. -/
def pow2 (e : Int) : ℚ :=
  if 0 ≤ e then ((2 ^ e.toNat : ℕ) : ℚ) else 1 / ((2 ^ (-e).toNat : ℕ) : ℚ)

/-- Number of binary digits of `n`, found by halving at most `fuel` times
(`fuel = n` is always enough). -/
def bitLength : Nat → Nat → Nat
  | 0, _ => 0
  | fuel + 1, n => if n = 0 then 0 else bitLength fuel (n / 2) + 1

/-- The integer `k` with `2 ^ k ≤ x < 2 ^ (k + 1)`, for a positive rational
`x`: the difference of the bit lengths of numerator and denominator, or one
less. -/
def floorLog2 (x : ℚ) : Int :=
  let guess : Int :=
    (bitLength x.num.natAbs x.num.natAbs : Int) - (bitLength x.den x.den : Int)
  if pow2 guess ≤ x then guess else guess - 1

/-- Rounding to the nearest integer, a tie going to the even one. -/
def roundHalfEven (x : ℚ) : Int :=
  let f := Rat.floor x
  if x - f < 1 / 2 then f
  else if 1 / 2 < x - f then f + 1
  else if f % 2 = 0 then f
  else f + 1

/-- The binary64 value nearest to a rational, ties to even (the rounding of
every Go `float64` operation and conversion): 53 significant bits, the unit in
the last place never below `2 ^ (-1074)`, a signed zero when the result rounds
to zero, an infinity when it reaches `2 ^ 1024`. -/
def roundFloat64 (x : ℚ) : Float64 :=
  if x = 0 then .finite 0
  else
    let e : Int := max (floorLog2 |x| - 52) (-1074)
    let y : ℚ := (roundHalfEven (x / pow2 e) : ℚ) * pow2 e
    if y = 0 then Float64.zero (decide (x < 0))
    else if 1024 ≤ floorLog2 |y| then .inf (decide (x < 0))
    else .finite y

/-- A numeral denotes the binary64 value nearest to it, which for a numeral up
to `2 ^ 53` is the numeral itself. -/
instance (n : Nat) : OfNat Float64 n :=
  ⟨if n ≤ 9007199254740992 then .finite n else roundFloat64 n⟩

/-- Go conversion `float64(n)` of an integer `n`. -/
def Float64.ofInt (n : Int) : Float64 := roundFloat64 n

/-- Go `x * y` on `float64`. -/
def Float64.mul : Float64 → Float64 → Float64
  | .nan, _ => .nan
  | _, .nan => .nan
  | .inf s, .inf t => .inf (s != t)
  | .inf s, y => if y.toRat = 0 then .nan else .inf (s != y.signBit)
  | x, .inf t => if x.toRat = 0 then .nan else .inf (x.signBit != t)
  | x, y =>
    if x.toRat * y.toRat = 0 then Float64.zero (x.signBit != y.signBit)
    else roundFloat64 (x.toRat * y.toRat)

/-- Go `x / y` on `float64`. -/
def Float64.div : Float64 → Float64 → Float64
  | .nan, _ => .nan
  | _, .nan => .nan
  | .inf _, .inf _ => .nan
  | .inf s, y => .inf (s != y.signBit)
  | x, .inf t => Float64.zero (x.signBit != t)
  | x, y =>
    if y.toRat = 0 then
      if x.toRat = 0 then .nan else .inf (x.signBit != y.signBit)
    else if x.toRat = 0 then Float64.zero (x.signBit != y.signBit)
    else roundFloat64 (x.toRat / y.toRat)

/-- Go `x + y` on `float64`. -/
def Float64.add : Float64 → Float64 → Float64
  | .nan, _ => .nan
  | _, .nan => .nan
  | .inf s, .inf t => if s = t then .inf s else .nan
  | .inf s, _ => .inf s
  | _, .inf t => .inf t
  | x, y =>
    if x.toRat + y.toRat = 0 then Float64.zero (x.signBit && y.signBit)
    else roundFloat64 (x.toRat + y.toRat)

/-- Go conversion `int(x)` of a `float64` `x`: the fraction is discarded
(truncation toward zero); a value that does not fit `int64`, and NaN, convert
to the smallest `int64`, as on amd64. -/
def Float64.toInt : Float64 → Int
  | .finite value =>
    let n : Int := if 0 ≤ value then Rat.floor value else -Rat.floor (-value)
    if minInt64 ≤ n ∧ n ≤ maxInt64 then n else minInt64
  | .negZero => 0
  | _ => minInt64

/-! ## Rows of the store -/

deriving instance DecidableEq for Except

/-- Errors a store statement can return to the caller. -/
inductive StoreError where
  /-- transient failure of the statement (connection, timeout, lock) -/
  | fault
  /-- Go `sql.ErrNoRows`: `QueryRow(...).Scan` found no row -/
  | noRows
  /-- the statement was rejected because of the data it was given -/
  | rejected
  deriving DecidableEq, Repr

/-- Go struct `models.Appointment`, one row of table `appointments`. -/
structure Appointment where
  ID : String
  PatientID : String
  ClinicID : String
  DoctorID : String
  DepartmentID : Option String
  BookingNumber : String
  AppointmentDate : Option String
  AppointmentTime : Time
  DurationMinutes : Int
  ConsultationType : String
  Reason : Option String
  Notes : Option String
  Status : String
  FeeAmount : Option Float64
  PaymentStatus : String
  PaymentMode : Option String
  IsPriority : Bool
  CreatedAt : Time
  deriving DecidableEq, Repr

/-- Go struct `models.PatientCheckin`, one row of table `patient_checkins`. -/
structure PatientCheckin where
  ID : String
  AppointmentID : String
  CheckinTime : Time
  VitalsRecorded : Bool
  PaymentCollected : Bool
  CheckedInBy : Option String
  CreatedAt : Time
  deriving DecidableEq, Repr

/-- Columns of table `users` read by the appointment service. -/
structure UserRow where
  ID : String
  FirstName : String
  LastName : String
  IsActive : Bool
  deriving DecidableEq, Repr

/-- Columns of table `patients` read or written by the appointment service. -/
structure PatientRow where
  ID : String
  UserID : String
  IsActive : Bool
  deriving DecidableEq, Repr

/-- One row of table `patient_clinics`. -/
structure PatientClinicRow where
  PatientID : String
  ClinicID : String
  IsPrimary : Bool
  deriving DecidableEq, Repr

/-- Columns of table `clinics` read by the appointment service. -/
structure ClinicRow where
  ID : String
  ClinicCode : String
  IsActive : Bool
  deriving DecidableEq, Repr

/-- Columns of table `doctors` read by the appointment service (struct
`models.Doctor` of the organization service). -/
structure DoctorRow where
  ID : String
  UserID : String
  ClinicID : String
  DoctorCode : Option String
  Specialization : Option String
  ConsultationFee : Option Float64
  FollowUpFee : Option Float64
  FollowUpDays : Option Int
  deriving DecidableEq, Repr

/-- Go struct `models.DoctorInfo`. -/
structure DoctorInfo where
  ID : String
  UserID : String
  DoctorCode : Option String
  Specialization : Option String
  FirstName : String
  LastName : String
  ConsultationFee : Option Float64
  FollowUpFee : Option Float64
  FollowUpDays : Option Int
  deriving DecidableEq, Repr

/-- Go struct `models.TimeSlot`. -/
structure TimeSlot where
  StartTime : Time
  EndTime : Time
  IsAvailable : Bool
  IsBooked : Bool
  AppointmentID : Option String
  deriving DecidableEq, Repr

/-- Columns of table `doctor_schedules` read by the appointment service; the
two clock times are the texts that `rows.Scan` stores in the Go strings. -/
structure DoctorScheduleRow where
  DoctorID : String
  DayOfWeek : Int
  StartTime : String
  EndTime : String
  SlotDurationMinutes : Int
  IsActive : Bool
  deriving DecidableEq, Repr

/-- The relational store behind `config.DB`. -/
structure DB where
  users : List UserRow
  patients : List PatientRow
  patient_clinics : List PatientClinicRow
  clinics : List ClinicRow
  doctors : List DoctorRow
  appointments : List Appointment
  patient_checkins : List PatientCheckin
  doctor_schedules : List DoctorScheduleRow := []
  deriving DecidableEq, Repr

/-! ## `utils.CheckDoctorAvailability` -/

/-- SQL `status NOT IN ('cancelled', 'no_show')`. -/
def statusNotCancelledOrNoShow (status : String) : Bool :=
  !(status == "cancelled" || status == "no_show")

/-- SQL `appointment_time + INTERVAL '1 minute' * duration_minutes`. -/
def Appointment.endTime (a : Appointment) : Time :=
  a.AppointmentTime + a.DurationMinutes * Minute

/-- The parenthesised disjunction in the `WHERE` clause of the query in
`CheckDoctorAvailability`, with `$2 = $3` the candidate start and `$4 = $5`
the candidate end. -/
def timesConflict (appointmentTime endTime : Time) (a : Appointment) : Bool :=
  (decide (a.AppointmentTime ≤ appointmentTime) && decide (a.endTime > appointmentTime))
  || (decide (a.AppointmentTime < endTime) && decide (a.endTime ≥ endTime))

/-- The `WHERE` clause of the query in `CheckDoctorAvailability`, with `$1` the
doctor. -/
def conflictsWith (doctorID : String) (appointmentTime endTime : Time) (a : Appointment) : Bool :=
  a.DoctorID == doctorID
  && statusNotCancelledOrNoShow a.Status
  && timesConflict appointmentTime endTime a

/-- Go function `utils.CheckDoctorAvailability`. -/
def CheckDoctorAvailability (db : DB) (queryFails : Bool) (doctorID : String)
    (appointmentTime : Time) (durationMinutes : Option Int) : Except StoreError Bool :=
  let duration : Int := match durationMinutes with
    | some d => d
    | none => 12
  let endTime := appointmentTime + minutesDuration duration
  if queryFails then
    .error .fault
  else
    let count := (db.appointments.filter (conflictsWith doctorID appointmentTime endTime)).length
    .ok (count == 0)

/-! ## `utils.CalculateAppointmentFee` -/

/-- The zero `time.Time`, 0001-01-01 00:00:00 UTC (what `IsZero` tests for). -/
def zeroTime : Time := -62135596800000000000

/-- Go `t.Sub(u)`: the difference as an `int64` duration, saturated at the
smallest and largest duration when it does not fit. -/
def timeSub (t u : Time) : Int :=
  if minInt64 ≤ t - u ∧ t - u ≤ maxInt64 then t - u
  else if t < u then minInt64
  else maxInt64

/-- Go `d.Hours()` of package `time`:
`hour := d / Hour; nsec := d % Hour; return float64(hour) + float64(nsec)/(60*60*1e9)`,
the integer division and remainder truncating toward zero. -/
def durationHours (d : Int) : Float64 :=
  let hour := Int.tdiv d Hour
  let nsec := Int.tmod d Hour
  Float64.add (Float64.ofInt hour)
    (Float64.div (Float64.ofInt nsec) (roundFloat64 (60 * 60 * 1e9)))

/-- Largest element of a list of instants (SQL `MAX`), `none` for no rows. -/
def maxTime : List Time → Option Time
  | [] => none
  | t :: ts =>
    match maxTime ts with
    | none => some t
    | some m => some (if m ≤ t then t else m)

/-- The query of the `followup` branch:
`SELECT MAX(appointment_time) FROM appointments WHERE patient_id = $1 AND
doctor_id = $2 AND status = 'completed'`; `none` is SQL `NULL`. -/
def lastCompletedAppointment (db : DB) (patientID doctorID : String) : Option Time :=
  maxTime ((db.appointments.filter (fun a =>
    a.PatientID == patientID && a.DoctorID == doctorID && a.Status == "completed")).map
      (fun a => a.AppointmentTime))

/-- Go expression `int(time.Since(lastAppointment).Hours() / 24)` evaluated at
instant `now`. -/
def daysSinceLastVisit (now lastAppointment : Time) : Int :=
  Float64.toInt (Float64.div (durationHours (timeSub now lastAppointment)) 24)

/-- Go function `utils.CalculateAppointmentFee`, evaluated at instant `now`.
A `nil` result is `none`. Scanning an SQL `NULL` into a `time.Time` is an
error, as is a failed query; both leave the follow-up fee in force. -/
def CalculateAppointmentFee (db : DB) (queryFails : Bool) (now : Time) (doctor : DoctorInfo)
    (consultationType : String) (patientID : String) : Option Float64 :=
  if consultationType = "new" then
    doctor.ConsultationFee
  else if consultationType = "followup" then
    let scanned : Option Time :=
      if queryFails then none else lastCompletedAppointment db patientID doctor.ID
    match scanned with
    | some lastAppointment =>
      if lastAppointment ≠ zeroTime then
        match doctor.FollowUpDays with
        | some followUpDays =>
          if daysSinceLastVisit now lastAppointment ≤ followUpDays then none
          else doctor.FollowUpFee
        | none => doctor.FollowUpFee
      else doctor.FollowUpFee
    | none => doctor.FollowUpFee
  else if consultationType = "walkin" ∨ consultationType = "emergency" then
    match doctor.ConsultationFee with
    | some fee => some (Float64.mul fee (roundFloat64 1.2))
    | none => doctor.ConsultationFee
  else
    doctor.ConsultationFee

/-! ## Calendar dates and decimal text

The Go standard library functions used by the service (`time.Parse`,
`Time.Format`, `fmt.Sprintf`), restricted to the layouts and verbs that occur
in it. All instants the service builds come from `time.Parse` on layouts
without a zone, so they are in UTC and so is every calendar computation. -/

/-- Nanoseconds in a second (`time.Second`). -/
def Second : Int := 1000000000

/-- Nanoseconds in a civil day. -/
def Day : Int := 86400000000000

/-- Proleptic Gregorian date `(year, month, day)` of the day that lies `z`
days after 1970-01-01. Days are counted from 0000-03-01 and split into cycles
of 400 years, centuries, cycles of 4 years and years that begin in March; the
month and the day follow from the day of that year. -/
def civilFromDays (z : Int) : Int × Int × Int :=
  let z1 := z + 719468
  let era := z1 / 146097
  let doe := z1 % 146097
  let c := if doe / 36524 < 4 then doe / 36524 else 3
  let r1 := doe - 36524 * c
  let q := r1 / 1461
  let r2 := r1 - 1461 * q
  let yy := if r2 / 365 < 4 then r2 / 365 else 3
  let doy := r2 - 365 * yy
  let yoe := 100 * c + 4 * q + yy
  let mp := (5 * doy + 2) / 153
  let d := doy - (153 * mp + 2) / 5 + 1
  let m := if mp < 10 then mp + 3 else mp - 9
  let y := yoe + era * 400
  (if m ≤ 2 then y + 1 else y, m, d)

/-- Number of days from 1970-01-01 to the given proleptic Gregorian date. -/
def daysFromCivil (y m d : Int) : Int :=
  let y1 := if m ≤ 2 then y - 1 else y
  let era := y1 / 400
  let yoe := y1 % 400
  let doy := (153 * (if m > 2 then m - 3 else m + 9) + 2) / 5 + d - 1
  let doe := yoe * 365 + yoe / 4 - yoe / 100 + doy
  era * 146097 + doe - 719468

/-- Go `t.Year()`, `t.Month()`, `t.Day()` of an instant in UTC. -/
def civilDate (t : Time) : Int × Int × Int := civilFromDays (t / Day)

/-- Go `t.Hour()` in UTC. -/
def hourOf (t : Time) : Int := t % Day / Hour

/-- Go `t.Minute()` in UTC. -/
def minuteOf (t : Time) : Int := t % Hour / Minute

/-- Go `t.Second()` in UTC. -/
def secondOf (t : Time) : Int := t % Minute / Second

/-- Go `time.Date(year, month, day, hour, min, sec, 0, time.UTC)`. -/
def timeDate (year month day hour min sec : Int) : Time :=
  daysFromCivil year month day * Day + hour * Hour + min * Minute + sec * Second

/-- The character of a decimal digit `0..9`. -/
def digitChar (n : Nat) : Char := Char.ofNat (48 + n % 10)

/-- Decimal digits of `n`, most significant first, appended in front of `acc`;
`fuel` bounds the number of digits produced. -/
def decimalAux : Nat → Nat → List Char → List Char
  | 0, _, acc => acc
  | fuel + 1, n, acc =>
    if n / 10 = 0 then digitChar n :: acc
    else decimalAux fuel (n / 10) (digitChar n :: acc)

/-- Decimal representation of a natural number (`strconv.Itoa`). -/
def decimal (n : Nat) : List Char := decimalAux (n + 1) n []

/-- Decimal digits of `n`, left-padded with zeros to at least `width` digits. -/
def zeroPad (width : Nat) (n : Nat) : List Char :=
  List.replicate (width - (decimal n).length) '0' ++ decimal n

/-- Go `appendInt(b, x, width)` of package `time`: an optional minus sign, then
the digits padded with zeros to `width`. -/
def appendInt (x : Int) (width : Nat) : List Char :=
  if x < 0 then '-' :: zeroPad width x.natAbs else zeroPad width x.natAbs

/-- Go `fmt.Sprintf("%04d", x)`: zero padding to a total width of four, the
sign included. -/
def sprintf04d (x : Int) : List Char :=
  if x < 0 then '-' :: zeroPad 3 x.natAbs else zeroPad 4 x.natAbs

/-- Go `t.Format("20060102")`. -/
def format20060102 (t : Time) : List Char :=
  let (y, m, d) := civilDate t
  appendInt y 4 ++ appendInt m 2 ++ appendInt d 2

/-- Go `t.Format("2006-01-02")`. -/
def formatDashedDate (t : Time) : List Char :=
  let (y, m, d) := civilDate t
  appendInt y 4 ++ '-' :: appendInt m 2 ++ '-' :: appendInt d 2

/-- Value of a decimal digit character. -/
def digitValue (c : Char) : Nat := c.toNat - 48

/-- Value of a string of decimal digits, read left to right onto `acc`. -/
def decimalValue (acc : Nat) : List Char → Nat
  | [] => acc
  | c :: cs => decimalValue (acc * 10 + digitValue c) cs

/-- Go `getnum(s, fixed)` of package `time`: one or two leading digits (exactly
two when `fixed`) and the rest of the text. -/
def getnum (s : List Char) (fixed : Bool) : Option (Int × List Char) :=
  match s with
  | [] => none
  | c0 :: rest =>
    if !c0.isDigit then none
    else
      match rest with
      | [] => if fixed then none else some ((digitValue c0 : Nat), [])
      | c1 :: rest1 =>
        if c1.isDigit then some ((digitValue c0 * 10 + digitValue c1 : Nat), rest1)
        else if fixed then none
        else some ((digitValue c0 : Nat), rest)

/-- The four-digit year field `2006` of a layout. -/
def getYear (s : List Char) : Option (Int × List Char) :=
  match s with
  | a :: b :: c :: d :: rest =>
    if a.isDigit && b.isDigit && c.isDigit && d.isDigit then
      some ((decimalValue 0 [a, b, c, d] : Nat), rest)
    else none
  | _ => none

/-- A literal character of a layout. -/
def expectChar (c : Char) (s : List Char) : Option (List Char) :=
  match s with
  | [] => none
  | x :: rest => if x = c then some rest else none

/-- Go `daysIn(month, year)`. -/
def daysIn (month year : Int) : Int :=
  if month = 2 then
    if year % 4 = 0 ∧ (year % 100 ≠ 0 ∨ year % 400 = 0) then 29 else 28
  else if month = 4 ∨ month = 6 ∨ month = 9 ∨ month = 11 then 30
  else 31

/-- The fields `2006-01-02` at the head of a text: year, month and day (not yet
validated against the length of the month) and the rest of the text. -/
def parseDateFields (s : List Char) : Option (Int × Int × Int × List Char) := do
  let (year, s) ← getYear s
  let s ← expectChar '-' s
  let (month, s) ← getnum s true
  if month ≤ 0 ∨ 12 < month then none
  let s ← expectChar '-' s
  let (day, s) ← getnum s true
  pure (year, month, day, s)

/-- Go `time.Parse("2006-01-02", value)`. -/
def parseDate (value : String) : Option Time := do
  let (year, month, day, s) ← parseDateFields value.data
  if !s.isEmpty then none
  if day < 1 ∨ day > daysIn month year then none
  pure (timeDate year month day 0 0 0)

/-- Nanoseconds of a fractional second that follows the seconds field in the
input although the layout has none (Go `parseNanoseconds`): the separator is
followed by `digits`, of which the first nine count. -/
def parseNanoseconds (digits : List Char) : Int :=
  let used := digits.take 9
  ((decimalValue 0 used * 10 ^ (9 - used.length) : Nat) : Int)

/-- Go `time.Parse("2006-01-02 15:04:05", value)`. -/
def parseDateTime (value : String) : Option Time := do
  let (year, month, day, s) ← parseDateFields value.data
  let s ← expectChar ' ' s
  let (hour, s) ← getnum s false
  if 24 ≤ hour then none
  let s ← expectChar ':' s
  let (min, s) ← getnum s true
  if 60 ≤ min then none
  let s ← expectChar ':' s
  let (sec, s) ← getnum s true
  if 60 ≤ sec then none
  let (nsec, s) :=
    match s with
    | sep :: d :: rest =>
      if (sep = '.' ∨ sep = ',') ∧ d.isDigit then
        (parseNanoseconds ((d :: rest).takeWhile Char.isDigit), (d :: rest).dropWhile Char.isDigit)
      else (0, s)
    | _ => (0, s)
  if !s.isEmpty then none
  if day < 1 ∨ day > daysIn month year then none
  pure (timeDate year month day hour min sec + nsec)

/-! ## `utils.GenerateBookingNumber` -/

/-- SQL `text LIKE pattern` with the default escape character: `%` matches any
run of characters, `_` any one character, a backslash makes the next pattern
character literal. A pattern that ends in a lone backslash is an error in the
store; the patterns built by the service end in `%`, and the case is given no
match here. -/
def likeMatch : List Char → List Char → Bool
  | [], s => s.isEmpty
  | [p], s =>
    if p = '%' then true
    else if p = Char.ofNat 92 then false
    else
      match s with
      | [c] => p = '_' || c = p
      | _ => false
  | p :: q :: ps, s =>
    if p = '%' then s.tails.any (likeMatch (q :: ps))
    else if p = Char.ofNat 92 then
      match s with
      | c :: rest => c = q && likeMatch ps rest
      | [] => false
    else
      match s with
      | c :: rest => (p = '_' || c = p) && likeMatch (q :: ps) rest
      | [] => false

/-- SQL `SUBSTRING(text FROM '.*-.*-(.*)$')`: the text after the last hyphen
of a text with at least two hyphens, `NULL` (`none`) for any other text. -/
def substringSerial (s : List Char) : Option (List Char) :=
  if 2 ≤ s.count '-' then some (s.reverse.takeWhile (fun c => c ≠ '-')).reverse
  else none

/-- White space skipped by the integer input routine of the store. -/
def isSqlSpace (c : Char) : Bool :=
  c = ' ' || (9 ≤ c.toNat && c.toNat ≤ 13)

/-- SQL `CAST(text AS INTEGER)`: optional white space, an optional sign,
decimal digits, optional white space; an error (`none`) for any other text and
for a value outside the 32-bit range. -/
def castInteger (s : List Char) : Option Int :=
  let s1 := s.dropWhile isSqlSpace
  let signed : Bool × List Char :=
    match s1 with
    | c :: rest => if c = '-' then (true, rest) else if c = '+' then (false, rest) else (false, s1)
    | [] => (false, s1)
  let digits := signed.2.takeWhile Char.isDigit
  let rest := (signed.2.dropWhile Char.isDigit).dropWhile isSqlSpace
  if digits.isEmpty || !rest.isEmpty then none
  else
    let v : Int := if signed.1 then -(decimalValue 0 digits : Int) else (decimalValue 0 digits : Int)
    if -2147483648 ≤ v ∧ v ≤ 2147483647 then some v else none

/-- SQL `MAX(CAST(SUBSTRING(booking_number FROM '.*-.*-(.*)$') AS INTEGER))`
over the given booking numbers: `none` inside `ok` is `NULL`; an error when a
cast fails. -/
def maxSerial : List (List Char) → Except StoreError (Option Int)
  | [] => .ok none
  | b :: bs =>
    match substringSerial b with
    | none => maxSerial bs
    | some txt =>
      match castInteger txt with
      | none => .error .rejected
      | some v =>
        match maxSerial bs with
        | .error e => .error e
        | .ok none => .ok (some v)
        | .ok (some m) => .ok (some (if m ≤ v then v else m))

/-- The second query of `GenerateBookingNumber`:
`SELECT COALESCE(MAX(CAST(SUBSTRING(booking_number FROM '.*-.*-(.*)$') AS
INTEGER)), 0) + 1 FROM appointments WHERE booking_number LIKE $1`. The sum is
a 32-bit integer in the store and out of range is an error. -/
def nextSerialQuery (db : DB) (pattern : List Char) : Except StoreError Int :=
  match maxSerial ((db.appointments.map (fun a => a.BookingNumber.data)).filter
      (likeMatch pattern)) with
  | .error e => .error e
  | .ok m =>
    let next : Int := (match m with
      | some v => v
      | none => 0) + 1
    if next ≤ 2147483647 then .ok next else .error .rejected

/-- The first query of `GenerateBookingNumber`:
`SELECT c.clinic_code FROM clinics c JOIN doctors d ON d.clinic_id = c.id
WHERE d.id = (SELECT id FROM doctors WHERE doctor_code = $1 LIMIT 1)`.
A `nil` code is SQL `NULL`, which equals nothing. `LIMIT 1` and `QueryRow`
take the first row in the order of the row lists. -/
def clinicCodeQuery (db : DB) (doctorCode : Option String) : Except StoreError String :=
  match doctorCode with
  | none => .error .noRows
  | some code =>
    match db.doctors.find? (fun d => d.DoctorCode == some code) with
    | none => .error .noRows
    | some d0 =>
      match ((db.doctors.filter (fun d => d.ID == d0.ID)).flatMap (fun d =>
          db.clinics.filter (fun c => c.ID == d.ClinicID))).head? with
      | none => .error .noRows
      | some c => .ok c.ClinicCode

/-- The scope code chosen by `GenerateBookingNumber`: the doctor code when it
is neither `nil` nor empty, otherwise the clinic code. -/
def scopeCode (doctorCode : Option String) (clinicCode : String) : String :=
  match doctorCode with
  | some dc => if dc ≠ "" then dc else clinicCode
  | none => clinicCode

/-- Go function `utils.GenerateBookingNumber`. -/
def GenerateBookingNumber (db : DB) (clinicQueryFails serialQueryFails : Bool)
    (doctorCode : Option String) (appointmentTime : Time) : Except StoreError String :=
  match (if clinicQueryFails then .error .fault else clinicCodeQuery db doctorCode) with
  | .error e => .error e
  | .ok clinicCode =>
    let code := scopeCode doctorCode clinicCode
    let dateStr := format20060102 appointmentTime
    match (if serialQueryFails then .error .fault
           else nextSerialQuery db (code.data ++ '-' :: dateStr ++ ['-', '%'])) with
    | .error e => .error e
    | .ok serialNo => .ok (String.mk (code.data ++ '-' :: dateStr ++ '-' :: sprintf04d serialNo))

/-! ## `utils.GenerateTimeSlots` -/

/-- The query inside the loop of `GenerateTimeSlots`:
`SELECT id FROM appointments WHERE doctor_id = $1 AND appointment_time = $2
AND status NOT IN ('cancelled', 'no_show')`, scanned with `QueryRow`. -/
def bookedAppointmentAt (db : DB) (doctorID : String) (current : Time) : Option String :=
  (db.appointments.find? (fun a =>
    a.DoctorID == doctorID && a.AppointmentTime == current
      && statusNotCancelledOrNoShow a.Status)).map (fun a => a.ID)

/-- The `for current.Before(endDateTime)` loop of `GenerateTimeSlots`, run for
at most `fuel` iterations; `none` when the loop is still running after them.
`queryFails current` tells whether the lookup for the slot that starts at
`current` returns an error. -/
def GenerateTimeSlotsLoop (db : DB) (queryFails : Time → Bool) (doctorID : String)
    (endDateTime : Time) (slotDuration : Int) :
    Nat → Time → List TimeSlot → Option (List TimeSlot)
  | 0, current, slots => if current < endDateTime then none else some slots
  | fuel + 1, current, slots =>
    if current < endDateTime then
      let slotEnd := current + minutesDuration slotDuration
      let appointmentID : Option String :=
        if queryFails current then none else bookedAppointmentAt db doctorID current
      let isBooked := appointmentID.isSome
      GenerateTimeSlotsLoop db queryFails doctorID endDateTime slotDuration fuel slotEnd
        (slots ++ [{ StartTime := current, EndTime := slotEnd, IsAvailable := !isBooked,
                     IsBooked := isBooked, AppointmentID := appointmentID }])
    else some slots

/-- The instant `startDateTime` (and `endDateTime`) of `GenerateTimeSlots`: the
calendar day of `targetDate` with the clock time of `clock`. -/
def combineDateTime (targetDate clock : Time) : Time :=
  let (y, m, d) := civilDate targetDate
  timeDate y m d (hourOf clock) (minuteOf clock) (secondOf clock)

/-- Go function `utils.GenerateTimeSlots`, run for at most `fuel` iterations of
its loop. -/
def GenerateTimeSlots (db : DB) (queryFails : Time → Bool) (fuel : Nat)
    (targetDate startTime endTime : Time) (slotDuration : Int) (doctorID : String) :
    Option (List TimeSlot) :=
  GenerateTimeSlotsLoop db queryFails doctorID (combineDateTime targetDate endTime) slotDuration
    fuel (combineDateTime targetDate startTime) []

/-! ## `controllers.CreateAppointment` -/

/-- Go struct `controllers.CreateAppointmentInput`; `AppointmentDate` and
`AppointmentTime` are the texts of the request. -/
structure CreateAppointmentInput where
  UserID : Option String
  PatientID : Option String
  ClinicID : String
  DoctorID : String
  DepartmentID : Option String
  AppointmentDate : String
  AppointmentTime : String
  DurationMinutes : Option Int
  ConsultationType : String
  Reason : Option String
  Notes : Option String
  IsPriority : Option Bool
  PaymentMode : Option String
  deriving DecidableEq, Repr

/-- Binding tag `uuid`: 36 characters, hyphens at positions 8, 13, 18 and 23,
lower-case hexadecimal digits elsewhere. -/
def isUUID (s : String) : Bool :=
  s.data.length == 36 &&
    (List.range 36).all (fun i =>
      if i = 8 ∨ i = 13 ∨ i = 18 ∨ i = 23 then s.data.getD i ' ' == '-'
      else
        let c := s.data.getD i ' '
        c.isDigit || (decide ('a' ≤ c) && decide (c ≤ 'f')))

/-- Binding tags `omitempty,uuid` on an optional text. -/
def omitemptyUUID (v : Option String) : Bool :=
  match v with
  | none => true
  | some s => s == "" || isUUID s

/-- The binding tags of `CreateAppointmentInput`, checked by `ShouldBindJSON`;
a duration in the request has to fit the Go type `int`. -/
def bindCreateAppointmentInput (input : CreateAppointmentInput) : Bool :=
  omitemptyUUID input.UserID
  && omitemptyUUID input.PatientID
  && isUUID input.ClinicID
  && isUUID input.DoctorID
  && omitemptyUUID input.DepartmentID
  && input.AppointmentDate != ""
  && input.AppointmentTime != ""
  && (match input.DurationMinutes with
      | none => true
      | some d => decide (minInt64 ≤ d) && decide (d ≤ maxInt64))
  && (input.ConsultationType == "new" || input.ConsultationType == "followup"
      || input.ConsultationType == "walkin" || input.ConsultationType == "emergency")
  && (match input.PaymentMode with
      | none => true
      | some m => m == "" || m == "cash" || m == "card" || m == "upi")

/-- What the environment contributes to one request: the clock and the
identifiers the store generates for inserted rows. -/
structure RequestEnv where
  now : Time
  newPatientID : String
  newAppointmentID : String
  newCheckinID : String
  deriving DecidableEq, Repr

/-- One fault flag for each store statement of `CreateAppointment`, in the
order of the source. -/
structure CreateAppointmentFaults where
  checkPatient : Bool := false
  checkUser : Bool := false
  findPatient : Bool := false
  insertPatient : Bool := false
  insertPatientClinic : Bool := false
  checkClinic : Bool := false
  getDoctor : Bool := false
  checkAvailability : Bool := false
  lastAppointment : Bool := false
  clinicCode : Bool := false
  nextSerial : Bool := false
  insertAppointment : Bool := false
  updatePaymentStatus : Bool := false
  insertCheckin : Bool := false
  deriving DecidableEq, Repr

/-- The responses of `CreateAppointment`. -/
inductive Response where
  /-- Go `security.SendValidationError(c, message, details)`, status 400 -/
  | validationError (message : String)
  /-- Go `security.SendNotFoundError(c, resource)`, status 404 -/
  | notFoundError (resource : String)
  /-- Go `security.SendDatabaseError(c, message)`, status 500 -/
  | databaseError (message : String)
  /-- status 201 with the appointment, and the patient identifier when the
  patient record was created by the request -/
  | created (appointment : Appointment) (createdPatient : Option String)
  deriving DecidableEq, Repr

/-- Modelled from the spec: the column defaults of table `appointments`, whose
schema is not part of the sources: a new appointment has status `booked`. -/
def defaultStatus : String := "booked"

/-- Modelled from the spec: the column defaults of table `appointments`, whose
schema is not part of the sources: a new appointment has payment status
`pending`. -/
def defaultPaymentStatus : String := "pending"

/-- The patient stage of `CreateAppointment`: the patient identifier the
appointment is made for, whether a patient record was created, and the store
after the stage; or the response that ends the request (the store is then
unchanged). -/
def resolvePatient (db : DB) (env : RequestEnv) (faults : CreateAppointmentFaults)
    (input : CreateAppointmentInput) : Except Response (DB × String × Bool) :=
  match input.PatientID, input.UserID with
  | some pid, userID =>
    if pid ≠ "" then
      if faults.checkPatient then .error (.databaseError "Database error while checking patient")
      else if db.patients.any (fun p => p.ID == pid && p.IsActive
          && db.users.any (fun u => u.ID == p.UserID && u.IsActive)) then
        .ok (db, pid, false)
      else .error (.notFoundError "patient")
    else resolveUser userID
  | none, userID => resolveUser userID
where
  /-- The `else if input.UserID != nil` branch. -/
  resolveUser (userID : Option String) : Except Response (DB × String × Bool) :=
    match userID with
    | none => .ok (db, "", false)
    | some uid =>
      if uid = "" then .ok (db, "", false)
      else if faults.checkUser then .error (.databaseError "Database error while checking user")
      else if !db.users.any (fun u => u.ID == uid && u.IsActive) then
        .error (.notFoundError "user")
      else
        let found : Option PatientRow :=
          if faults.findPatient then none
          else db.patients.find? (fun p => p.UserID == uid && p.IsActive)
        match found with
        | some p => .ok (db, p.ID, false)
        | none =>
          if faults.insertPatient then .error (.databaseError "Failed to create patient record")
          else
            let db1 := { db with patients := db.patients ++
              [{ ID := env.newPatientID, UserID := uid, IsActive := true }] }
            let db2 :=
              if faults.insertPatientClinic
                  || db1.patient_clinics.any (fun pc =>
                      pc.PatientID == env.newPatientID && pc.ClinicID == input.ClinicID) then db1
              else { db1 with patient_clinics := db1.patient_clinics ++
                [{ PatientID := env.newPatientID, ClinicID := input.ClinicID, IsPrimary := true }] }
            .ok (db2, env.newPatientID, true)

/-- The doctor query of `CreateAppointment`:
`SELECT d.id, ..., u.first_name, u.last_name, u.is_active FROM doctors d
JOIN users u ON u.id = d.user_id WHERE d.id = $1`, first row. -/
def getDoctor (db : DB) (doctorID : String) : Option (DoctorInfo × Bool) :=
  ((db.doctors.filter (fun d => d.ID == doctorID)).flatMap (fun d =>
    (db.users.filter (fun u => u.ID == d.UserID)).map (fun u =>
      (({ ID := d.ID, UserID := d.UserID, DoctorCode := d.DoctorCode,
          Specialization := d.Specialization, FirstName := u.FirstName,
          LastName := u.LastName, ConsultationFee := d.ConsultationFee,
          FollowUpFee := d.FollowUpFee, FollowUpDays := d.FollowUpDays } : DoctorInfo),
        u.IsActive)))).head?

/-- The `INSERT INTO appointments ... RETURNING ...` statement of
`CreateAppointment`: the row as the store completes it. -/
def newAppointmentRow (env : RequestEnv) (input : CreateAppointmentInput) (patientID : String)
    (bookingNumber : String) (appointmentDate appointmentTime : Time) (durationMinutes : Int)
    (feeAmount : Option Float64) (isPriority : Bool) : Appointment :=
  { ID := env.newAppointmentID
    PatientID := patientID
    ClinicID := input.ClinicID
    DoctorID := input.DoctorID
    DepartmentID := input.DepartmentID
    BookingNumber := bookingNumber
    AppointmentDate := some (String.mk (formatDashedDate appointmentDate))
    AppointmentTime := appointmentTime
    DurationMinutes := durationMinutes
    ConsultationType := input.ConsultationType
    Reason := input.Reason
    Notes := input.Notes
    Status := defaultStatus
    FeeAmount := feeAmount
    PaymentStatus := defaultPaymentStatus
    PaymentMode := input.PaymentMode
    IsPriority := isPriority
    CreatedAt := env.now }

/-- Modelled from the spec: the patient reference of an appointment (the
schema is not part of the sources): the store accepts an appointment row only
for a patient identifier that names a patient record. -/
def patientReferenceHolds (db : DB) (patientID : String) : Bool :=
  db.patients.any (fun p => p.ID == patientID)

/-- SQL `UPDATE appointments SET payment_status = 'paid' WHERE id = $1`. -/
def markPaid (db : DB) (appointmentID : String) : DB :=
  { db with appointments := db.appointments.map (fun a =>
      if a.ID = appointmentID then { a with PaymentStatus := "paid" } else a) }

/-- SQL `INSERT INTO patient_checkins (appointment_id, payment_collected)
VALUES ($1, true)`, the other columns at their defaults. -/
def autoCheckinRow (env : RequestEnv) (appointmentID : String) : PatientCheckin :=
  { ID := env.newCheckinID
    AppointmentID := appointmentID
    CheckinTime := env.now
    VitalsRecorded := false
    PaymentCollected := true
    CheckedInBy := none
    CreatedAt := env.now }

/-- Go function `controllers.CreateAppointment`: the store after the request
and the response. -/
def CreateAppointment (db : DB) (env : RequestEnv) (faults : CreateAppointmentFaults)
    (input : CreateAppointmentInput) : DB × Response :=
  if !bindCreateAppointmentInput input then (db, .validationError "Invalid input data")
  else if input.UserID.isNone && input.PatientID.isNone then
    (db, .validationError "Missing required field")
  else
    match parseDate input.AppointmentDate with
    | none => (db, .validationError "Invalid appointment date format")
    | some appointmentDate =>
    match parseDateTime input.AppointmentTime with
    | none => (db, .validationError "Invalid appointment time format")
    | some appointmentTime =>
    match resolvePatient db env faults input with
    | .error response => (db, response)
    | .ok (db1, patientID, patientCreated) =>
    if faults.checkClinic then (db1, .databaseError "Database error while checking clinic")
    else if !db1.clinics.any (fun c => c.ID == input.ClinicID && c.IsActive) then
      (db1, .notFoundError "clinic")
    else
      match (if faults.getDoctor then none else getDoctor db1 input.DoctorID) with
      | none => (db1, .notFoundError "doctor")
      | some (doctor, isDoctorActive) =>
      if !isDoctorActive then (db1, .validationError "Doctor is inactive")
      else
        let durationMinutes : Int := match input.DurationMinutes with
          | some d => d
          | none => 12
        match CheckDoctorAvailability db1 faults.checkAvailability input.DoctorID appointmentTime
            (some durationMinutes) with
        | .error _ => (db1, .databaseError "Failed to check doctor availability")
        | .ok false => (db1, .validationError "Doctor not available")
        | .ok true =>
        let feeAmount := CalculateAppointmentFee db1 faults.lastAppointment env.now doctor
          input.ConsultationType patientID
        match GenerateBookingNumber db1 faults.clinicCode faults.nextSerial doctor.DoctorCode
            appointmentTime with
        | .error _ => (db1, .databaseError "Failed to generate booking number")
        | .ok bookingNumber =>
        let isPriority : Bool := match input.IsPriority with
          | some b => b
          | none => false
        if faults.insertAppointment || !patientReferenceHolds db1 patientID then
          (db1, .databaseError "Failed to create appointment")
        else
          let appointment := newAppointmentRow env input patientID bookingNumber appointmentDate
            appointmentTime durationMinutes feeAmount isPriority
          let db2 := { db1 with appointments := db1.appointments ++ [appointment] }
          let createdPatient := if patientCreated then some patientID else none
          match input.PaymentMode with
          | none => (db2, .created appointment createdPatient)
          | some mode =>
            if mode = "" then (db2, .created appointment createdPatient)
            else if faults.updatePaymentStatus then
              (db2, .databaseError "Failed to update payment status")
            else
              let db3 := markPaid db2 appointment.ID
              let db4 :=
                if faults.insertCheckin then db3
                else { db3 with patient_checkins := db3.patient_checkins ++
                  [autoCheckinRow env appointment.ID] }
              (db4, .created { appointment with PaymentStatus := "paid" } createdPatient)

/-- Whether the response reports a created appointment (status 201). -/
def Response.isCreated : Response → Bool
  | .created _ _ => true
  | _ => false

/-! ## `controllers.GetAvailableTimeSlots` -/

/-- Go `time.Parse("15:04:05", value)`: the clock time on 0000-01-01 UTC. -/
def parseClock (value : String) : Option Time := do
  let (hour, s) ← getnum value.data false
  if 24 ≤ hour then none
  let s ← expectChar ':' s
  let (min, s) ← getnum s true
  if 60 ≤ min then none
  let s ← expectChar ':' s
  let (sec, s) ← getnum s true
  if 60 ≤ sec then none
  let (nsec, s) :=
    match s with
    | sep :: d :: rest =>
      if (sep = '.' ∨ sep = ',') ∧ d.isDigit then
        (parseNanoseconds ((d :: rest).takeWhile Char.isDigit), (d :: rest).dropWhile Char.isDigit)
      else (0, s)
    | _ => (0, s)
  if !s.isEmpty then none
  pure (timeDate 0 1 1 hour min sec + nsec)

/-- Go `int(t.Weekday())` in UTC: Sunday is 0; 1970-01-01 was a Thursday. -/
def weekdayOf (t : Time) : Int := (t / Day + 4) % 7

/-- The `dayOfWeek` of `GetAvailableTimeSlots`: Monday is 1 and Sunday is
converted from 0 to 7. -/
def scheduleDayOfWeek (targetDate : Time) : Int :=
  if weekdayOf targetDate = 0 then 7 else weekdayOf targetDate

/-- The schedule query of `GetAvailableTimeSlots`:
`SELECT start_time, end_time, slot_duration_minutes FROM doctor_schedules
WHERE doctor_id = $1 AND day_of_week = $2 AND is_active = true`. -/
def scheduleRows (db : DB) (doctorID : String) (dayOfWeek : Int) : List DoctorScheduleRow :=
  db.doctor_schedules.filter (fun r =>
    r.DoctorID == doctorID && r.DayOfWeek == dayOfWeek && r.IsActive)

/-- The `for rows.Next()` loop of `GetAvailableTimeSlots`: a row whose clock
times do not parse is skipped, the slots of the other rows are appended in the
order of the rows; `none` when `GenerateTimeSlots` does not return within
`fuel` iterations for some row. -/
def collectTimeSlots (db : DB) (slotQueryFails : Time → Bool) (fuel : Nat) (targetDate : Time)
    (doctorID : String) : List DoctorScheduleRow → Option (List TimeSlot)
  | [] => some []
  | row :: rows =>
    match parseClock row.StartTime, parseClock row.EndTime with
    | some startTime, some endTime =>
      match GenerateTimeSlots db slotQueryFails fuel targetDate startTime endTime
          row.SlotDurationMinutes doctorID with
      | none => none
      | some slots =>
        match collectTimeSlots db slotQueryFails fuel targetDate doctorID rows with
        | none => none
        | some more => some (slots ++ more)
    | _, _ => collectTimeSlots db slotQueryFails fuel targetDate doctorID rows

/-- The responses of `GetAvailableTimeSlots`. -/
inductive SlotsResponse where
  /-- status 400 with `gin.H{"error": message}` -/
  | badRequest (message : String)
  /-- status 500 with `gin.H{"error": message}` -/
  | serverError (message : String)
  /-- status 200 with the slots -/
  | ok (timeSlots : List TimeSlot)
  deriving DecidableEq, Repr

/-- Go function `controllers.GetAvailableTimeSlots` with the query parameters
`doctor_id` and `date`; `none` when it does not return within `fuel`
iterations of a slot loop. -/
def GetAvailableTimeSlots (db : DB) (scheduleQueryFails : Bool) (slotQueryFails : Time → Bool)
    (fuel : Nat) (doctorID date : String) : Option SlotsResponse :=
  if doctorID = "" ∨ date = "" then some (.badRequest "doctor_id and date are required")
  else
    match parseDate date with
    | none => some (.badRequest "Invalid date format. Use YYYY-MM-DD")
    | some targetDate =>
      if scheduleQueryFails then some (.serverError "Database error")
      else
        match collectTimeSlots db slotQueryFails fuel targetDate doctorID
            (scheduleRows db doctorID (scheduleDayOfWeek targetDate)) with
        | none => none
        | some timeSlots => some (.ok timeSlots)

/-! ## `controllers.GetDoctorQueue` -/

/-- One element of the `queue` array of `GetDoctorQueue`; the contact and
medical columns of the patient, which the query passes through, are left out. -/
structure QueueEntry where
  CheckinID : String
  AppointmentID : String
  CheckinTime : Time
  VitalsRecorded : Bool
  PaymentCollected : Bool
  BookingNumber : String
  AppointmentTime : Time
  Status : String
  FeeAmount : Option Float64
  PaymentStatus : String
  IsPriority : Bool
  PatientUserID : String
  FirstName : String
  LastName : String
  deriving DecidableEq, Repr

/-- The order of `ORDER BY a.is_priority DESC, pc.checkin_time ASC`: `x` may
stand before `y`. -/
def queueOrder (x y : QueueEntry) : Prop :=
  (x.IsPriority = true ∧ y.IsPriority = false)
  ∨ (x.IsPriority = y.IsPriority ∧ x.CheckinTime ≤ y.CheckinTime)

instance : DecidableRel queueOrder := fun x y => by
  unfold queueOrder; infer_instance

/-- The rows of the query of `GetDoctorQueue` before they are ordered: the join
of `patient_checkins`, `appointments`, `patients` and `users`, restricted to
the doctor, to the calendar day `targetDate` (SQL `DATE(a.appointment_time)`)
and to the statuses `arrived` and `in_consultation`. -/
def queueRows (db : DB) (doctorID : String) (targetDate : Time) : List QueueEntry :=
  db.patient_checkins.flatMap (fun pc =>
    (db.appointments.filter (fun a =>
      a.ID == pc.AppointmentID && a.DoctorID == doctorID
        && civilDate a.AppointmentTime == civilDate targetDate
        && (a.Status == "arrived" || a.Status == "in_consultation"))).flatMap (fun a =>
      (db.patients.filter (fun p => p.ID == a.PatientID)).flatMap (fun p =>
        (db.users.filter (fun u => u.ID == p.UserID)).map (fun u =>
          ({ CheckinID := pc.ID, AppointmentID := pc.AppointmentID,
             CheckinTime := pc.CheckinTime, VitalsRecorded := pc.VitalsRecorded,
             PaymentCollected := pc.PaymentCollected, BookingNumber := a.BookingNumber,
             AppointmentTime := a.AppointmentTime, Status := a.Status,
             FeeAmount := a.FeeAmount, PaymentStatus := a.PaymentStatus,
             IsPriority := a.IsPriority, PatientUserID := p.UserID,
             FirstName := u.FirstName, LastName := u.LastName } : QueueEntry)))))

/-- The responses of `GetDoctorQueue`. -/
inductive QueueResponse where
  /-- status 500 with `gin.H{"error": "Database error"}` -/
  | serverError (message : String)
  /-- status 200 with `doctor_id`, `date`, `queue` and `count` -/
  | ok (doctorID date : String) (queue : List QueueEntry) (count : Nat)
  deriving DecidableEq, Repr

/-- Go function `controllers.GetDoctorQueue` with the path parameter
`doctor_id` and the optional query parameter `date`, at instant `now`. The
store compares `DATE(a.appointment_time)` with the date text; a text that is
not a date in the layout `2006-01-02` is taken to be rejected by the store. -/
def GetDoctorQueue (db : DB) (queryFails : Bool) (now : Time) (doctorID : String)
    (dateParam : Option String) : QueueResponse :=
  let date : String := match dateParam with
    | some d => d
    | none => String.mk (formatDashedDate now)
  if queryFails then .serverError "Database error"
  else
    match parseDate date with
    | none => .serverError "Database error"
    | some targetDate =>
      let queue := (queueRows db doctorID targetDate).insertionSort queueOrder
      .ok doctorID date queue queue.length

/-! ## `controllers.CancelAppointment`, `UpdateAppointment`, `RescheduleAppointment` -/

/-- A response that carries a status code and one text: `gin.H{"error": ...}`
for an error, `gin.H{"message": ...}` for status 200. The text of a binding
error, which the validator composes, is written `binding error`. -/
structure MessageResponse where
  status : Nat
  message : String
  deriving DecidableEq, Repr

/-- Go struct `controllers.CancelAppointmentInput`. -/
structure CancelAppointmentInput where
  Reason : String
  deriving DecidableEq, Repr

/-- Go function `controllers.CancelAppointment` for the path parameter `id`:
`UPDATE appointments SET status = 'cancelled' WHERE id = $1`. -/
def CancelAppointment (db : DB) (execFails : Bool) (appointmentID : String)
    (input : CancelAppointmentInput) : DB × MessageResponse :=
  if input.Reason = "" then (db, ⟨400, "binding error"⟩)
  else if execFails then (db, ⟨500, "Failed to cancel appointment"⟩)
  else if !db.appointments.any (fun a => a.ID == appointmentID) then
    (db, ⟨404, "Appointment not found"⟩)
  else
    ({ db with appointments := db.appointments.map (fun a =>
        if a.ID = appointmentID then { a with Status := "cancelled" } else a) },
     ⟨200, "Appointment cancelled successfully"⟩)

/-- Go struct `controllers.UpdateAppointmentInput`. -/
structure UpdateAppointmentInput where
  AppointmentTime : Option String
  DurationMinutes : Option Int
  ConsultationType : Option String
  Status : Option String
  PaymentStatus : Option String
  PaymentMode : Option String
  IsPriority : Option Bool
  deriving DecidableEq, Repr

/-- Binding tags `omitempty,oneof=...` on an optional text. -/
def omitemptyOneOf (allowed : List String) (v : Option String) : Bool :=
  match v with
  | none => true
  | some s => s == "" || allowed.contains s

/-- The binding tags of `UpdateAppointmentInput`. -/
def bindUpdateAppointmentInput (input : UpdateAppointmentInput) : Bool :=
  (match input.DurationMinutes with
    | none => true
    | some d => decide (minInt64 ≤ d) && decide (d ≤ maxInt64))
  && omitemptyOneOf ["new", "followup", "walkin", "emergency"] input.ConsultationType
  && omitemptyOneOf ["booked", "arrived", "in_consultation", "completed", "no_show", "cancelled"]
      input.Status
  && omitemptyOneOf ["pending", "paid", "refunded"] input.PaymentStatus
  && omitemptyOneOf ["cash", "card", "upi"] input.PaymentMode

/-- The `SET` list that `UpdateAppointment` builds, applied to one row. -/
def applyUpdate (input : UpdateAppointmentInput) (appointmentTime : Option Time)
    (a : Appointment) : Appointment :=
  { a with
    AppointmentTime := appointmentTime.getD a.AppointmentTime
    DurationMinutes := input.DurationMinutes.getD a.DurationMinutes
    ConsultationType := input.ConsultationType.getD a.ConsultationType
    Status := input.Status.getD a.Status
    PaymentStatus := input.PaymentStatus.getD a.PaymentStatus
    PaymentMode := match input.PaymentMode with
      | some m => some m
      | none => a.PaymentMode
    IsPriority := input.IsPriority.getD a.IsPriority }

/-- Go function `controllers.UpdateAppointment` for the path parameter `id`. -/
def UpdateAppointment (db : DB) (execFails : Bool) (appointmentID : String)
    (input : UpdateAppointmentInput) : DB × MessageResponse :=
  if !bindUpdateAppointmentInput input then (db, ⟨400, "binding error"⟩)
  else
    let parsed : Option (Option Time) := match input.AppointmentTime with
      | none => some none
      | some text => (parseDateTime text).map some
    match parsed with
    | none => (db, ⟨400, "Invalid appointment time format"⟩)
    | some appointmentTime =>
      if input.AppointmentTime.isNone && input.DurationMinutes.isNone
          && input.ConsultationType.isNone && input.Status.isNone
          && input.PaymentStatus.isNone && input.PaymentMode.isNone
          && input.IsPriority.isNone then
        (db, ⟨400, "No fields to update"⟩)
      else if execFails then (db, ⟨500, "Failed to update appointment"⟩)
      else if !db.appointments.any (fun a => a.ID == appointmentID) then
        (db, ⟨404, "Appointment not found"⟩)
      else
        ({ db with appointments := db.appointments.map (fun a =>
            if a.ID = appointmentID then applyUpdate input appointmentTime a else a) },
         ⟨200, "Appointment updated successfully"⟩)

/-- Go struct `controllers.RescheduleAppointmentInput`. -/
structure RescheduleAppointmentInput where
  NewAppointmentTime : String
  Reason : String
  deriving DecidableEq, Repr

/-- One fault flag for each store statement of `RescheduleAppointment`. -/
structure RescheduleFaults where
  getAppointment : Bool := false
  checkAvailability : Bool := false
  updateTime : Bool := false
  deriving DecidableEq, Repr

/-- Go function `controllers.RescheduleAppointment` for the path parameter
`id`. -/
def RescheduleAppointment (db : DB) (faults : RescheduleFaults) (appointmentID : String)
    (input : RescheduleAppointmentInput) : DB × MessageResponse :=
  if input.NewAppointmentTime = "" then (db, ⟨400, "binding error"⟩)
  else
    match parseDateTime input.NewAppointmentTime with
    | none => (db, ⟨400, "Invalid appointment time format"⟩)
    | some newAppointmentTime =>
      match (if faults.getAppointment then none
             else db.appointments.find? (fun a => a.ID == appointmentID)) with
      | none => (db, ⟨404, "Appointment not found"⟩)
      | some currentAppointment =>
        match CheckDoctorAvailability db faults.checkAvailability currentAppointment.DoctorID
            newAppointmentTime (some currentAppointment.DurationMinutes) with
        | .error _ => (db, ⟨500, "Failed to check doctor availability"⟩)
        | .ok false => (db, ⟨400, "Doctor is not available at the requested time"⟩)
        | .ok true =>
          if faults.updateTime then (db, ⟨500, "Failed to reschedule appointment"⟩)
          else
            ({ db with appointments := db.appointments.map (fun a =>
                if a.ID = appointmentID then { a with AppointmentTime := newAppointmentTime }
                else a) },
             ⟨200, "Appointment rescheduled successfully"⟩)

/-! ## `controllers.CreateCheckin` -/

/-- Go struct `controllers.CreateCheckinInput`. -/
structure CreateCheckinInput where
  AppointmentID : String
  CheckedInBy : String
  PaymentCollected : Option Bool
  deriving DecidableEq, Repr

/-- One fault flag for each store statement of `CreateCheckin`, in the order
of the source. -/
structure CreateCheckinFaults where
  checkAppointment : Bool := false
  checkCheckin : Bool := false
  checkUser : Bool := false
  insertCheckin : Bool := false
  updateStatus : Bool := false
  updatePaymentStatus : Bool := false
  deriving DecidableEq, Repr

/-- The responses of `CreateCheckin`. -/
inductive CheckinResponse where
  /-- Go `security.SendValidationError(c, "Invalid input data", ...)`, status 400 -/
  | validationError (message : String)
  /-- status code with `gin.H{"error": message}` -/
  | error (status : Nat) (message : String)
  /-- status 201 with the check-in -/
  | created (checkin : PatientCheckin)
  deriving DecidableEq, Repr

/-- Whether the response reports a created check-in (status 201). -/
def CheckinResponse.isCreated : CheckinResponse → Bool
  | .created _ => true
  | _ => false

/-- The `INSERT INTO patient_checkins (appointment_id, checked_in_by,
payment_collected) ... RETURNING ...` statement of `CreateCheckin`: the row as
the store completes it. -/
def newCheckinRow (env : RequestEnv) (input : CreateCheckinInput) (paymentCollected : Bool) :
    PatientCheckin :=
  { ID := env.newCheckinID
    AppointmentID := input.AppointmentID
    CheckinTime := env.now
    VitalsRecorded := false
    PaymentCollected := paymentCollected
    CheckedInBy := some input.CheckedInBy
    CreatedAt := env.now }

/-- SQL `UPDATE appointments SET status = 'arrived' WHERE id = $1`. -/
def markArrived (db : DB) (appointmentID : String) : DB :=
  { db with appointments := db.appointments.map (fun a =>
      if a.ID = appointmentID then { a with Status := "arrived" } else a) }

/-- Go function `controllers.CreateCheckin`: the store after the request and
the response. The first query selects `EXISTS(...)` and the status of the
appointment at once; for an unknown appointment the status is `NULL`, which
`Scan` cannot store in a Go string, so the query ends in an error. -/
def CreateCheckin (db : DB) (env : RequestEnv) (faults : CreateCheckinFaults)
    (input : CreateCheckinInput) : DB × CheckinResponse :=
  if !(isUUID input.AppointmentID && isUUID input.CheckedInBy) then
    (db, .validationError "Invalid input data")
  else if faults.checkAppointment
      || !db.appointments.any (fun a => a.ID == input.AppointmentID) then
    (db, .error 500 "Database error")
  else if faults.checkCheckin then (db, .error 500 "Database error")
  else if db.patient_checkins.any (fun pc => pc.AppointmentID == input.AppointmentID) then
    (db, .error 400 "Patient already checked in")
  else if faults.checkUser then (db, .error 500 "Database error")
  else if !db.users.any (fun u => u.ID == input.CheckedInBy && u.IsActive) then
    (db, .error 400 "User not found")
  else
    let paymentCollected : Bool := match input.PaymentCollected with
      | some b => b
      | none => false
    if faults.insertCheckin then (db, .error 500 "Failed to create check-in")
    else
      let checkin := newCheckinRow env input paymentCollected
      let db1 := { db with patient_checkins := db.patient_checkins ++ [checkin] }
      let db2 := if faults.updateStatus then db1 else markArrived db1 input.AppointmentID
      let db3 :=
        if paymentCollected && !faults.updatePaymentStatus then markPaid db2 input.AppointmentID
        else db2
      (db3, .created checkin)

/-! ## `security.SendError` -/

/-- Go struct `security.ErrorResponse`; the `details`, a free text or value for
the reader, are left out. -/
structure ErrorResponse where
  Error : String
  Message : String
  Code : String
  deriving DecidableEq, Repr

/-- Go constant `security.CodeValidationError`. -/
def CodeValidationError : String := "VALIDATION_ERROR"

/-- Go constant `security.CodeResourceNotFound`. -/
def CodeResourceNotFound : String := "RESOURCE_NOT_FOUND"

/-- Go constant `security.CodeDatabaseError`. -/
def CodeDatabaseError : String := "DATABASE_ERROR"

/-- Go function `security.SendError`: the status code and the body. -/
def SendError (statusCode : Nat) (errorCode errorMessage detailedMessage : String) :
    Nat × ErrorResponse :=
  (statusCode, { Error := errorMessage, Message := detailedMessage, Code := errorCode })

/-- Go function `security.SendValidationError`. -/
def SendValidationError (message : String) : Nat × ErrorResponse :=
  SendError 400 CodeValidationError "Validation failed" message

/-- Go function `security.SendNotFoundError`. -/
def SendNotFoundError (resource : String) : Nat × ErrorResponse :=
  SendError 404 CodeResourceNotFound "Resource not found"
    ("The requested " ++ resource ++ " was not found")

/-- Go function `security.SendDatabaseError`. -/
def SendDatabaseError (message : String) : Nat × ErrorResponse :=
  SendError 500 CodeDatabaseError "Database error" message

/-- What a response of `CreateAppointment` sends: the status code and, for an
error, the body that `security.SendError` builds. -/
def Response.sent : Response → Nat × Option ErrorResponse
  | .validationError message =>
    ((SendValidationError message).1, some (SendValidationError message).2)
  | .notFoundError resource =>
    ((SendNotFoundError resource).1, some (SendNotFoundError resource).2)
  | .databaseError message =>
    ((SendDatabaseError message).1, some (SendDatabaseError message).2)
  | .created _ _ => (201, none)

/-! ## `controllers.CreateAppointment` in two steps -/

/-- The statements of `CreateAppointment` from the binding up to and including
the call of `GenerateBookingNumber`: the store after them (the patient stage
may have inserted rows) and either the response that ends the request or the
row that the `INSERT INTO appointments` statement is about to write, with
whether a patient record was created. -/
def CreateAppointmentPrepare (db : DB) (env : RequestEnv) (faults : CreateAppointmentFaults)
    (input : CreateAppointmentInput) : DB × Except Response (Appointment × Bool) :=
  if !bindCreateAppointmentInput input then (db, .error (.validationError "Invalid input data"))
  else if input.UserID.isNone && input.PatientID.isNone then
    (db, .error (.validationError "Missing required field"))
  else
    match parseDate input.AppointmentDate with
    | none => (db, .error (.validationError "Invalid appointment date format"))
    | some appointmentDate =>
    match parseDateTime input.AppointmentTime with
    | none => (db, .error (.validationError "Invalid appointment time format"))
    | some appointmentTime =>
    match resolvePatient db env faults input with
    | .error response => (db, .error response)
    | .ok (db1, patientID, patientCreated) =>
    if faults.checkClinic then
      (db1, .error (.databaseError "Database error while checking clinic"))
    else if !db1.clinics.any (fun c => c.ID == input.ClinicID && c.IsActive) then
      (db1, .error (.notFoundError "clinic"))
    else
      match (if faults.getDoctor then none else getDoctor db1 input.DoctorID) with
      | none => (db1, .error (.notFoundError "doctor"))
      | some (doctor, isDoctorActive) =>
      if !isDoctorActive then (db1, .error (.validationError "Doctor is inactive"))
      else
        let durationMinutes : Int := match input.DurationMinutes with
          | some d => d
          | none => 12
        match CheckDoctorAvailability db1 faults.checkAvailability input.DoctorID appointmentTime
            (some durationMinutes) with
        | .error _ => (db1, .error (.databaseError "Failed to check doctor availability"))
        | .ok false => (db1, .error (.validationError "Doctor not available"))
        | .ok true =>
        let feeAmount := CalculateAppointmentFee db1 faults.lastAppointment env.now doctor
          input.ConsultationType patientID
        match GenerateBookingNumber db1 faults.clinicCode faults.nextSerial doctor.DoctorCode
            appointmentTime with
        | .error _ => (db1, .error (.databaseError "Failed to generate booking number"))
        | .ok bookingNumber =>
        let isPriority : Bool := match input.IsPriority with
          | some b => b
          | none => false
        (db1, .ok (newAppointmentRow env input patientID bookingNumber appointmentDate
          appointmentTime durationMinutes feeAmount isPriority, patientCreated))

/-- The statements of `CreateAppointment` from `INSERT INTO appointments` on,
run on the store as it is at that moment. -/
def CreateAppointmentInsert (db : DB) (env : RequestEnv) (faults : CreateAppointmentFaults)
    (input : CreateAppointmentInput) (appointment : Appointment) (patientCreated : Bool) :
    DB × Response :=
  if faults.insertAppointment || !patientReferenceHolds db appointment.PatientID then
    (db, .databaseError "Failed to create appointment")
  else
    let db2 := { db with appointments := db.appointments ++ [appointment] }
    let createdPatient := if patientCreated then some appointment.PatientID else none
    match input.PaymentMode with
    | none => (db2, .created appointment createdPatient)
    | some mode =>
      if mode = "" then (db2, .created appointment createdPatient)
      else if faults.updatePaymentStatus then
        (db2, .databaseError "Failed to update payment status")
      else
        let db3 := markPaid db2 appointment.ID
        let db4 :=
          if faults.insertCheckin then db3
          else { db3 with patient_checkins := db3.patient_checkins ++
            [autoCheckinRow env appointment.ID] }
        (db4, .created { appointment with PaymentStatus := "paid" } createdPatient)

/-! ## `controllers.CreateDoctorSchedule` (organization service) -/

/-- Go struct `controllers.CreateDoctorScheduleInput`. -/
structure CreateDoctorScheduleInput where
  DoctorID : String
  DayOfWeek : Int
  StartTime : String
  EndTime : String
  SlotDurationMinutes : Int
  deriving DecidableEq, Repr

/-- The binding tags of `CreateDoctorScheduleInput`: `required` refuses the
zero value of the type (the number 0, the empty text), `min` and `max` are
inclusive, `omitempty` skips the other tags for the zero value. -/
def bindCreateDoctorScheduleInput (input : CreateDoctorScheduleInput) : Bool :=
  input.DoctorID != "" && isUUID input.DoctorID
  && input.DayOfWeek != 0 && decide (0 ≤ input.DayOfWeek) && decide (input.DayOfWeek ≤ 6)
  && input.StartTime != ""
  && input.EndTime != ""
  && (input.SlotDurationMinutes == 0
      || (decide (5 ≤ input.SlotDurationMinutes) && decide (input.SlotDurationMinutes ≤ 120)))

/-- Modelled from the spec: the columns `start_time` and `end_time` of
`doctor_schedules` hold times of day (the schema is not part of the sources);
the store reads a text in the layout `15:04:05`, the layout in which
`GetAvailableTimeSlots` reads these columns, and compares by time of day. -/
def clockValue (text : String) : Option Time := parseClock text

/-- The window of a schedule row as times of day. -/
def scheduleWindow (r : DoctorScheduleRow) : Option (Time × Time) :=
  match clockValue r.StartTime, clockValue r.EndTime with
  | some s, some e => some (s, e)
  | _, _ => none

/-- The time condition in the `WHERE` clause of the overlap query of
`CreateDoctorSchedule`, with `$3` the new start and `$4` the new end. -/
def scheduleTimesOverlap (rowStart rowEnd newStart newEnd : Time) : Bool :=
  (decide (rowStart ≤ newStart) && decide (rowEnd > newStart))
  || (decide (rowStart < newEnd) && decide (rowEnd ≥ newEnd))
  || (decide (rowStart ≥ newStart) && decide (rowEnd ≤ newEnd))

/-- The overlap query of `CreateDoctorSchedule`: `SELECT EXISTS(SELECT 1 FROM
doctor_schedules WHERE doctor_id = $1 AND day_of_week = $2 AND is_active =
true AND (...))`. The statement is rejected when a time text cannot be read. -/
def overlappingExists (db : DB) (queryFails : Bool) (input : CreateDoctorScheduleInput) :
    Except StoreError Bool :=
  if queryFails then .error .fault
  else
    match clockValue input.StartTime, clockValue input.EndTime with
    | some newStart, some newEnd =>
      let rows := db.doctor_schedules.filter (fun r =>
        r.DoctorID == input.DoctorID && r.DayOfWeek == input.DayOfWeek && r.IsActive)
      if rows.all (fun r => (scheduleWindow r).isSome) then
        .ok (rows.any (fun r =>
          match scheduleWindow r with
          | some (rowStart, rowEnd) => scheduleTimesOverlap rowStart rowEnd newStart newEnd
          | none => false))
      else .error .rejected
    | _, _ => .error .rejected

/-- One fault flag for each store statement of `CreateDoctorSchedule`. -/
structure CreateDoctorScheduleFaults where
  checkDoctor : Bool := false
  checkOverlap : Bool := false
  insertSchedule : Bool := false
  deriving DecidableEq, Repr

/-- Modelled from the spec: the column default of `doctor_schedules.is_active`
(the schema is not part of the sources): a new schedule row is active. -/
def defaultScheduleIsActive : Bool := true

/-- Go function `controllers.CreateDoctorSchedule`: the store after the request
and the response. The insert is rejected when a time text cannot be read. -/
def CreateDoctorSchedule (db : DB) (faults : CreateDoctorScheduleFaults)
    (input : CreateDoctorScheduleInput) : DB × MessageResponse :=
  if !bindCreateDoctorScheduleInput input then (db, ⟨400, "binding error"⟩)
  else if faults.checkDoctor || !db.doctors.any (fun d => d.ID == input.DoctorID) then
    (db, ⟨400, "Doctor not found"⟩)
  else
    match overlappingExists db faults.checkOverlap input with
    | .ok true => (db, ⟨409, "Schedule overlaps with existing schedule"⟩)
    | _ =>
      let slotDurationMinutes : Int :=
        if input.SlotDurationMinutes = 0 then 12 else input.SlotDurationMinutes
      if faults.insertSchedule || (clockValue input.StartTime).isNone
          || (clockValue input.EndTime).isNone then
        (db, ⟨500, "Failed to create doctor schedule"⟩)
      else
        ({ db with doctor_schedules := db.doctor_schedules ++
            [{ DoctorID := input.DoctorID, DayOfWeek := input.DayOfWeek,
               StartTime := input.StartTime, EndTime := input.EndTime,
               SlotDurationMinutes := slotDurationMinutes,
               IsActive := defaultScheduleIsActive }] },
         ⟨201, "Doctor schedule created successfully"⟩)

/-! ## Notions of the specification -/

/-- An active appointment: its status is neither `cancelled` nor `no_show`. -/
def Appointment.isActive (a : Appointment) : Prop :=
  a.Status ≠ "cancelled" ∧ a.Status ≠ "no_show"

instance (a : Appointment) : Decidable a.isActive := by
  unfold Appointment.isActive; infer_instance

/-- Overlap of the half-open intervals `[s1, e1)` and `[s2, e2)` as the
specification defines it. -/
def intervalsOverlap (s1 e1 s2 e2 : Time) : Prop := s1 < e2 ∧ s2 < e1

instance (s1 e1 s2 e2 : Time) : Decidable (intervalsOverlap s1 e1 s2 e2) := by
  unfold intervalsOverlap; infer_instance

/-- The no-double-booking invariant of the specification: the active
appointments of one doctor are pairwise non-overlapping as half-open intervals
`[start, start + duration)`. -/
def NoDoubleBooking (db : DB) : Prop :=
  db.appointments.Pairwise (fun a b =>
    a.DoctorID = b.DoctorID → a.isActive → b.isActive →
      ¬ intervalsOverlap a.AppointmentTime a.endTime b.AppointmentTime b.endTime)

instance (db : DB) : Decidable (NoDoubleBooking db) := by
  unfold NoDoubleBooking; infer_instance

/-- Characters with a special meaning in a `LIKE` pattern: `%`, `_` and the
backslash. -/
def isLikeSpecial (c : Char) : Bool :=
  c = '%' || c = '_' || c = Char.ofNat 92

/-- The text `SCOPE-YYYYMMDD-` that the booking numbers of a scope code and an
appointment day begin with. -/
def bookingPrefix (code : String) (appointmentTime : Time) : List Char :=
  code.data ++ '-' :: format20060102 appointmentTime ++ ['-']

/-- The booking numbers in the store that belong to a scope code and an
appointment day: those that begin with `SCOPE-YYYYMMDD-`. -/
def bookingNumbersOf (db : DB) (code : String) (appointmentTime : Time) : List (List Char) :=
  (db.appointments.map (fun a => a.BookingNumber.data)).filter
    (fun b => (bookingPrefix code appointmentTime).isPrefixOf b)

/-- The serial text of a booking number of a scope and day: what follows
`SCOPE-YYYYMMDD-`. -/
def serialText (code : String) (appointmentTime : Time) (b : List Char) : List Char :=
  b.drop (bookingPrefix code appointmentTime).length

/-- The largest serial among the booking numbers of a scope code and an
appointment day, 0 when there is none. -/
def largestSerial (db : DB) (code : String) (appointmentTime : Time) : Nat :=
  ((bookingNumbersOf db code appointmentTime).map (fun b =>
    decimalValue 0 (serialText code appointmentTime b))).foldr max 0

/-- The start instants that the loop of `GenerateTimeSlots` visits from
`current` on, within `fuel` iterations: the loop without the store. -/
def slotStarts (endDateTime : Time) (slotDuration : Int) : Nat → Time → Option (List Time)
  | 0, current => if current < endDateTime then none else some []
  | fuel + 1, current =>
    if current < endDateTime then
      (slotStarts endDateTime slotDuration fuel (current + minutesDuration slotDuration)).map
        (fun starts => current :: starts)
    else some []

/-- The slot that the loop of `GenerateTimeSlots` appends for the start instant
`current`. -/
def slotAt (db : DB) (queryFails : Time → Bool) (doctorID : String) (slotDuration : Int)
    (current : Time) : TimeSlot :=
  { StartTime := current
    EndTime := current + minutesDuration slotDuration
    IsAvailable := !(if queryFails current then none
      else bookedAppointmentAt db doctorID current).isSome
    IsBooked := (if queryFails current then none
      else bookedAppointmentAt db doctorID current).isSome
    AppointmentID := if queryFails current then none
      else bookedAppointmentAt db doctorID current }

/-- The order of a queue as the specification states it: priority entries
before the others and, within the same priority, earlier check-ins first. -/
def queueSorted (queue : List QueueEntry) : Prop :=
  queue.Pairwise (fun x y =>
    (x.IsPriority = true ∨ y.IsPriority = false)
    ∧ (x.IsPriority = y.IsPriority → x.CheckinTime ≤ y.CheckinTime))

/-- Every appointment has at most one check-in row. -/
def AtMostOneCheckin (db : DB) : Prop :=
  ∀ appointmentID : String,
    (db.patient_checkins.filter (fun pc => pc.AppointmentID == appointmentID)).length ≤ 1

/-- The store after a sequence of `CreateCheckin` requests, each with its own
environment and faults. -/
def runCheckins (db : DB) :
    List (RequestEnv × CreateCheckinFaults × CreateCheckinInput) → DB
  | [] => db
  | (env, faults, input) :: rest => runCheckins (CreateCheckin db env faults input).1 rest

/-- Two `CreateAppointment` requests whose statements interleave: both run
their statements up to the booking number on the store as it is, then the
first runs its insert and after it the second. The result is the final store
and the two responses; a request that was ended before its insert keeps its
response. -/
def CreateAppointmentInterleaved (db : DB) (envA envB : RequestEnv)
    (faults : CreateAppointmentFaults) (inputA inputB : CreateAppointmentInput) :
    DB × Response × Response :=
  let (dbA, preparedA) := CreateAppointmentPrepare db envA faults inputA
  let (dbB, preparedB) := CreateAppointmentPrepare dbA envB faults inputB
  let (dbA2, responseA) := match preparedA with
    | .error response => (dbB, response)
    | .ok (appointment, patientCreated) =>
      CreateAppointmentInsert dbB envA faults inputA appointment patientCreated
  let (dbB2, responseB) := match preparedB with
    | .error response => (dbA2, response)
    | .ok (appointment, patientCreated) =>
      CreateAppointmentInsert dbA2 envB faults inputB appointment patientCreated
  (dbB2, responseA, responseB)

/-- Date consistency of an appointment row: the stored `appointment_date` is
the calendar date of the stored `appointment_time`, in the layout
`2006-01-02`. -/
def Appointment.dateConsistent (a : Appointment) : Prop :=
  a.AppointmentDate = some (String.mk (formatDashedDate a.AppointmentTime))

instance (a : Appointment) : Decidable a.dateConsistent := by
  unfold Appointment.dateConsistent; infer_instance

/-- A finite value, a zero of either sign included. -/
def Float64.isFinite : Float64 → Bool
  | .finite _ => true
  | .negZero => true
  | _ => false

/-- A finite value between two integers. -/
def Float64.within (f : Float64) (lo hi : Int) : Prop :=
  f.isFinite = true ∧ (lo : ℚ) ≤ f.toRat ∧ f.toRat ≤ (hi : ℚ)

/-! ## Sample data -/

namespace Sample

/-- Identifier of the sample doctor. -/
def doctorID : String := "00000000-0000-0000-0000-0000000000d1"

/-- Identifier of the sample clinic. -/
def clinicID : String := "00000000-0000-0000-0000-0000000000c1"

/-- Identifier of the sample patient. -/
def patientID : String := "00000000-0000-0000-0000-0000000000a1"

/-- Identifier of the user behind the sample patient. -/
def patientUserID : String := "00000000-0000-0000-0000-0000000000b1"

/-- Identifier of the user behind the sample doctor. -/
def doctorUserID : String := "00000000-0000-0000-0000-0000000000b2"

/-- The instant 2024-01-10 00:00:00 UTC. -/
def jan10 : Time := 1704844800000000000

/-- The instant 2024-01-10 09:00:00 UTC plus `m` minutes. -/
def nineOClockPlus (m : Int) : Time := jan10 + 9 * Hour + m * Minute

/-- A booked appointment of the sample doctor. -/
def appointment (id : String) (start : Time) (duration : Int) (bookingNumber : String) :
    Appointment :=
  { ID := id, PatientID := patientID, ClinicID := clinicID, DoctorID := doctorID,
    DepartmentID := none, BookingNumber := bookingNumber,
    AppointmentDate := some "2024-01-10", AppointmentTime := start,
    DurationMinutes := duration, ConsultationType := "new", Reason := none, Notes := none,
    Status := "booked", FeeAmount := some 100, PaymentStatus := "pending",
    PaymentMode := none, IsPriority := false, CreatedAt := jan10 }

/-- Identifier of a second doctor of the sample clinic. -/
def secondDoctorID : String := "00000000-0000-0000-0000-0000000000d2"

/-- A doctor of the sample clinic with base fee 100, follow-up fee 50 and a
follow-up window of 7 days. -/
def doctor (id : String) (doctorCode : Option String) : DoctorRow :=
  { ID := id, UserID := doctorUserID, ClinicID := clinicID, DoctorCode := doctorCode,
    Specialization := none, ConsultationFee := some 100, FollowUpFee := some 50,
    FollowUpDays := some 7 }

/-- The sample doctor as `CreateAppointment` reads it from the store. -/
def doctorInfo : DoctorInfo :=
  { ID := doctorID, UserID := doctorUserID, DoctorCode := some "D1", Specialization := none,
    FirstName := "Ravi", LastName := "Menon", ConsultationFee := some 100,
    FollowUpFee := some 50, FollowUpDays := some 7 }

/-- A store with one clinic `CL`, the given doctors of that clinic, one patient
and the given appointments. -/
def storeOf (doctors : List DoctorRow) (appointments : List Appointment) : DB :=
  { users := [{ ID := patientUserID, FirstName := "Asha", LastName := "Nair", IsActive := true },
              { ID := doctorUserID, FirstName := "Ravi", LastName := "Menon", IsActive := true }]
    patients := [{ ID := patientID, UserID := patientUserID, IsActive := true }]
    patient_clinics := []
    clinics := [{ ID := clinicID, ClinicCode := "CL", IsActive := true }]
    doctors := doctors
    appointments := appointments
    patient_checkins := [] }

/-- A store with one clinic `CL`, one doctor `D1` of that clinic, one patient
and the given appointments. -/
def store (appointments : List Appointment) : DB :=
  storeOf [doctor doctorID (some "D1")] appointments

/-- The environment of a sample request. -/
def env (newAppointmentID : String) : RequestEnv :=
  { now := jan10, newPatientID := "00000000-0000-0000-0000-0000000000a9",
    newAppointmentID := newAppointmentID,
    newCheckinID := "00000000-0000-0000-0000-0000000000e9" }

/-- A request of the sample patient for the sample doctor on 2024-01-10. -/
def request (appointmentTime : String) (durationMinutes : Option Int) : CreateAppointmentInput :=
  { UserID := none, PatientID := some patientID, ClinicID := clinicID, DoctorID := doctorID,
    DepartmentID := none, AppointmentDate := "2024-01-10", AppointmentTime := appointmentTime,
    DurationMinutes := durationMinutes, ConsultationType := "new", Reason := none,
    Notes := none, IsPriority := none, PaymentMode := none }

/-- A request of the sample patient for the given doctor on 2024-01-10 at
09:00, for the default duration. -/
def requestFor (doctorID : String) : CreateAppointmentInput :=
  { request "2024-01-10 09:00:00" none with DoctorID := doctorID }

/-- The sample store whose only doctor has no doctor code; no appointments. -/
def storeNoDoctorCode : DB := storeOf [doctor doctorID none] []

/-- The sample store with two doctors, with codes `DRX01` and `DR_01`; no
appointments. -/
def storeTwoDoctors : DB :=
  storeOf [doctor doctorID (some "DRX01"), doctor secondDoctorID (some "DR_01")] []

/-- The sample store with one completed appointment of the sample patient
with the sample doctor, on 2024-01-10 at 09:00. -/
def storeCompletedVisit : DB :=
  store [{ appointment "00000000-0000-0000-0000-0000000000f1" (nineOClockPlus 0) 12
            "D1-20240110-0001" with Status := "completed" }]

/-- The sample store with one appointment of the doctor whose booking number
has serial 9999. -/
def storeSerial9999 : DB :=
  store [appointment "00000000-0000-0000-0000-0000000000f1" (nineOClockPlus 0) 12
    "D1-20240110-9999"]

/-- The sample store with one appointment of the doctor, 09:05 to 09:10. -/
def storeFiveMinutes : DB :=
  store [appointment "00000000-0000-0000-0000-0000000000f1" (nineOClockPlus 5) 5
    "D1-20240110-0001"]

/-- The sample store with one appointment of the doctor, 09:00 to 09:12. -/
def storeNineOClock : DB :=
  store [appointment "00000000-0000-0000-0000-0000000000f1" (nineOClockPlus 0) 12
    "D1-20240110-0001"]

/-- The schedule row of the sample doctor: Wednesdays from 09:00 to 09:30 in
slots of 12 minutes. -/
def scheduleRow : DoctorScheduleRow :=
  { DoctorID := doctorID, DayOfWeek := 3, StartTime := "09:00:00", EndTime := "09:30:00",
    SlotDurationMinutes := 12, IsActive := true }

/-- The sample store with the schedule row of the doctor and no appointments. -/
def storeWithSchedule : DB :=
  { store [] with doctor_schedules := [scheduleRow] }

/-- The slot of 09:00 on 2024-01-10, booked by the appointment of the sample
store. -/
def bookedSlot : TimeSlot :=
  { StartTime := nineOClockPlus 0, EndTime := nineOClockPlus 12,
    IsAvailable := false, IsBooked := true,
    AppointmentID := some "00000000-0000-0000-0000-0000000000f1" }

/-- The slot of 09:12 on 2024-01-10, not booked. -/
def freeSlot : TimeSlot :=
  { StartTime := nineOClockPlus 12, EndTime := nineOClockPlus 24,
    IsAvailable := true, IsBooked := false, AppointmentID := none }

/-- The three slots of the sample schedule on 2024-01-10, none of them
booked. -/
def freeSlots : List TimeSlot :=
  [{ StartTime := nineOClockPlus 0, EndTime := nineOClockPlus 12,
     IsAvailable := true, IsBooked := false, AppointmentID := none },
   { StartTime := nineOClockPlus 12, EndTime := nineOClockPlus 24,
     IsAvailable := true, IsBooked := false, AppointmentID := none },
   { StartTime := nineOClockPlus 24, EndTime := nineOClockPlus 36,
     IsAvailable := true, IsBooked := false, AppointmentID := none }]

/-- An arrived appointment of the sample patient with the sample doctor on
2024-01-10. -/
def arrived (id : String) (start : Time) (isPriority : Bool) : Appointment :=
  { appointment id start 12 "D1-20240110-0001" with
    Status := "arrived", IsPriority := isPriority }

/-- A check-in row of the appointment `appointmentID`. -/
def checkin (id appointmentID : String) (checkinTime : Time) : PatientCheckin :=
  { ID := id, AppointmentID := appointmentID, CheckinTime := checkinTime,
    VitalsRecorded := false, PaymentCollected := false, CheckedInBy := some doctorUserID,
    CreatedAt := checkinTime }

/-- The sample store with three arrived appointments of the doctor on
2024-01-10, the second one with priority, checked in at 09:01, 09:02 and
09:03. -/
def storeQueue : DB :=
  { store [arrived "00000000-0000-0000-0000-0000000000f1" (nineOClockPlus 0) false,
           arrived "00000000-0000-0000-0000-0000000000f2" (nineOClockPlus 12) true,
           arrived "00000000-0000-0000-0000-0000000000f3" (nineOClockPlus 24) false] with
    patient_checkins :=
      [checkin "00000000-0000-0000-0000-0000000000e1" "00000000-0000-0000-0000-0000000000f1"
         (nineOClockPlus 1),
       checkin "00000000-0000-0000-0000-0000000000e2" "00000000-0000-0000-0000-0000000000f2"
         (nineOClockPlus 2),
       checkin "00000000-0000-0000-0000-0000000000e3" "00000000-0000-0000-0000-0000000000f3"
         (nineOClockPlus 3)] }

/-- The queue entry of a check-in of the sample patient. -/
def queueEntry (checkinID appointmentID : String) (checkinTime appointmentTime : Time)
    (isPriority : Bool) : QueueEntry :=
  { CheckinID := checkinID, AppointmentID := appointmentID, CheckinTime := checkinTime,
    VitalsRecorded := false, PaymentCollected := false, BookingNumber := "D1-20240110-0001",
    AppointmentTime := appointmentTime, Status := "arrived", FeeAmount := some 100,
    PaymentStatus := "pending", IsPriority := isPriority, PatientUserID := patientUserID,
    FirstName := "Asha", LastName := "Nair" }

/-- The queue of the sample doctor on 2024-01-10: the check-in of 09:02 (with
priority), then those of 09:01 and 09:03. -/
def queue : List QueueEntry :=
  [queueEntry "00000000-0000-0000-0000-0000000000e2" "00000000-0000-0000-0000-0000000000f2"
     (nineOClockPlus 2) (nineOClockPlus 12) true,
   queueEntry "00000000-0000-0000-0000-0000000000e1" "00000000-0000-0000-0000-0000000000f1"
     (nineOClockPlus 1) (nineOClockPlus 0) false,
   queueEntry "00000000-0000-0000-0000-0000000000e3" "00000000-0000-0000-0000-0000000000f3"
     (nineOClockPlus 3) (nineOClockPlus 24) false]

/-- The sample store with one appointment of the doctor at 09:00 whose status
is `status`. -/
def storeWithStatus (status : String) : DB :=
  store [{ appointment "00000000-0000-0000-0000-0000000000f1" (nineOClockPlus 0) 12
            "D1-20240110-0001" with Status := status }]

/-- A check-in request for the appointment of the sample stores, made by the
user behind the doctor. -/
def checkinRequest : CreateCheckinInput :=
  { AppointmentID := "00000000-0000-0000-0000-0000000000f1", CheckedInBy := doctorUserID,
    PaymentCollected := none }

/-- An update request that sets the status and nothing else. -/
def statusUpdate (status : String) : UpdateAppointmentInput :=
  { AppointmentTime := none, DurationMinutes := none, ConsultationType := none,
    Status := some status, PaymentStatus := none, PaymentMode := none, IsPriority := none }

/-- The sample store with one arrived appointment of the doctor and its
check-in of 09:01. -/
def storeCheckedIn : DB :=
  { store [arrived "00000000-0000-0000-0000-0000000000f1" (nineOClockPlus 0) false] with
    patient_checkins :=
      [checkin "00000000-0000-0000-0000-0000000000e1" "00000000-0000-0000-0000-0000000000f1"
         (nineOClockPlus 1)] }

/-- A request of the sample patient for the sample doctor on 2024-01-10 at
09:00, paid in cash at booking. -/
def paidRequest : CreateAppointmentInput :=
  { request "2024-01-10 09:00:00" none with PaymentMode := some "cash" }

/-- The appointment that the paid sample request creates. -/
def paidAppointment : Appointment :=
  { appointment "00000000-0000-0000-0000-0000000000f9" (nineOClockPlus 0) 12
      "D1-20240110-0001" with PaymentStatus := "paid", PaymentMode := some "cash" }

/-- A request for a doctor that the store does not hold, made for the user
behind the sample doctor, who has no patient record. -/
def userRequest : CreateAppointmentInput :=
  { request "2024-01-10 09:00:00" none with
    UserID := some doctorUserID, PatientID := none,
    DoctorID := "00000000-0000-0000-0000-0000000000d9" }

/-- A request of the sample patient whose appointment date is not in the
layout `2006-01-02`. -/
def badDateRequest : CreateAppointmentInput :=
  { request "2024-01-10 09:05:00" none with AppointmentDate := "10/01/2024" }

/-- A check-in request for an appointment that the sample stores do not
hold. -/
def unknownCheckinRequest : CreateCheckinInput :=
  { AppointmentID := "00000000-0000-0000-0000-0000000000f7", CheckedInBy := doctorUserID,
    PaymentCollected := none }

/-- A request for a schedule row of the sample doctor on Wednesdays. -/
def scheduleRequest (startTime endTime : String) : CreateDoctorScheduleInput :=
  { DoctorID := doctorID, DayOfWeek := 3, StartTime := startTime, EndTime := endTime,
    SlotDurationMinutes := 12 }

/-- A request for a schedule row of the sample doctor, 09:00 to 09:30, on the
day of week `dayOfWeek`. -/
def scheduleRequestOn (dayOfWeek : Int) : CreateDoctorScheduleInput :=
  { scheduleRequest "09:00:00" "09:30:00" with DayOfWeek := dayOfWeek }

/-- The sample store with one appointment of the doctor that starts between
two slot starts: 09:05 to 09:17. -/
def storeOffGrid : DB :=
  store [appointment "00000000-0000-0000-0000-0000000000f1" (nineOClockPlus 5) 12
    "D1-20240110-0001"]

/-- A request of the sample patient whose appointment date is 2024-01-10 and
whose appointment time is on 2024-01-11. -/
def twoDatesRequest : CreateAppointmentInput :=
  { request "2024-01-11 09:00:00" none with AppointmentDate := "2024-01-10" }

/-- The sample store without appointments after the paid sample request. -/
def storeAfterPaidRequest : DB :=
  (CreateAppointment (store []) (env "00000000-0000-0000-0000-0000000000f9") {} paidRequest).1

/-- A check-in request for the appointment of the paid sample request. -/
def paidCheckinRequest : CreateCheckinInput :=
  { AppointmentID := "00000000-0000-0000-0000-0000000000f9", CheckedInBy := doctorUserID,
    PaymentCollected := none }

/-- The sample doctor with a base consultation fee of 3. -/
def lowFeeDoctorInfo : DoctorInfo := { doctorInfo with ConsultationFee := some 3 }

/-- The sample doctor with a follow-up window of 170 days. -/
def longWindowDoctorInfo : DoctorInfo := { doctorInfo with FollowUpDays := some 170 }

end Sample

/-! ## Availability: what the check finds and what it misses -/

/-- C1, at the failing input: the sample doctor has one active appointment
from 09:05 to 09:10; it lies strictly inside the candidate interval 09:00 to
09:12 and overlaps it in the sense of the specification, yet
`CheckDoctorAvailability` reports the doctor available. -/
theorem CheckDoctorAvailability_misses_contained_appointment :
    CheckDoctorAvailability Sample.storeFiveMinutes false Sample.doctorID
        (Sample.nineOClockPlus 0) (some 12) = .ok true
    ∧ ∃ a ∈ Sample.storeFiveMinutes.appointments,
        a.DoctorID = Sample.doctorID ∧ a.isActive
        ∧ Sample.nineOClockPlus 0 < a.AppointmentTime
        ∧ a.endTime < Sample.nineOClockPlus 0 + 12 * Minute
        ∧ intervalsOverlap a.AppointmentTime a.endTime
            (Sample.nineOClockPlus 0) (Sample.nineOClockPlus 0 + 12 * Minute) := by
  decide

/-- C2, at the failing input: in the sample store the invariant holds and all
durations are positive; the request for 09:00 with 12 minutes is answered with
a created appointment, and in the store it leaves the doctor has two active
appointments that overlap. -/
theorem CreateAppointment_breaks_NoDoubleBooking :
    NoDoubleBooking Sample.storeFiveMinutes
    ∧ (∀ a ∈ Sample.storeFiveMinutes.appointments, 0 < a.DurationMinutes)
    ∧ (CreateAppointment Sample.storeFiveMinutes
          (Sample.env "00000000-0000-0000-0000-0000000000f2") {}
          (Sample.request "2024-01-10 09:00:00" (some 12))).2.isCreated = true
    ∧ ¬ NoDoubleBooking (CreateAppointment Sample.storeFiveMinutes
          (Sample.env "00000000-0000-0000-0000-0000000000f2") {}
          (Sample.request "2024-01-10 09:00:00" (some 12))).1 := by
  decide

/-- The rows counted by `CheckDoctorAvailability` are the active appointments
of the doctor whose times conflict with the candidate. -/
theorem filter_conflictsWith (doctorID : String) (s e : Time) (l : List Appointment) :
    l.filter (conflictsWith doctorID s e)
      = (l.filter (fun y => y.DoctorID == doctorID
          && statusNotCancelledOrNoShow y.Status)).filter (timesConflict s e) := by
  rw [List.filter_filter]
  congr 1
  funext a
  simp only [conflictsWith, Bool.and_comm]

/-- When `x` is the only active appointment of the doctor, the answer of
`CheckDoctorAvailability` is decided by `x` alone. -/
theorem CheckDoctorAvailability_of_only (db : DB) (doctorID : String) (x : Appointment)
    (honly : db.appointments.filter (fun y => y.DoctorID == doctorID
      && statusNotCancelledOrNoShow y.Status) = [x]) (s : Time) (d : Option Int) :
    CheckDoctorAvailability db false doctorID s d
      = .ok (!timesConflict s (s + minutesDuration (d.getD 12)) x) := by
  have hd : (match d with | some d => d | none => 12) = d.getD 12 := by cases d <;> rfl
  simp only [CheckDoctorAvailability, hd, filter_conflictsWith, honly, List.filter]
  cases timesConflict s (s + minutesDuration (d.getD 12)) x <;> simp

/-- A duration of at most 153722867 minutes is not changed by the conversion
to nanoseconds. -/
theorem minutesDuration_eq (d : Int) (h0 : 0 ≤ d) (h1 : d ≤ 153722867) :
    minutesDuration d = d * Minute := by
  unfold minutesDuration wrapInt64 Minute
  omega

/-- The conversion of a non-negative number of minutes to nanoseconds never
yields more than the exact product. -/
theorem minutesDuration_le (d : Int) (h0 : 0 ≤ d) : minutesDuration d ≤ d * Minute := by
  unfold minutesDuration wrapInt64 Minute
  omega

/-- C3, counterexample: the doctor's only active appointment runs from 09:00
to 09:12; a candidate that starts exactly at 09:12 with the positive duration
of 2^53 minutes is reported unavailable, because the duration in nanoseconds
wraps around to zero. -/
theorem CheckDoctorAvailability_adjacent_rejected_on_wraparound :
    Sample.storeNineOClock.appointments.filter (fun y => y.DoctorID == Sample.doctorID
        && statusNotCancelledOrNoShow y.Status)
      = [Sample.appointment "00000000-0000-0000-0000-0000000000f1" (Sample.nineOClockPlus 0) 12
          "D1-20240110-0001"]
    ∧ (Sample.appointment "00000000-0000-0000-0000-0000000000f1" (Sample.nineOClockPlus 0) 12
          "D1-20240110-0001").endTime = Sample.nineOClockPlus 12
    ∧ (0 : Int) < 9007199254740992
    ∧ CheckDoctorAvailability Sample.storeNineOClock false Sample.doctorID
        (Sample.nineOClockPlus 12) (some 9007199254740992) = .ok false := by
  decide

/-- C3, amended: let `x` be the doctor's only active appointment. A candidate
that starts exactly at the end of `x` is reported available for every positive
duration of at most 153722867 minutes (the durations whose length in
nanoseconds fits `int64`); a candidate of any positive duration that ends
exactly at the start of `x` is reported available; a candidate that starts
inside `[start, end)` of `x` is reported unavailable, whatever its duration. -/
theorem CheckDoctorAvailability_half_open (db : DB) (doctorID : String) (x : Appointment)
    (honly : db.appointments.filter (fun y => y.DoctorID == doctorID
      && statusNotCancelledOrNoShow y.Status) = [x]) :
    (∀ d : Int, 0 < d → d ≤ 153722867 →
        CheckDoctorAvailability db false doctorID x.endTime (some d) = .ok true)
    ∧ (∀ (s : Time) (d : Int), 0 < d → s + d * Minute = x.AppointmentTime →
        CheckDoctorAvailability db false doctorID s (some d) = .ok true)
    ∧ (∀ (s : Time) (d : Option Int), x.AppointmentTime ≤ s → s < x.endTime →
        CheckDoctorAvailability db false doctorID s d = .ok false) := by
  refine ⟨?_, ?_, ?_⟩
  · intro d h0 h1
    rw [CheckDoctorAvailability_of_only db doctorID x honly]
    have hm := minutesDuration_eq d (le_of_lt h0) h1
    have hpos : 0 < d * Minute := by unfold Minute; omega
    simp only [Option.getD_some, hm, timesConflict]
    congr 1
    simp only [Bool.not_eq_true', Bool.or_eq_false_iff, Bool.and_eq_false_imp,
      decide_eq_true_eq, decide_eq_false_iff_not]
    unfold Time at *
    constructor <;> intro _ <;> omega
  · intro s d h0 hend
    rw [CheckDoctorAvailability_of_only db doctorID x honly]
    have hm := minutesDuration_le d (le_of_lt h0)
    have hpos : 0 < d * Minute := by unfold Minute; omega
    simp only [Option.getD_some, timesConflict]
    congr 1
    simp only [Bool.not_eq_true', Bool.or_eq_false_iff, Bool.and_eq_false_imp,
      decide_eq_true_eq, decide_eq_false_iff_not]
    unfold Time at *
    constructor <;> intro _ <;> omega
  · intro s d h0 h1
    rw [CheckDoctorAvailability_of_only db doctorID x honly]
    simp only [timesConflict]
    congr 1
    simp only [Bool.not_eq_false', Bool.or_eq_true, Bool.and_eq_true, decide_eq_true_eq]
    left
    exact ⟨h0, h1⟩

/-- C3, witness: the existing appointment 09:00 for 12 minutes; a candidate at
09:12 is accepted, one that ends at 09:00 is accepted, one at 09:05 is
rejected. -/
theorem CheckDoctorAvailability_half_open_witness :
    CheckDoctorAvailability Sample.storeNineOClock false Sample.doctorID
        (Sample.nineOClockPlus 12) (some 12) = .ok true
    ∧ CheckDoctorAvailability Sample.storeNineOClock false Sample.doctorID
        (Sample.nineOClockPlus (-12)) (some 12) = .ok true
    ∧ CheckDoctorAvailability Sample.storeNineOClock false Sample.doctorID
        (Sample.nineOClockPlus 5) (some 12) = .ok false :=
  have h := CheckDoctorAvailability_half_open Sample.storeNineOClock Sample.doctorID
    (Sample.appointment "00000000-0000-0000-0000-0000000000f1" (Sample.nineOClockPlus 0) 12
      "D1-20240110-0001") (by decide)
  ⟨h.1 12 (by decide) (by decide),
   h.2.1 (Sample.nineOClockPlus (-12)) 12 (by decide) (by decide),
   h.2.2 (Sample.nineOClockPlus 5) (some 12) (by decide) (by decide)⟩

/-! ## Booking numbers: the scope code -/

/-- C5, at the failing input: for a doctor without a doctor code (`nil`) the
clinic lookup of `GenerateBookingNumber` selects by `doctor_code = NULL` and
finds no row, so the function returns an error whatever the store holds; the
clinic code is never used, and `CreateAppointment` for such a doctor answers
with a database error and books nothing. -/
theorem GenerateBookingNumber_fails_without_doctor_code :
    (∀ (db : DB) (serialQueryFails : Bool) (appointmentTime : Time),
        GenerateBookingNumber db false serialQueryFails none appointmentTime = .error .noRows)
    ∧ CreateAppointment Sample.storeNoDoctorCode
          (Sample.env "00000000-0000-0000-0000-0000000000f1") {}
          (Sample.requestFor Sample.doctorID)
        = (Sample.storeNoDoctorCode, .databaseError "Failed to generate booking number") := by
  refine ⟨fun db f t => ?_, by decide⟩
  simp [GenerateBookingNumber, clinicCodeQuery]

/-- C6, at the failing input: the appointment table is empty; an appointment
is created for the doctor with code `DRX01` and then one for the doctor with
code `DR_01`, both on 2024-01-10. The pattern `DR_01-20240110-%` also matches
the booking number of the first, so the only appointment of scope `DR_01`
gets serial 0002 instead of 0001. -/
theorem CreateAppointment_serial_skips_for_underscore_code :
    Sample.storeTwoDoctors.appointments = []
    ∧ (CreateAppointment Sample.storeTwoDoctors
          (Sample.env "00000000-0000-0000-0000-0000000000f1") {}
          (Sample.requestFor Sample.doctorID)).2.isCreated = true
    ∧ (CreateAppointment
          (CreateAppointment Sample.storeTwoDoctors
            (Sample.env "00000000-0000-0000-0000-0000000000f1") {}
            (Sample.requestFor Sample.doctorID)).1
          (Sample.env "00000000-0000-0000-0000-0000000000f2") {}
          (Sample.requestFor Sample.secondDoctorID)).2.isCreated = true
    ∧ (CreateAppointment
          (CreateAppointment Sample.storeTwoDoctors
            (Sample.env "00000000-0000-0000-0000-0000000000f1") {}
            (Sample.requestFor Sample.doctorID)).1
          (Sample.env "00000000-0000-0000-0000-0000000000f2") {}
          (Sample.requestFor Sample.secondDoctorID)).1.appointments.map
            (fun a => (a.DoctorID, a.BookingNumber))
        = [(Sample.doctorID, "DRX01-20240110-0001"),
           (Sample.secondDoctorID, "DR_01-20240110-0002")] := by
  decide

/-! ## Fees -/

/-- The function `pow2` is the integer power of two. -/
theorem pow2_eq (e : Int) : pow2 e = (2 : ℚ) ^ e := by
  unfold pow2
  split_ifs with h
  · obtain ⟨n, rfl⟩ := Int.eq_ofNat_of_zero_le h
    simp
  · obtain ⟨n, hn⟩ := Int.eq_ofNat_of_zero_le (show 0 ≤ -e by omega)
    have he : e = -(n : Int) := by omega
    subst he
    simp

/-- With enough fuel, `bitLength` is the number of binary digits:
`2 ^ (bitLength n - 1) ≤ n < 2 ^ bitLength n`. -/
theorem bitLength_spec : ∀ (fuel n : Nat), n ≤ fuel →
    n < 2 ^ bitLength fuel n ∧ (0 < n → 2 ^ (bitLength fuel n - 1) ≤ n)
  | 0, n, h => by
    have : n = 0 := by omega
    subst this
    simp [bitLength]
  | fuel + 1, n, h => by
    unfold bitLength
    by_cases hn : n = 0
    · subst hn; simp
    · rw [if_neg hn]
      have hle : n / 2 ≤ fuel := by omega
      obtain ⟨h1, h2⟩ := bitLength_spec fuel (n / 2) hle
      refine ⟨?_, fun _ => ?_⟩
      · rw [pow_succ]; omega
      · simp only [Nat.add_sub_cancel]
        by_cases hz : n / 2 = 0
        · have hb : bitLength fuel (n / 2) = 0 := by
            rw [hz]; cases fuel <;> simp [bitLength]
          rw [hb]; simp; omega
        · have h3 := h2 (Nat.pos_of_ne_zero hz)
          have hb : 1 ≤ bitLength fuel (n / 2) := by
            cases fuel with
            | zero => omega
            | succ f => unfold bitLength; rw [if_neg hz]; omega
          obtain ⟨b, hb2⟩ : ∃ b, bitLength fuel (n / 2) = b + 1 :=
            ⟨_, (Nat.sub_add_cancel hb).symm⟩
          rw [hb2] at h3 ⊢
          simp only [Nat.add_sub_cancel] at h3
          rw [pow_succ]; omega

/-- For a positive rational, `2 ^ floorLog2 x ≤ x`. -/
theorem floorLog2_le (x : ℚ) (hx : 0 < x) : (2 : ℚ) ^ floorLog2 x ≤ x := by
  unfold floorLog2
  simp only
  split_ifs with h
  · rwa [pow2_eq] at h
  · have hnum : 0 < x.num := Rat.num_pos.mpr hx
    obtain ⟨p, hp⟩ := Int.eq_ofNat_of_zero_le hnum.le
    have hp0 : 0 < p := by omega
    have h1 := (bitLength_spec p p le_rfl).2 hp0
    have h2 := (bitLength_spec x.den x.den le_rfl).1
    have hb : 1 ≤ bitLength p p := by
      cases p with
      | zero => omega
      | succ f => unfold bitLength; simp
    rw [hp]
    simp only [Int.natAbs_ofNat]
    have hxe : x * x.den = (p : ℚ) := by
      rw [Rat.mul_den_eq_num, hp]
      simp
    have hden : (0 : ℚ) < x.den := by exact_mod_cast x.den_pos
    have e1 : ((bitLength p p : Int) - (bitLength x.den x.den : Int) - 1)
        = ((bitLength p p - 1 : Nat) : Int) - ((bitLength x.den x.den : Nat) : Int) := by
      omega
    rw [e1, zpow_sub₀ (by norm_num), zpow_natCast, zpow_natCast]
    rw [div_le_iff₀ (by positivity)]
    have h1q : ((2 : ℚ) ^ (bitLength p p - 1)) ≤ p := by exact_mod_cast h1
    have h2q : (x.den : ℚ) ≤ (2 : ℚ) ^ (bitLength x.den x.den) := by exact_mod_cast h2.le
    calc (2 : ℚ) ^ (bitLength p p - 1) ≤ p := h1q
      _ = x * x.den := hxe.symm
      _ ≤ x * 2 ^ (bitLength x.den x.den) := by
        apply mul_le_mul_of_nonneg_left h2q hx.le

/-- For a positive rational, `x < 2 ^ (floorLog2 x + 1)`. -/
theorem floorLog2_lt (x : ℚ) (hx : 0 < x) : x < (2 : ℚ) ^ (floorLog2 x + 1) := by
  unfold floorLog2
  simp only
  split_ifs with h
  · have hnum : 0 < x.num := Rat.num_pos.mpr hx
    obtain ⟨p, hp⟩ := Int.eq_ofNat_of_zero_le hnum.le
    have hp0 : 0 < p := by omega
    have h1 := (bitLength_spec p p le_rfl).1
    have hd0 : 0 < x.den := x.den_pos
    have h2 := (bitLength_spec x.den x.den le_rfl).2 hd0
    have hb : 1 ≤ bitLength x.den x.den := by
      cases hd : x.den with
      | zero => omega
      | succ f => unfold bitLength; simp
    rw [hp]
    simp only [Int.natAbs_ofNat]
    have hxe : x * x.den = (p : ℚ) := by
      rw [Rat.mul_den_eq_num, hp]
      simp
    have hden : (0 : ℚ) < x.den := by exact_mod_cast x.den_pos
    have e1 : ((bitLength p p : Int) - (bitLength x.den x.den : Int) + 1)
        = ((bitLength p p : Nat) : Int) - ((bitLength x.den x.den - 1 : Nat) : Int) := by
      omega
    rw [e1, zpow_sub₀ (by norm_num), zpow_natCast, zpow_natCast]
    rw [lt_div_iff₀ (by positivity)]
    have h1q : (p : ℚ) < (2 : ℚ) ^ (bitLength p p) := by exact_mod_cast h1
    have h2q : (2 : ℚ) ^ (bitLength x.den x.den - 1) ≤ (x.den : ℚ) := by exact_mod_cast h2
    calc x * 2 ^ (bitLength x.den x.den - 1) ≤ x * x.den :=
          mul_le_mul_of_nonneg_left h2q hx.le
      _ = p := hxe
      _ < _ := h1q
  · rw [pow2_eq] at h
    simpa using lt_of_not_le h

/-- A positive rational below `2 ^ k` has `floorLog2` below `k`. -/
theorem floorLog2_lt_of_lt (x : ℚ) (hx : 0 < x) (k : Nat) (h : x < 2 ^ k) :
    floorLog2 x < k := by
  have h1 := floorLog2_le x hx
  have h2 : (2 : ℚ) ^ floorLog2 x < (2 : ℚ) ^ (k : Int) := by
    rw [zpow_natCast]; exact lt_of_le_of_lt h1 h
  exact (zpow_lt_zpow_iff_right₀ (by norm_num : (1 : ℚ) < 2)).mp h2

/-- The value of `roundHalfEven` is the floor when the fraction is at most one
half, and the floor plus one when it is at least one half. -/
theorem roundHalfEven_bounds (y : ℚ) :
    (⌊y⌋ = roundHalfEven y ∧ y - ⌊y⌋ ≤ 1 / 2)
    ∨ (⌊y⌋ + 1 = roundHalfEven y ∧ 1 / 2 ≤ y - ⌊y⌋) := by
  have hf : Rat.floor y = ⌊y⌋ := rfl
  unfold roundHalfEven
  simp only [hf]
  split_ifs with h1 h2 h3
  · exact Or.inl ⟨rfl, h1.le⟩
  · exact Or.inr ⟨rfl, h2.le⟩
  · exact Or.inl ⟨rfl, not_lt.mp h2⟩
  · exact Or.inr ⟨rfl, not_lt.mp h1⟩

/-- Rounding to the nearest integer does not go below an integer lower bound. -/
theorem le_roundHalfEven (m : Int) (y : ℚ) (h : (m : ℚ) ≤ y) : m ≤ roundHalfEven y := by
  have hm : m ≤ ⌊y⌋ := Int.le_floor.mpr h
  rcases roundHalfEven_bounds y with ⟨h1, _⟩ | ⟨h1, _⟩ <;> omega

/-- Rounding to the nearest integer does not go above an integer upper bound. -/
theorem roundHalfEven_le (m : Int) (y : ℚ) (h : y ≤ (m : ℚ)) : roundHalfEven y ≤ m := by
  have hfl : (⌊y⌋ : ℚ) ≤ y := Int.floor_le y
  have hm : ⌊y⌋ ≤ m := by exact_mod_cast hfl.trans h
  rcases roundHalfEven_bounds y with ⟨h1, _⟩ | ⟨h1, h2⟩
  · omega
  · have hlt : (⌊y⌋ : ℚ) < m := by linarith
    have : ⌊y⌋ < m := by exact_mod_cast hlt
    omega

/-- Rounding to the nearest integer moves a number by at most one half. -/
theorem abs_roundHalfEven_sub (y : ℚ) : |(roundHalfEven y : ℚ) - y| ≤ 1 / 2 := by
  have hfl : (⌊y⌋ : ℚ) ≤ y := Int.floor_le y
  have hlt : y < (⌊y⌋ : ℚ) + 1 := Int.lt_floor_add_one y
  rw [abs_le]
  rcases roundHalfEven_bounds y with ⟨h1, h2⟩ | ⟨h1, h2⟩
  · rw [← h1]; constructor <;> linarith
  · rw [← h1]; push_cast; constructor <;> linarith

/-- A power of two with an exponent that is not positive is the reciprocal of
a positive natural number. -/
theorem pow2_of_nonpos (e : Int) (h : e ≤ 0) : ∃ s : ℕ, 0 < s ∧ pow2 e = 1 / (s : ℚ) := by
  obtain ⟨n, hn⟩ := Int.eq_ofNat_of_zero_le (show 0 ≤ -e by omega)
  have he : e = -(n : Int) := by omega
  refine ⟨2 ^ n, by positivity, ?_⟩
  rw [pow2_eq, he]
  simp

/-- Rounding to binary64 does not cross an integer of magnitude below
`2 ^ 53`: a rational between two such integers rounds to a finite value
between them. -/
theorem roundFloat64_within (x : ℚ) (lo hi : Int) (hlo : (lo : ℚ) ≤ x) (hhi : x ≤ (hi : ℚ))
    (hb1 : -9007199254740992 < lo) (hb2 : hi < 9007199254740992) :
    (roundFloat64 x).within lo hi := by
  unfold roundFloat64
  by_cases hx : x = 0
  · rw [if_pos hx]
    subst hx
    exact ⟨rfl, hlo, hhi⟩
  rw [if_neg hx]
  have hax : 0 < |x| := abs_pos.mpr hx
  have hlt : |x| < 2 ^ 53 := by
    rw [abs_lt]
    have h1 : (-9007199254740992 : ℚ) < lo := by exact_mod_cast hb1
    have h2 : (hi : ℚ) < 9007199254740992 := by exact_mod_cast hb2
    constructor <;> norm_num <;> linarith
  have hfl := floorLog2_lt_of_lt |x| hax 53 hlt
  have he : max (floorLog2 |x| - 52) (-1074) ≤ 0 := by
    apply max_le <;> omega
  obtain ⟨s, hs, hpow⟩ := pow2_of_nonpos _ he
  simp only [hpow]
  have hsq : (0 : ℚ) < s := by exact_mod_cast hs
  have hscaled : x / (1 / (s : ℚ)) = x * s := by field_simp
  rw [hscaled]
  have h1 : lo * (s : Int) ≤ roundHalfEven (x * s) := by
    apply le_roundHalfEven
    push_cast
    exact mul_le_mul_of_nonneg_right hlo hsq.le
  have h2 : roundHalfEven (x * s) ≤ hi * (s : Int) := by
    apply roundHalfEven_le
    push_cast
    exact mul_le_mul_of_nonneg_right hhi hsq.le
  have h1q : (lo : ℚ) ≤ (roundHalfEven (x * s) : ℚ) * (1 / (s : ℚ)) := by
    rw [mul_one_div, le_div_iff₀ hsq]
    exact_mod_cast h1
  have h2q : (roundHalfEven (x * s) : ℚ) * (1 / (s : ℚ)) ≤ (hi : ℚ) := by
    rw [mul_one_div, div_le_iff₀ hsq]
    exact_mod_cast h2
  generalize (roundHalfEven (x * s) : ℚ) * (1 / (s : ℚ)) = y at h1q h2q
  by_cases hy : y = 0
  · rw [if_pos hy]
    subst hy
    unfold Float64.zero
    split_ifs <;> exact ⟨rfl, h1q, h2q⟩
  rw [if_neg hy]
  have hay : 0 < |y| := abs_pos.mpr hy
  have hylt : |y| < 2 ^ 53 := by
    rw [abs_lt]
    have h1 : (-9007199254740992 : ℚ) < lo := by exact_mod_cast hb1
    have h2 : (hi : ℚ) < 9007199254740992 := by exact_mod_cast hb2
    constructor <;> norm_num <;> linarith
  have hfly := floorLog2_lt_of_lt |y| hay 53 hylt
  rw [if_neg (by omega)]
  exact ⟨rfl, h1q, h2q⟩

/-- An integer of magnitude below `2 ^ 53` converts to `float64` exactly. -/
theorem Float64_ofInt_within (n : Int) (h1 : -9007199254740992 < n)
    (h2 : n < 9007199254740992) : (Float64.ofInt n).within n n :=
  roundFloat64_within n n n le_rfl le_rfl h1 h2

/-- Integer bounds of two finite values add up to bounds of their sum. -/
theorem Float64_add_within (a b : Float64) (la ha lb hb : Int)
    (hA : a.within la ha) (hB : b.within lb hb)
    (h1 : -9007199254740992 < la + lb) (h2 : ha + hb < 9007199254740992) :
    (Float64.add a b).within (la + lb) (ha + hb) := by
  obtain ⟨fa, la1, ha1⟩ := hA
  obtain ⟨fb, lb1, hb1⟩ := hB
  have key : Float64.add a b =
      if a.toRat + b.toRat = 0 then Float64.zero (a.signBit && b.signBit)
      else roundFloat64 (a.toRat + b.toRat) := by
    cases a <;> cases b <;> simp [Float64.isFinite] at fa fb <;> rfl
  rw [key]
  split_ifs with hz
  · have : (Float64.zero (a.signBit && b.signBit)).toRat = 0 := by
      unfold Float64.zero; split_ifs <;> rfl
    refine ⟨by unfold Float64.zero; split_ifs <;> rfl, ?_, ?_⟩
    · rw [this, ← hz]; push_cast; linarith
    · rw [this, ← hz]; push_cast; linarith
  · apply roundFloat64_within _ _ _ _ _ h1 h2
    · push_cast; linarith
    · push_cast; linarith

/-- Integer bounds of a finite value, divided by a positive finite divisor. -/
theorem Float64_div_within (a : Float64) (c : ℚ) (la ha lo hi : Int) (hc : 0 < c)
    (hA : a.within la ha) (h1 : (lo : ℚ) * c ≤ la) (h2 : (ha : ℚ) ≤ hi * c)
    (hb1 : -9007199254740992 < lo) (hb2 : hi < 9007199254740992) :
    (Float64.div a (.finite c)).within lo hi := by
  obtain ⟨fa, la1, ha1⟩ := hA
  have key : Float64.div a (.finite c) =
      if a.toRat = 0 then Float64.zero (a.signBit != (Float64.finite c).signBit)
      else roundFloat64 (a.toRat / c) := by
    cases a <;> simp [Float64.isFinite] at fa <;>
      simp [Float64.div, Float64.toRat, hc.ne']
  rw [key]
  split_ifs with hz
  · have : (Float64.zero (a.signBit != (Float64.finite c).signBit)).toRat = 0 := by
      unfold Float64.zero; split_ifs <;> rfl
    rw [hz] at la1 ha1
    refine ⟨by unfold Float64.zero; split_ifs <;> rfl, ?_, ?_⟩
    · rw [this]
      by_contra hneg
      push_neg at hneg
      have := mul_pos hneg hc
      linarith
    · rw [this]
      by_contra hneg
      push_neg at hneg
      have := mul_neg_of_neg_of_pos hneg hc
      linarith
  · apply roundFloat64_within _ _ _ _ _ hb1 hb2
    · rw [le_div_iff₀ hc]; linarith
    · rw [div_le_iff₀ hc]; linarith

/-- Integer bounds of a finite value within `int64` bound its conversion to
an integer. -/
theorem Float64_toInt_within (a : Float64) (lo hi : Int) (hA : a.within lo hi)
    (h1 : minInt64 ≤ lo) (h2 : hi ≤ maxInt64) :
    lo ≤ a.toInt ∧ a.toInt ≤ hi := by
  obtain ⟨fa, la1, ha1⟩ := hA
  cases a with
  | nan => simp [Float64.isFinite] at fa
  | inf s => simp [Float64.isFinite] at fa
  | negZero =>
    simp only [Float64.toRat] at la1 ha1
    simp only [Float64.toInt]
    constructor
    · exact_mod_cast la1
    · exact_mod_cast ha1
  | finite v =>
    simp only [Float64.toRat] at la1 ha1
    have hf : ∀ q : ℚ, Rat.floor q = ⌊q⌋ := fun _ => rfl
    have hn : lo ≤ (if 0 ≤ v then Rat.floor v else -Rat.floor (-v))
        ∧ (if 0 ≤ v then Rat.floor v else -Rat.floor (-v)) ≤ hi := by
      split_ifs with hv
      · rw [hf]
        constructor
        · exact Int.le_floor.mpr la1
        · have := Int.floor_le v
          exact_mod_cast this.trans ha1
      · rw [hf]
        constructor
        · have := Int.floor_le (-v)
          have h3 : ((⌊-v⌋ : Int) : ℚ) ≤ -(lo : ℚ) := by linarith
          have h4 : ⌊-v⌋ ≤ -lo := by exact_mod_cast h3
          omega
        · have h3 : ((-hi : Int) : ℚ) ≤ -v := by push_cast; linarith
          have := Int.le_floor.mpr h3
          omega
    simp only [Float64.toInt]
    rw [if_pos ⟨by omega, by omega⟩]
    exact hn

/-- Truncated division of a duration by `Hour`: quotient and remainder make
up the duration, and the remainder is smaller than an hour and has the sign of
the duration. -/
theorem tdiv_tmod_Hour (d : Int) :
    Hour * d.tdiv Hour + d.tmod Hour = d
    ∧ -Hour < d.tmod Hour ∧ d.tmod Hour < Hour
    ∧ (0 ≤ d → 0 ≤ d.tmod Hour) ∧ (d ≤ 0 → d.tmod Hour ≤ 0) := by
  have hH : (0 : Int) < Hour := by decide
  have h0 := Int.tdiv_add_tmod d Hour
  have h1 := Int.tdiv_add_tmod (-d) Hour
  rw [Int.neg_tdiv] at h1
  have hpos : 0 ≤ d → 0 ≤ d.tmod Hour ∧ d.tmod Hour < Hour := fun h =>
    ⟨Int.tmod_nonneg _ h, Int.tmod_lt_of_pos _ hH⟩
  have hneg : d ≤ 0 → 0 ≤ (-d).tmod Hour ∧ (-d).tmod Hour < Hour := fun h =>
    ⟨Int.tmod_nonneg _ (by omega), Int.tmod_lt_of_pos _ hH⟩
  have e : (-d).tmod Hour = -(d.tmod Hour) := by
    have : Hour * -(d.tdiv Hour) = -(Hour * d.tdiv Hour) := by ring
    omega
  rw [e] at hneg
  refine ⟨h0, ?_, ?_, ?_, ?_⟩
  · rcases le_total 0 d with h | h
    · have := hpos h; omega
    · have := hneg h; omega
  · rcases le_total 0 d with h | h
    · have := hpos h; omega
    · have := hneg h; omega
  · intro h; exact (hpos h).1
  · intro h; have := hneg h; omega

/-- The day count `int(d.Hours() / 24)` of an `int64` duration `d` never
falls on the wrong side of a whole number of days: it is at least `k` when
`d` is at least `k` days, and at most `k` when `d` is at most `k` days. -/
theorem dayCount_bounds (d : Int) (hd1 : minInt64 ≤ d) (hd2 : d ≤ maxInt64) (k : Int) :
    (k * Day ≤ d → k ≤ Float64.toInt (Float64.div (durationHours d) 24))
    ∧ (d ≤ k * Day → Float64.toInt (Float64.div (durationHours d) 24) ≤ k) := by
  obtain ⟨hsum, hlo, hhi, hnn, hnp⟩ := tdiv_tmod_Hour d
  unfold durationHours
  simp only
  generalize d.tdiv Hour = hour at *
  generalize d.tmod Hour = nsec at *
  unfold Hour at hsum hlo hhi
  unfold minInt64 at hd1
  unfold maxInt64 at hd2
  have hA := Float64_ofInt_within hour (by omega) (by omega)
  have hN := Float64_ofInt_within nsec (by omega) (by omega)
  have hconst : roundFloat64 (60 * 60 * 1e9) = .finite 3600000000000 := by decide!
  rw [hconst]
  have hQ : ∃ ql qh : Int,
      (Float64.div (Float64.ofInt nsec) (.finite 3600000000000)).within ql qh
      ∧ -1 ≤ ql ∧ qh ≤ 1 ∧ (0 ≤ d → ql = 0) ∧ (d ≤ 0 → qh = 0)
      ∧ (nsec = 0 → ql = 0 ∧ qh = 0) := by
    rcases lt_trichotomy nsec 0 with h | h | h
    · refine ⟨-1, 0, ?_, le_rfl, by omega, fun h0 => ?_, fun _ => rfl, fun h0 => by omega⟩
      · apply Float64_div_within _ _ nsec nsec _ _ (by norm_num) hN
        · have : (-3600000000000 : ℚ) ≤ nsec := by
            exact_mod_cast (by omega : (-3600000000000 : Int) ≤ nsec)
          push_cast; linarith
        · have : (nsec : ℚ) ≤ 0 := by exact_mod_cast h.le
          push_cast; linarith
        · decide
        · decide
      · have := hnn h0; omega
    · subst h
      refine ⟨0, 0, ?_, by omega, by omega, fun _ => rfl, fun _ => rfl, fun _ => ⟨rfl, rfl⟩⟩
      apply Float64_div_within _ _ 0 0 _ _ (by norm_num) hN
      · simp
      · simp
      · decide
      · decide
    · refine ⟨0, 1, ?_, by omega, le_rfl, fun _ => rfl, fun h0 => ?_, fun h0 => by omega⟩
      · apply Float64_div_within _ _ nsec nsec _ _ (by norm_num) hN
        · have : (0 : ℚ) ≤ nsec := by exact_mod_cast h.le
          push_cast; linarith
        · have : (nsec : ℚ) ≤ 3600000000000 := by
            exact_mod_cast (by omega : nsec ≤ (3600000000000 : Int))
          push_cast; linarith
        · decide
        · decide
      · have := hnp h0; omega
  obtain ⟨ql, qh, hQw, hq1, hq2, hq3, hq4, hq5⟩ := hQ
  have hH := Float64_add_within _ _ _ _ _ _ hA hQw (by omega) (by omega)
  have h24 : (24 : Float64) = .finite 24 := by decide
  rw [h24]
  have hD := Float64_div_within _ 24 _ _ ((hour + ql) / 24) (-((-(hour + qh)) / 24))
    (by norm_num) hH
    (by have : (hour + ql) / 24 * 24 ≤ hour + ql := by omega
        exact_mod_cast this)
    (by have : hour + qh ≤ (-((-(hour + qh)) / 24)) * 24 := by omega
        exact_mod_cast this)
    (by omega) (by omega)
  have hT := Float64_toInt_within _ _ _ hD (by unfold minInt64; omega)
    (by unfold maxInt64; omega)
  unfold Day
  constructor
  · intro hk
    rcases le_total 0 d with h | h
    · have := hq3 h; omega
    · by_cases hz : nsec = 0
      · have := hq5 hz; omega
      · have := hnp h; omega
  · intro hk
    rcases le_total 0 d with h | h
    · by_cases hz : nsec = 0
      · have := hq5 hz; omega
      · have := hnn h; omega
    · have := hq4 h; omega

/-- A rational in the normal range of binary64 rounds to a finite value, with
a relative error of at most `2 ^ (-53)`. -/
theorem roundFloat64_normal (x : ℚ) (h1 : (2 : ℚ) ^ (-1022 : Int) ≤ x)
    (h2 : x < (2 : ℚ) ^ (1023 : Nat)) :
    ∃ y, roundFloat64 x = .finite y ∧ |y - x| ≤ x / 2 ^ (53 : Nat) := by
  have hx : 0 < x := lt_of_lt_of_le (by positivity) h1
  have habs : |x| = x := abs_of_pos hx
  unfold roundFloat64
  rw [if_neg hx.ne']
  simp only [habs]
  have hfl1 := floorLog2_le x hx
  have hfl2 := floorLog2_lt x hx
  have hge : -1022 ≤ floorLog2 x := by
    have : (2 : ℚ) ^ (-1022 : Int) < (2 : ℚ) ^ (floorLog2 x + 1) := lt_of_le_of_lt h1 hfl2
    have := (zpow_lt_zpow_iff_right₀ (by norm_num : (1 : ℚ) < 2)).mp this
    omega
  have he : max (floorLog2 x - 52) (-1074) = floorLog2 x - 52 := max_eq_left (by omega)
  rw [he, pow2_eq]
  set e := floorLog2 x - 52 with hedef
  have hp : (0 : ℚ) < 2 ^ e := by positivity
  have herr := abs_roundHalfEven_sub (x / 2 ^ e)
  set n := roundHalfEven (x / 2 ^ e) with hn
  have hyx : |(n : ℚ) * 2 ^ e - x| ≤ x / 2 ^ (53 : Nat) := by
    have e1 : (n : ℚ) * 2 ^ e - x = ((n : ℚ) - x / 2 ^ e) * 2 ^ e := by
      field_simp
    rw [e1, abs_mul, abs_of_pos hp]
    have e2 : (2 : ℚ) ^ e = 2 ^ floorLog2 x / 2 ^ (52 : Nat) := by
      rw [hedef, zpow_sub₀ (by norm_num)]
      norm_num
    calc |(n : ℚ) - x / 2 ^ e| * 2 ^ e ≤ 1 / 2 * 2 ^ e :=
          mul_le_mul_of_nonneg_right herr hp.le
      _ = 2 ^ floorLog2 x / 2 ^ (53 : Nat) := by rw [e2]; ring
      _ ≤ x / 2 ^ (53 : Nat) := by
          apply div_le_div_of_nonneg_right hfl1 (by positivity)
  have hyb := abs_le.mp hyx
  have hsmall : x / 2 ^ (53 : Nat) < x := by
    apply div_lt_self hx
    norm_num
  have hypos : 0 < (n : ℚ) * 2 ^ e := by linarith [hyb.1]
  rw [if_neg hypos.ne']
  have hylt : |(n : ℚ) * 2 ^ e| < 2 ^ (1024 : Nat) := by
    rw [abs_of_pos hypos]
    have : (2 : ℚ) ^ (1024 : Nat) = 2 * 2 ^ (1023 : Nat) := by
      rw [pow_succ]; ring
    rw [this]
    linarith [hyb.2]
  have := floorLog2_lt_of_lt _ (abs_pos.mpr hypos.ne') 1024 hylt
  rw [if_neg (by omega)]
  exact ⟨_, rfl, hyx⟩

/-- The Go constant `1.2` as a `float64`: the binary64 value nearest to 6/5,
which is `5404319552844595 / 2 ^ 52` (a little below 6/5). -/
theorem roundFloat64_premium :
    roundFloat64 1.2 = .finite (5404319552844595 / 4503599627370496) := by
  decide!

/-- The product of a positive finite value in the normal range with the
`float64` constant `1.2` is finite and differs from six fifths of the value by
a relative error of at most `2 ^ (-52)`. -/
theorem Float64_mul_premium (v : ℚ) (h1 : (2 : ℚ) ^ (-1022 : Int) ≤ v)
    (h2 : v ≤ (2 : ℚ) ^ (1022 : Nat)) :
    ∃ y, Float64.mul (.finite v) (roundFloat64 1.2) = .finite y
      ∧ |y - 6 * v / 5| ≤ 6 * v / 5 / 2 ^ (52 : Nat) := by
  have hv : 0 < v := lt_of_lt_of_le (by positivity) h1
  rw [roundFloat64_premium]
  have hp1 : v ≤ v * (5404319552844595 / 4503599627370496) := by
    have : (1 : ℚ) ≤ 5404319552844595 / 4503599627370496 := by norm_num
    nlinarith
  have hp2 : v * (5404319552844595 / 4503599627370496) < 2 * v := by
    have : (5404319552844595 / 4503599627370496 : ℚ) < 2 := by norm_num
    nlinarith
  have hpos : 0 < v * (5404319552844595 / 4503599627370496) := by linarith
  have key : Float64.mul (.finite v) (.finite (5404319552844595 / 4503599627370496))
      = roundFloat64 (v * (5404319552844595 / 4503599627370496)) := by
    simp [Float64.mul, Float64.toRat, hv.ne']
  rw [key]
  obtain ⟨y, hy, herr⟩ := roundFloat64_normal _ (h1.trans hp1)
    (by have : (2 : ℚ) ^ (1023 : Nat) = 2 * 2 ^ (1022 : Nat) := by rw [pow_succ]; ring
        rw [this]; linarith)
  refine ⟨y, hy, ?_⟩
  have hb := abs_le.mp herr
  have hpow : (0 : ℚ) < 2 ^ (52 : Nat) := by positivity
  have e53 : (2 : ℚ) ^ (53 : Nat) = 2 * 2 ^ (52 : Nat) := by rw [pow_succ]; ring
  rw [e53] at hb
  have e52 : (2 : ℚ) ^ (52 : Nat) = 4503599627370496 := by norm_num
  rw [e52] at hb ⊢
  rw [abs_le]
  constructor
  · have := hb.1
    field_simp at this ⊢
    nlinarith
  · have := hb.2
    field_simp at this ⊢
    nlinarith

/-- C8, counterexample: for a base fee of 3 the walk-in fee is the `float64`
`8106479329266892 / 2 ^ 51` (printed 3.5999999999999996), not the rational
`6 * 3 / 5 = 18 / 5`: the code multiplies two `float64` values, and neither
the constant `1.2` nor the product is exact. -/
theorem CalculateAppointmentFee_walkin_not_exact :
    Sample.lowFeeDoctorInfo.ConsultationFee = some 3
    ∧ CalculateAppointmentFee Sample.storeNineOClock false Sample.jan10
        Sample.lowFeeDoctorInfo "walkin" Sample.patientID
        = some (.finite (8106479329266892 / 2251799813685248))
    ∧ (8106479329266892 / 2251799813685248 : ℚ) ≠ 6 * 3 / 5 :=
  ⟨rfl, by decide!, by norm_num⟩

/-- C8, amended: for the consultation types `walkin` and `emergency` the fee
is the `float64` product of the base consultation fee and the `float64`
constant `1.2`, which is `5404319552844595 / 2 ^ 52`; it is null when the
doctor has no base fee. For a positive finite base fee `v` in the normal range
the fee is finite and within a relative error of `2 ^ (-52)` of `6 * v / 5`;
a base fee of 100 gives exactly 120. -/
theorem CalculateAppointmentFee_walkin_emergency (db : DB) (queryFails : Bool) (now : Time)
    (doctor : DoctorInfo) (consultationType patientID : String)
    (htype : consultationType = "walkin" ∨ consultationType = "emergency") :
    CalculateAppointmentFee db queryFails now doctor consultationType patientID
        = doctor.ConsultationFee.map
            (fun b => Float64.mul b (.finite (5404319552844595 / 4503599627370496)))
    ∧ (doctor.ConsultationFee = none →
        CalculateAppointmentFee db queryFails now doctor consultationType patientID = none)
    ∧ (∀ v : ℚ, doctor.ConsultationFee = some (.finite v) →
        (2 : ℚ) ^ (-1022 : Int) ≤ v → v ≤ (2 : ℚ) ^ (1022 : Nat) →
        ∃ y, CalculateAppointmentFee db queryFails now doctor consultationType patientID
              = some (.finite y)
          ∧ |y - 6 * v / 5| ≤ 6 * v / 5 / 2 ^ (52 : Nat))
    ∧ (doctor.ConsultationFee = some 100 →
        CalculateAppointmentFee db queryFails now doctor consultationType patientID
          = some 120) := by
  have hmain : CalculateAppointmentFee db queryFails now doctor consultationType patientID
      = doctor.ConsultationFee.map (fun b => Float64.mul b (roundFloat64 1.2)) := by
    rcases htype with h | h <;> subst h <;>
      cases hfee : doctor.ConsultationFee <;> simp [CalculateAppointmentFee, hfee]
  refine ⟨?_, ?_, ?_, ?_⟩
  · rw [hmain, roundFloat64_premium]
  · intro hnone
    rw [hmain, hnone]
    rfl
  · intro v hv h1 h2
    obtain ⟨y, hy, herr⟩ := Float64_mul_premium v h1 h2
    exact ⟨y, by rw [hmain, hv, Option.map_some', hy], herr⟩
  · intro h100
    rw [hmain, h100, Option.map_some']
    exact congrArg some (by decide!)

/-- C8, witness: the sample doctor has the base fee 100 and a walk-in costs
120. -/
theorem CalculateAppointmentFee_walkin_emergency_witness :
    CalculateAppointmentFee Sample.storeNineOClock false Sample.jan10 Sample.doctorInfo
      "walkin" Sample.patientID = some 120 :=
  (CalculateAppointmentFee_walkin_emergency Sample.storeNineOClock false Sample.jan10
    Sample.doctorInfo "walkin" Sample.patientID (Or.inl rfl)).2.2.2 rfl

/-- C9: for a consultation type other than `followup`, `walkin` and
`emergency` (so for `new` and for every unknown type) the fee is the doctor's
base consultation fee, null when none is configured, whatever the patient, the
store and the clock. -/
theorem CalculateAppointmentFee_base (db : DB) (queryFails : Bool) (now : Time)
    (doctor : DoctorInfo) (consultationType patientID : String)
    (h1 : consultationType ≠ "followup") (h2 : consultationType ≠ "walkin")
    (h3 : consultationType ≠ "emergency") :
    CalculateAppointmentFee db queryFails now doctor consultationType patientID
      = doctor.ConsultationFee := by
  simp [CalculateAppointmentFee, h1, h2, h3]

/-- C9, witness: consultation type `new` with the sample doctor gives the base
fee 100. -/
theorem CalculateAppointmentFee_base_witness :
    CalculateAppointmentFee Sample.storeNineOClock false Sample.jan10 Sample.doctorInfo
      "new" Sample.patientID = some 100 :=
  CalculateAppointmentFee_base Sample.storeNineOClock false Sample.jan10 Sample.doctorInfo
    "new" Sample.patientID (by decide) (by decide) (by decide)

/-- The value of `maxTime` is an element of the list and bounds the list. -/
theorem maxTime_spec : ∀ (l : List Time) (m : Time), maxTime l = some m →
    m ∈ l ∧ ∀ t ∈ l, t ≤ m
  | [], m, h => by simp [maxTime] at h
  | t :: ts, m, h => by
    unfold maxTime at h
    cases hts : maxTime ts with
    | none =>
      rw [hts] at h
      cases ts with
      | nil =>
        simp only [Option.some.injEq] at h
        subst h
        simp
      | cons u us =>
        unfold maxTime at hts
        cases hus : maxTime us <;> rw [hus] at hts <;> simp at hts
    | some m1 =>
      rw [hts] at h
      obtain ⟨hmem, hle⟩ := maxTime_spec ts m1 hts
      simp only [Option.some.injEq] at h
      by_cases hc : m1 ≤ t
      · rw [if_pos hc] at h
        subst h
        refine ⟨List.mem_cons_self _ _, fun u hu => ?_⟩
        rcases List.mem_cons.mp hu with rfl | hu
        · exact le_refl _
        · exact le_trans (hle u hu) hc
      · rw [if_neg hc] at h
        subst h
        refine ⟨List.mem_cons_of_mem _ hmem, fun u hu => ?_⟩
        rcases List.mem_cons.mp hu with rfl | hu
        · exact le_of_lt (lt_of_not_le hc)
        · exact hle u hu

/-- `maxTime` has no value only for the empty list. -/
theorem maxTime_eq_none : ∀ (l : List Time), maxTime l = none → l = []
  | [], _ => rfl
  | t :: ts, h => by
    unfold maxTime at h
    cases hts : maxTime ts <;> rw [hts] at h <;> simp at h

/-- An element of the list that bounds the list is the value of `maxTime`. -/
theorem maxTime_of_greatest (l : List Time) (m : Time) (hm : m ∈ l)
    (hle : ∀ t ∈ l, t ≤ m) : maxTime l = some m := by
  cases h : maxTime l with
  | none => rw [maxTime_eq_none l h] at hm; simp at hm
  | some m1 =>
    obtain ⟨hmem, hb⟩ := maxTime_spec l m1 h
    exact congrArg some (le_antisymm (hle m1 hmem) (hb m hm))

/-- The saturated difference of two instants is an `int64`, and it is the
exact difference when that fits. -/
theorem timeSub_spec (t u : Time) :
    minInt64 ≤ timeSub t u ∧ timeSub t u ≤ maxInt64
    ∧ (minInt64 ≤ t - u → t - u ≤ maxInt64 → timeSub t u = t - u) := by
  unfold timeSub
  split_ifs with h1 h2
  · exact ⟨h1.1, h1.2, fun _ _ => rfl⟩
  · exact ⟨le_refl _, by decide, fun a b => absurd ⟨a, b⟩ h1⟩
  · exact ⟨by decide, le_refl _, fun a b => absurd ⟨a, b⟩ h1⟩

/-- The day count of the `followup` branch never falls on the wrong side of a
whole number of days: it is at least `k` when the elapsed time is at least `k`
days and at most `k` when the elapsed time is at most `k` days. -/
theorem daysSinceLastVisit_bounds (now last : Time) (k : Int) :
    (k * Day ≤ timeSub now last → k ≤ daysSinceLastVisit now last)
    ∧ (timeSub now last ≤ k * Day → daysSinceLastVisit now last ≤ k) :=
  dayCount_bounds (timeSub now last) (timeSub_spec now last).1 (timeSub_spec now last).2.1 k

/-- C7, counterexample: the patient's only completed appointment with the
doctor was 7 days and 12 hours before now and the follow-up window is 7 days;
the elapsed time exceeds 7 days by a fraction of a day, the day count is 7,
and the fee returned is null, not the follow-up fee of 50. -/
theorem CalculateAppointmentFee_followup_free_after_window :
    lastCompletedAppointment Sample.storeCompletedVisit Sample.patientID Sample.doctorInfo.ID
        = some (Sample.nineOClockPlus 0)
    ∧ Sample.doctorInfo.FollowUpDays = some 7
    ∧ Sample.doctorInfo.FollowUpFee = some 50
    ∧ 7 * Day < (Sample.nineOClockPlus 0 + 7 * Day + 12 * Hour) - Sample.nineOClockPlus 0
    ∧ daysSinceLastVisit (Sample.nineOClockPlus 0 + 7 * Day + 12 * Hour)
        (Sample.nineOClockPlus 0) = 7
    ∧ CalculateAppointmentFee Sample.storeCompletedVisit false
        (Sample.nineOClockPlus 0 + 7 * Day + 12 * Hour) Sample.doctorInfo "followup"
        Sample.patientID = none :=
  ⟨by decide, rfl, rfl, by decide, by decide!, by decide!⟩

/-- Within the day after the window the outcome follows the `float64` day
count, which can round up: with a window of 170 days and a completed
appointment 171 days less one nanosecond before now, `Hours()` rounds to
`4104` exactly, the day count is 171 and the follow-up fee of 50 is charged,
although fewer than 171 days have elapsed. -/
theorem CalculateAppointmentFee_followup_rounded_up :
    Sample.longWindowDoctorInfo.FollowUpDays = some 170
    ∧ timeSub (Sample.nineOClockPlus 0 + 171 * Day - 1) (Sample.nineOClockPlus 0)
        = 171 * Day - 1
    ∧ durationHours (171 * Day - 1) = 4104
    ∧ daysSinceLastVisit (Sample.nineOClockPlus 0 + 171 * Day - 1)
        (Sample.nineOClockPlus 0) = 171
    ∧ CalculateAppointmentFee Sample.storeCompletedVisit false
        (Sample.nineOClockPlus 0 + 171 * Day - 1) Sample.longWindowDoctorInfo "followup"
        Sample.patientID = some 50 :=
  ⟨rfl, by decide, by decide!, by decide!, by decide!⟩

/-- C7, amended: for consultation type `followup` the fee is the doctor's
follow-up fee when the lookup of the last completed appointment fails, when
the patient has no completed appointment with the doctor, when the doctor has
no follow-up window, and when the most recent completed appointment is at the
zero instant. Otherwise, with `x` the most recent completed appointment and
`d = timeSub now x` the elapsed time (the difference `now - x` when that fits
an `int64`, a future `x` giving a negative `d`), the fee is null exactly when
the day count `int(d.Hours() / 24)` is at most `followUpDays`: it is null
whenever `d` is at most `followUpDays` days, it is the follow-up fee whenever
`d` is at least `followUpDays + 1` days, and in between the day count is
`followUpDays` or `followUpDays + 1`. -/
theorem CalculateAppointmentFee_followup (db : DB) (queryFails : Bool) (now : Time)
    (doctor : DoctorInfo) (patientID : String) :
    (queryFails = true →
      CalculateAppointmentFee db queryFails now doctor "followup" patientID
        = doctor.FollowUpFee)
    ∧ ((∀ a ∈ db.appointments,
        ¬ (a.PatientID = patientID ∧ a.DoctorID = doctor.ID ∧ a.Status = "completed")) →
      CalculateAppointmentFee db queryFails now doctor "followup" patientID
        = doctor.FollowUpFee)
    ∧ (doctor.FollowUpDays = none →
      CalculateAppointmentFee db queryFails now doctor "followup" patientID
        = doctor.FollowUpFee)
    ∧ (∀ (x : Appointment) (followUpDays : Int),
        queryFails = false →
        x ∈ db.appointments → x.PatientID = patientID → x.DoctorID = doctor.ID →
        x.Status = "completed" →
        (∀ a ∈ db.appointments, a.PatientID = patientID → a.DoctorID = doctor.ID →
          a.Status = "completed" → a.AppointmentTime ≤ x.AppointmentTime) →
        doctor.FollowUpDays = some followUpDays →
        (x.AppointmentTime = zeroTime →
          CalculateAppointmentFee db queryFails now doctor "followup" patientID
            = doctor.FollowUpFee)
        ∧ (x.AppointmentTime ≠ zeroTime →
          CalculateAppointmentFee db queryFails now doctor "followup" patientID
            = (if daysSinceLastVisit now x.AppointmentTime ≤ followUpDays then none
               else doctor.FollowUpFee)
          ∧ (timeSub now x.AppointmentTime ≤ followUpDays * Day →
              CalculateAppointmentFee db queryFails now doctor "followup" patientID = none)
          ∧ ((followUpDays + 1) * Day ≤ timeSub now x.AppointmentTime →
              CalculateAppointmentFee db queryFails now doctor "followup" patientID
                = doctor.FollowUpFee)
          ∧ (followUpDays * Day ≤ timeSub now x.AppointmentTime →
              timeSub now x.AppointmentTime ≤ (followUpDays + 1) * Day →
              daysSinceLastVisit now x.AppointmentTime = followUpDays
              ∨ daysSinceLastVisit now x.AppointmentTime = followUpDays + 1)
          ∧ (minInt64 ≤ now - x.AppointmentTime → now - x.AppointmentTime ≤ maxInt64 →
              timeSub now x.AppointmentTime = now - x.AppointmentTime))) := by
  refine ⟨?_, ?_, ?_, ?_⟩
  · intro hq
    simp [CalculateAppointmentFee, hq]
  · intro hnone
    have hf : db.appointments.filter (fun a =>
        a.PatientID == patientID && a.DoctorID == doctor.ID && a.Status == "completed") = [] := by
      rw [List.filter_eq_nil_iff]
      intro a ha hc
      simp only [Bool.and_eq_true, beq_iff_eq] at hc
      exact hnone a ha ⟨hc.1.1, hc.1.2, hc.2⟩
    cases queryFails <;>
      simp [CalculateAppointmentFee, lastCompletedAppointment, hf, maxTime]
  · intro hwin
    simp only [CalculateAppointmentFee, hwin]
    simp only [String.reduceEq, if_false, if_true]
    split
    · split <;> rfl
    · rfl
  · intro x F hq hx hp hd hs hmax hwin
    subst hq
    have hlast : lastCompletedAppointment db patientID doctor.ID = some x.AppointmentTime := by
      unfold lastCompletedAppointment
      apply maxTime_of_greatest
      · rw [List.mem_map]
        refine ⟨x, ?_, rfl⟩
        rw [List.mem_filter]
        exact ⟨hx, by simp [hp, hd, hs]⟩
      · intro t ht
        rw [List.mem_map] at ht
        obtain ⟨a, ha, rfl⟩ := ht
        rw [List.mem_filter] at ha
        simp only [Bool.and_eq_true, beq_iff_eq] at ha
        exact hmax a ha.1 ha.2.1.1 ha.2.1.2 ha.2.2
    constructor
    · intro hzero
      simp [CalculateAppointmentFee, hlast, hzero]
    · intro hzero
      have hfee : CalculateAppointmentFee db false now doctor "followup" patientID
          = (if daysSinceLastVisit now x.AppointmentTime ≤ F then none
             else doctor.FollowUpFee) := by
        simp only [CalculateAppointmentFee, hlast, hwin]
        simp only [String.reduceEq, if_false, if_true, Bool.false_eq_true, ne_eq, hzero,
          not_false_eq_true]
      have hlo := daysSinceLastVisit_bounds now x.AppointmentTime F
      have hhi := daysSinceLastVisit_bounds now x.AppointmentTime (F + 1)
      refine ⟨hfee, ?_, ?_, ?_, (timeSub_spec now x.AppointmentTime).2.2⟩
      · intro h
        rw [hfee, if_pos (hlo.2 h)]
      · intro h
        have := hhi.1 h
        rw [hfee, if_neg (by omega)]
      · intro h1 h2
        have := hlo.1 h1
        have := hhi.2 h2
        omega

/-- C7, witness: the completed visit of 2024-01-10 09:00 and a window of 7
days; exactly 8 days later (one day after the window closes) the fee is the
follow-up fee. -/
theorem CalculateAppointmentFee_followup_witness :
    CalculateAppointmentFee Sample.storeCompletedVisit false (Sample.nineOClockPlus 0 + 8 * Day)
        Sample.doctorInfo "followup" Sample.patientID = some 50 :=
  (((CalculateAppointmentFee_followup Sample.storeCompletedVisit false
    (Sample.nineOClockPlus 0 + 8 * Day) Sample.doctorInfo Sample.patientID).2.2.2
    { Sample.appointment "00000000-0000-0000-0000-0000000000f1" (Sample.nineOClockPlus 0) 12
        "D1-20240110-0001" with Status := "completed" }
    7 rfl (by decide) (by decide) (by decide) (by decide) (by decide) rfl).2
    (by decide)).2.2.1 (by decide)

/-! ## Time slots -/

/-- C10, counterexample: the window 09:00 to 09:30 on 2024-01-10 with
12-minute slots and no bookings yields three slots; the third runs from 09:24
to 09:36 and ends after the window's end. -/
theorem GenerateTimeSlots_last_slot_overruns :
    GenerateTimeSlots (Sample.store []) (fun _ => false) 3 Sample.jan10 (9 * Hour)
        (9 * Hour + 30 * Minute) 12 Sample.doctorID
      = some [
          { StartTime := Sample.nineOClockPlus 0, EndTime := Sample.nineOClockPlus 12,
            IsAvailable := true, IsBooked := false, AppointmentID := none },
          { StartTime := Sample.nineOClockPlus 12, EndTime := Sample.nineOClockPlus 24,
            IsAvailable := true, IsBooked := false, AppointmentID := none },
          { StartTime := Sample.nineOClockPlus 24, EndTime := Sample.nineOClockPlus 36,
            IsAvailable := true, IsBooked := false, AppointmentID := none }]
    ∧ combineDateTime Sample.jan10 (9 * Hour + 30 * Minute) = Sample.nineOClockPlus 30
    ∧ Sample.nineOClockPlus 30 < Sample.nineOClockPlus 36 := by
  decide

/-- The loop of `GenerateTimeSlots` ends within `fuel` iterations when the
slot duration is positive and does not wrap around, and every slot it adds
starts at or after `current`, strictly before `endDateTime`, and ends one slot
duration after it starts. -/
theorem GenerateTimeSlotsLoop_spec (db : DB) (queryFails : Time → Bool) (doctorID : String)
    (endDateTime : Time) (d : Int) (h0 : 0 < d) (h1 : d ≤ 153722867) :
    ∀ (fuel : Nat) (current : Time) (slots : List TimeSlot),
      (endDateTime - current).toNat ≤ fuel →
      ∃ out, GenerateTimeSlotsLoop db queryFails doctorID endDateTime d fuel current slots
          = some out
        ∧ ∀ slot ∈ out, slot ∈ slots
            ∨ (current ≤ slot.StartTime ∧ slot.StartTime < endDateTime
                ∧ slot.EndTime = slot.StartTime + d * Minute) := by
  have hm := minutesDuration_eq d (le_of_lt h0) h1
  have hpos : 0 < d * Minute := by unfold Minute; omega
  intro fuel
  induction fuel with
  | zero =>
    intro current slots hfuel
    have hge : ¬ current < endDateTime := by unfold Time at *; omega
    exact ⟨slots, by simp [GenerateTimeSlotsLoop, hge], fun slot hs => Or.inl hs⟩
  | succ n ih =>
    intro current slots hfuel
    by_cases hlt : current < endDateTime
    · have hfuel1 : (endDateTime - (current + d * Minute)).toNat ≤ n := by
        unfold Time at *; omega
      obtain ⟨out, hout, hall⟩ := ih (current + d * Minute)
        (slots ++ [{ StartTime := current, EndTime := current + d * Minute,
                     IsAvailable := !(if queryFails current then none
                        else bookedAppointmentAt db doctorID current).isSome,
                     IsBooked := (if queryFails current then none
                        else bookedAppointmentAt db doctorID current).isSome,
                     AppointmentID := if queryFails current then none
                        else bookedAppointmentAt db doctorID current }]) hfuel1
      refine ⟨out, ?_, ?_⟩
      · simp only [GenerateTimeSlotsLoop, hlt, if_true, hm]
        exact hout
      · intro slot hs
        rcases hall slot hs with hmem | ⟨ha, hb, hc⟩
        · rcases List.mem_append.mp hmem with hmem | hmem
          · exact Or.inl hmem
          · simp only [List.mem_singleton] at hmem
            subst hmem
            exact Or.inr ⟨le_refl _, hlt, rfl⟩
        · refine Or.inr ⟨?_, hb, hc⟩
          unfold Time at *
          omega
    · exact ⟨slots, by simp [GenerateTimeSlotsLoop, hlt], fun slot hs => Or.inl hs⟩

/-- C10, amended: for a positive slot duration of at most 153722867 minutes,
`GenerateTimeSlots` returns once its loop is given as many iterations as the
window has nanoseconds, and every slot returned starts inside the window, at
or after its start and strictly before its end, and ends exactly one slot
duration after it starts; so a slot ends less than one slot duration after the
window's end, and the slot that fits only partially is produced. -/
theorem GenerateTimeSlots_slots_start_in_window (db : DB) (queryFails : Time → Bool)
    (targetDate startTime endTime : Time) (slotDuration : Int) (doctorID : String)
    (h0 : 0 < slotDuration) (h1 : slotDuration ≤ 153722867) (fuel : Nat)
    (hfuel : (combineDateTime targetDate endTime
      - combineDateTime targetDate startTime).toNat ≤ fuel) :
    ∃ slots, GenerateTimeSlots db queryFails fuel targetDate startTime endTime slotDuration
        doctorID = some slots
      ∧ ∀ slot ∈ slots,
          combineDateTime targetDate startTime ≤ slot.StartTime
          ∧ slot.StartTime < combineDateTime targetDate endTime
          ∧ slot.EndTime = slot.StartTime + slotDuration * Minute
          ∧ slot.EndTime < combineDateTime targetDate endTime + slotDuration * Minute := by
  obtain ⟨out, hout, hall⟩ := GenerateTimeSlotsLoop_spec db queryFails doctorID
    (combineDateTime targetDate endTime) slotDuration h0 h1 fuel
    (combineDateTime targetDate startTime) [] hfuel
  refine ⟨out, hout, fun slot hs => ?_⟩
  rcases hall slot hs with hmem | ⟨ha, hb, hc⟩
  · simp at hmem
  · refine ⟨ha, hb, hc, ?_⟩
    rw [hc]
    unfold Time at *
    omega

/-- C10, witness: the window 09:00 to 09:30 on 2024-01-10 with 12-minute
slots. -/
theorem GenerateTimeSlots_slots_start_in_window_witness :
    ∃ slots, GenerateTimeSlots (Sample.store []) (fun _ => false) 1800000000000 Sample.jan10
        (9 * Hour) (9 * Hour + 30 * Minute) 12 Sample.doctorID = some slots
      ∧ ∀ slot ∈ slots,
          combineDateTime Sample.jan10 (9 * Hour) ≤ slot.StartTime
          ∧ slot.StartTime < combineDateTime Sample.jan10 (9 * Hour + 30 * Minute)
          ∧ slot.EndTime = slot.StartTime + 12 * Minute
          ∧ slot.EndTime < combineDateTime Sample.jan10 (9 * Hour + 30 * Minute) + 12 * Minute :=
  GenerateTimeSlots_slots_start_in_window (Sample.store []) (fun _ => false) Sample.jan10
    (9 * Hour) (9 * Hour + 30 * Minute) 12 Sample.doctorID (by decide) (by decide)
    1800000000000 (by decide)

/-! ## Decimal text -/

/-- The digit characters: value, digit test and `LIKE` meaning. -/
theorem digitChar_facts (n : Nat) :
    digitValue (digitChar n) = n % 10 ∧ (digitChar n).isDigit = true
      ∧ isLikeSpecial (digitChar n) = false ∧ digitChar n ≠ '-' := by
  have h : ∀ k, k < 10 → digitValue (Char.ofNat (48 + k)) = k
      ∧ (Char.ofNat (48 + k)).isDigit = true
      ∧ isLikeSpecial (Char.ofNat (48 + k)) = false ∧ Char.ofNat (48 + k) ≠ '-' := by
    decide
  have hk := h (n % 10) (Nat.mod_lt n (by decide))
  have hmod : n % 10 % 10 = n % 10 := Nat.mod_mod _ _
  unfold digitChar
  exact hk

/-- Reading digits is a left fold: it continues over an appended text. -/
theorem decimalValue_append (xs ys : List Char) (acc : Nat) :
    decimalValue acc (xs ++ ys) = decimalValue (decimalValue acc xs) ys := by
  induction xs generalizing acc with
  | nil => rfl
  | cons c cs ih => exact ih (acc * 10 + digitValue c)

/-- The digits produced by `decimalAux` with enough fuel. -/
theorem decimalAux_spec (fuel : Nat) : ∀ (n : Nat) (acc : List Char), n < fuel →
    ∃ ds, decimalAux fuel n acc = ds ++ acc ∧ ds ≠ [] ∧ decimalValue 0 ds = n
      ∧ (∀ c ∈ ds, c.isDigit = true)
      ∧ (∀ k, 1 ≤ k → n < 10 ^ k → ds.length ≤ k) := by
  induction fuel with
  | zero => intro n acc h; omega
  | succ fuel ih =>
    intro n acc h
    have hv : digitValue (digitChar n) = n % 10 := (digitChar_facts n).1
    have hd : (digitChar n).isDigit = true := (digitChar_facts n).2.1
    generalize digitChar n = dc at hv hd
    by_cases h10 : n / 10 = 0
    · refine ⟨[digitChar n], ?_, by simp, ?_, ?_, ?_⟩
      · show (if n / 10 = 0 then digitChar n :: acc
          else decimalAux fuel (n / 10) (digitChar n :: acc)) = _
        rw [if_pos h10]
        rfl
      · show 0 * 10 + digitValue (digitChar n) = n
        rw [(digitChar_facts n).1]
        omega
      · intro c hc
        simp only [List.mem_singleton] at hc
        subst hc
        exact (digitChar_facts n).2.1
      · intro k hk _
        simpa using hk
    · obtain ⟨ds, hds, hne, hval, hdig, hlen⟩ := ih (n / 10) (digitChar n :: acc) (by omega)
      refine ⟨ds ++ [digitChar n], ?_, by simp, ?_, ?_, ?_⟩
      · show (if n / 10 = 0 then digitChar n :: acc
          else decimalAux fuel (n / 10) (digitChar n :: acc)) = _
        rw [if_neg h10, hds]
        simp
      · rw [decimalValue_append, hval]
        show n / 10 * 10 + digitValue (digitChar n) = n
        rw [(digitChar_facts n).1]
        omega
      · intro c hc
        rcases List.mem_append.mp hc with hc | hc
        · exact hdig c hc
        · simp only [List.mem_singleton] at hc
          subst hc
          exact (digitChar_facts n).2.1
      · intro k hk hn
        have hk2 : 2 ≤ k := by
          by_contra hlt
          have : k = 1 := by omega
          subst this
          omega
        have hp : 10 ^ k = 10 ^ (k - 1) * 10 := by
          rw [← pow_succ]
          congr 1
          omega
        have := hlen (k - 1) (by omega) (by omega)
        simp only [List.length_append, List.length_singleton]
        omega

/-- The decimal representation: digits only, not empty, denoting the number,
within `k` digits for a number below `10 ^ k`. -/
theorem decimal_spec (n : Nat) :
    decimal n ≠ [] ∧ decimalValue 0 (decimal n) = n ∧ (∀ c ∈ decimal n, c.isDigit = true)
      ∧ (∀ k, 1 ≤ k → n < 10 ^ k → (decimal n).length ≤ k) := by
  obtain ⟨ds, hds, hne, hval, hdig, hlen⟩ := decimalAux_spec (n + 1) n [] (by omega)
  have : decimal n = ds := by simp [decimal, hds]
  rw [this]
  exact ⟨hne, hval, hdig, hlen⟩

/-- Leading zeros do not change the value read. -/
theorem decimalValue_replicate_zero (k : Nat) (xs : List Char) :
    decimalValue 0 (List.replicate k '0' ++ xs) = decimalValue 0 xs := by
  induction k with
  | zero => rfl
  | succ k ih =>
    have h0 : 0 * 10 + digitValue '0' = 0 := by decide
    show decimalValue (0 * 10 + digitValue '0') (List.replicate k '0' ++ xs) = _
    rw [h0]
    exact ih

/-- The zero-padded decimal text: digits only, denoting the number, at least
`width` long and exactly `width` long for a number below `10 ^ width`. -/
theorem zeroPad_spec (width n : Nat) :
    decimalValue 0 (zeroPad width n) = n ∧ (∀ c ∈ zeroPad width n, c.isDigit = true)
      ∧ zeroPad width n ≠ [] ∧ width ≤ (zeroPad width n).length
      ∧ (1 ≤ width → n < 10 ^ width → (zeroPad width n).length = width) := by
  obtain ⟨hne, hval, hdig, hlen⟩ := decimal_spec n
  unfold zeroPad
  refine ⟨?_, ?_, ?_, ?_, ?_⟩
  · rw [decimalValue_replicate_zero, hval]
  · intro c hc
    rcases List.mem_append.mp hc with hc | hc
    · rw [(List.mem_replicate.mp hc).2]
      decide
    · exact hdig c hc
  · simp [hne]
  · simp only [List.length_append, List.length_replicate]
    omega
  · intro hw hn
    have := hlen width hw hn
    simp only [List.length_append, List.length_replicate]
    omega

/-! ## The serial query -/

/-- A pattern without special characters followed by `%` matches exactly the
texts that begin with the pattern. -/
theorem likeMatch_plain_pattern : ∀ (p s : List Char), (∀ c ∈ p, isLikeSpecial c = false) →
    likeMatch (p ++ ['%']) s = p.isPrefixOf s
  | [], s, _ => by simp [likeMatch]
  | c :: p, s, h => by
    have hc : isLikeSpecial c = false := h c (List.mem_cons_self _ _)
    have hp : ∀ x ∈ p, isLikeSpecial x = false := fun x hx => h x (List.mem_cons_of_mem _ hx)
    simp only [isLikeSpecial, Bool.or_eq_false_iff, decide_eq_false_iff_not] at hc
    obtain ⟨⟨h1, h2⟩, h3⟩ := hc
    have ih := fun s' => likeMatch_plain_pattern p s' hp
    obtain ⟨q, ps, hq⟩ : ∃ q ps, p ++ ['%'] = q :: ps := by
      cases p with
      | nil => exact ⟨_, _, rfl⟩
      | cons a as => exact ⟨_, _, rfl⟩
    rw [List.cons_append, hq]
    cases s with
    | nil => simp [likeMatch, h1, h3]
    | cons x xs =>
      rw [likeMatch, if_neg h1, if_neg h3]
      simp only [h2, decide_False, Bool.false_or]
      rw [← hq, ih xs]
      simp only [List.isPrefixOf, beq_iff_eq]
      by_cases hx : x = c
      · simp [hx]
      · have hx2 : ¬ c = x := fun e => hx e.symm
        simp [hx, hx2]

/-- A digit character is neither white space nor a sign nor a hyphen. -/
theorem isDigit_facts (c : Char) (h : c.isDigit = true) :
    isSqlSpace c = false ∧ c ≠ '-' ∧ c ≠ '+' := by
  have hb : 48 ≤ c.toNat ∧ c.toNat ≤ 57 := by
    simp only [Char.isDigit, Bool.and_eq_true, decide_eq_true_eq] at h
    exact ⟨h.1, h.2⟩
  refine ⟨?_, ?_, ?_⟩
  · simp only [isSqlSpace, Bool.or_eq_false_iff, decide_eq_false_iff_not, Bool.and_eq_false_imp,
      decide_eq_true_eq]
    refine ⟨?_, fun _ => by omega⟩
    intro e
    rw [e] at hb
    exact absurd hb (by decide)
  · intro e
    rw [e] at hb
    exact absurd hb (by decide)
  · intro e
    rw [e] at hb
    exact absurd hb (by decide)

/-- Taking while a test holds stops at the first element that fails it. -/
theorem takeWhile_append_stop {α : Type} (p : α → Bool) (l : List α) (x : α) (r : List α)
    (hl : ∀ a ∈ l, p a = true) (hx : p x = false) :
    (l ++ x :: r).takeWhile p = l := by
  induction l with
  | nil => simp [List.takeWhile, hx]
  | cons a as ih =>
    have ha := hl a (List.mem_cons_self _ _)
    rw [List.cons_append, List.takeWhile_cons, ha, if_pos rfl,
      ih (fun b hb => hl b (List.mem_cons_of_mem _ hb))]

/-- The text after the last hyphen of `SCOPE-YYYYMMDD-` followed by a text
without a hyphen is that text. -/
theorem substringSerial_of_serialText (code : String) (t : Time) (tail : List Char)
    (htail : ∀ c ∈ tail, c ≠ '-') :
    substringSerial (bookingPrefix code t ++ tail) = some tail := by
  have hcount : 2 ≤ (bookingPrefix code t ++ tail).count '-' := by
    simp only [bookingPrefix, List.count_append, List.count_cons_self, List.count_nil,
      List.count_singleton_self]
    omega
  have hrev : (bookingPrefix code t ++ tail).reverse
      = tail.reverse ++ '-' :: (code.data ++ '-' :: format20060102 t).reverse := by
    simp [bookingPrefix]
  unfold substringSerial
  rw [if_pos hcount, hrev, takeWhile_append_stop]
  · simp
  · intro a ha
    simpa using htail a (List.mem_reverse.mp ha)
  · simp

/-- The integer cast of a non-empty text of digits whose value fits 32 bits
is that value. -/
theorem castInteger_digits (tail : List Char) (hne : tail ≠ [])
    (hdig : ∀ c ∈ tail, c.isDigit = true) (hval : decimalValue 0 tail ≤ 2147483647) :
    castInteger tail = some ((decimalValue 0 tail : Nat) : Int) := by
  obtain ⟨c, cs, rfl⟩ := List.exists_cons_of_ne_nil hne
  obtain ⟨hsp, hminus, hplus⟩ := isDigit_facts c (hdig c (List.mem_cons_self _ _))
  have h1 : (c :: cs).dropWhile isSqlSpace = c :: cs := by
    simp [List.dropWhile, hsp]
  have h2 : (c :: cs).takeWhile Char.isDigit = c :: cs :=
    List.takeWhile_eq_self_iff.mpr hdig
  have h3 : (c :: cs).dropWhile Char.isDigit = [] :=
    List.dropWhile_eq_nil_iff.mpr hdig
  unfold castInteger
  simp only [h1, if_neg hminus, if_neg hplus, h2, h3, List.dropWhile_nil, List.isEmpty_cons,
    List.isEmpty_nil, Bool.not_true, Bool.or_false, Bool.false_eq_true, if_false]
  rw [if_pos]
  constructor <;> omega

/-- A text that begins with `SCOPE-YYYYMMDD-` is that prefix followed by its
serial text. -/
theorem eq_prefix_append_serialText (code : String) (t : Time) (b : List Char)
    (h : (bookingPrefix code t).isPrefixOf b = true) :
    b = bookingPrefix code t ++ serialText code t b := by
  rw [List.isPrefixOf_iff_prefix, List.prefix_iff_eq_append] at h
  exact h.symm

/-- The maximum computed by the serial query over booking numbers of one scope
and day whose serial texts are digits: the largest serial, `NULL` for no
rows. -/
theorem maxSerial_of_digits (code : String) (t : Time) : ∀ (rows : List (List Char)),
    (∀ b ∈ rows, (bookingPrefix code t).isPrefixOf b = true
      ∧ serialText code t b ≠ [] ∧ (∀ c ∈ serialText code t b, c.isDigit = true)
      ∧ decimalValue 0 (serialText code t b) < 2147483647) →
    ∃ m, maxSerial rows = .ok m
      ∧ (match m with
          | some v => v
          | none => 0)
        = (((rows.map (fun b => decimalValue 0 (serialText code t b))).foldr max 0 : Nat) : Int)
      ∧ (rows.map (fun b => decimalValue 0 (serialText code t b))).foldr max 0 < 2147483647
  | [], _ => ⟨none, rfl, rfl, by simp⟩
  | b :: bs, h => by
    obtain ⟨hpre, hne, hdig, hval⟩ := h b (List.mem_cons_self _ _)
    obtain ⟨m, hm, hmv, hlt⟩ := maxSerial_of_digits code t bs
      (fun x hx => h x (List.mem_cons_of_mem _ hx))
    have hsub : substringSerial b = some (serialText code t b) := by
      conv_lhs => rw [eq_prefix_append_serialText code t b hpre]
      exact substringSerial_of_serialText code t _ (fun c hc => (isDigit_facts c (hdig c hc)).2.1)
    have hcast := castInteger_digits (serialText code t b) hne hdig (by omega)
    simp only [List.map_cons, List.foldr_cons]
    cases m with
    | none =>
      refine ⟨some ((decimalValue 0 (serialText code t b) : Nat) : Int), ?_, ?_, ?_⟩
      · simp only [maxSerial, hsub, hcast, hm]
      · simp only at hmv ⊢
        omega
      · omega
    | some v =>
      refine ⟨some (if v ≤ ((decimalValue 0 (serialText code t b) : Nat) : Int)
        then ((decimalValue 0 (serialText code t b) : Nat) : Int) else v), ?_, ?_, ?_⟩
      · simp only [maxSerial, hsub, hcast, hm]
      · simp only at hmv ⊢
        split_ifs <;> omega
      · omega

/-- The serial query of `GenerateBookingNumber` for a scope code without `LIKE`
special characters, when the serial texts of the scope and day are digits: the
largest serial plus one. -/
theorem nextSerialQuery_eq (db : DB) (code : String) (t : Time)
    (hplain : ∀ c ∈ bookingPrefix code t, isLikeSpecial c = false)
    (hwf : ∀ b ∈ bookingNumbersOf db code t,
      serialText code t b ≠ [] ∧ (∀ c ∈ serialText code t b, c.isDigit = true)
      ∧ decimalValue 0 (serialText code t b) < 2147483647) :
    nextSerialQuery db (bookingPrefix code t ++ ['%'])
      = .ok (((largestSerial db code t + 1 : Nat) : Int)) := by
  have hrows : (db.appointments.map (fun a => a.BookingNumber.data)).filter
      (likeMatch (bookingPrefix code t ++ ['%'])) = bookingNumbersOf db code t := by
    unfold bookingNumbersOf
    congr 1
    funext b
    exact likeMatch_plain_pattern _ b hplain
  obtain ⟨m, hm, hmv, hlt⟩ := maxSerial_of_digits code t (bookingNumbersOf db code t)
    (fun b hb => ⟨(List.mem_filter.mp hb).2, hwf b hb⟩)
  unfold nextSerialQuery
  rw [hrows, hm]
  simp only [hmv]
  unfold largestSerial
  rw [if_pos (by omega)]
  push_cast
  rfl

/-! ## The date text -/

/-- A digit character has no special meaning in a `LIKE` pattern. -/
theorem isLikeSpecial_of_isDigit (c : Char) (h : c.isDigit = true) : isLikeSpecial c = false := by
  have hb : 48 ≤ c.toNat ∧ c.toNat ≤ 57 := by
    simp only [Char.isDigit, Bool.and_eq_true, decide_eq_true_eq] at h
    exact ⟨h.1, h.2⟩
  simp only [isLikeSpecial, Bool.or_eq_false_iff, decide_eq_false_iff_not]
  refine ⟨⟨?_, ?_⟩, ?_⟩ <;> intro e <;> rw [e] at hb <;> exact absurd hb (by decide)

/-- The characters written by `appendInt` have no special meaning in a `LIKE`
pattern. -/
theorem appendInt_not_special (x : Int) (width : Nat) :
    ∀ c ∈ appendInt x width, isLikeSpecial c = false := by
  intro c hc
  unfold appendInt at hc
  split_ifs at hc
  · rcases List.mem_cons.mp hc with rfl | hc
    · decide
    · exact isLikeSpecial_of_isDigit c ((zeroPad_spec width x.natAbs).2.1 c hc)
  · exact isLikeSpecial_of_isDigit c ((zeroPad_spec width x.natAbs).2.1 c hc)

/-- For a number from 0 to below `10 ^ width`, `appendInt` writes exactly
`width` digits. -/
theorem appendInt_digits (x : Int) (width : Nat) (hw : 1 ≤ width) (h0 : 0 ≤ x)
    (h1 : x < 10 ^ width) :
    (appendInt x width).length = width ∧ ∀ c ∈ appendInt x width, c.isDigit = true := by
  have hlt : x.natAbs < 10 ^ width := by
    have : ((x.natAbs : Nat) : Int) < ((10 ^ width : Nat) : Int) := by
      rw [Int.natAbs_of_nonneg h0]
      push_cast
      exact h1
    exact_mod_cast this
  unfold appendInt
  rw [if_neg (by omega)]
  exact ⟨(zeroPad_spec width x.natAbs).2.2.2.2 hw hlt, (zeroPad_spec width x.natAbs).2.1⟩

/-- The calendar date of a day from 0000-01-01 to 9999-12-31: the year has at
most four digits, the month is from 1 to 12 and the day from 1 to 31. -/
theorem civilFromDays_bounds (z : Int) (h0 : -719528 ≤ z) (h1 : z < 2932897) :
    0 ≤ (civilFromDays z).1 ∧ (civilFromDays z).1 ≤ 9999
    ∧ 1 ≤ (civilFromDays z).2.1 ∧ (civilFromDays z).2.1 ≤ 12
    ∧ 1 ≤ (civilFromDays z).2.2 ∧ (civilFromDays z).2.2 ≤ 31 := by
  simp only [civilFromDays]
  have hera : (z + 719468) = 146097 * ((z + 719468) / 146097) + (z + 719468) % 146097 :=
    (Int.ediv_add_emod _ _).symm
  have hdoe0 : 0 ≤ (z + 719468) % 146097 := Int.emod_nonneg _ (by decide)
  have hdoe1 : (z + 719468) % 146097 < 146097 := Int.emod_lt_of_pos _ (by decide)
  generalize (z + 719468) % 146097 = doe at *
  generalize (z + 719468) / 146097 = era at *
  have hc : 0 ≤ (if doe / 36524 < 4 then doe / 36524 else 3)
      ∧ (if doe / 36524 < 4 then doe / 36524 else 3) ≤ 3
      ∧ 0 ≤ doe - 36524 * (if doe / 36524 < 4 then doe / 36524 else 3)
      ∧ doe - 36524 * (if doe / 36524 < 4 then doe / 36524 else 3) ≤ 36524
      ∧ (146037 ≤ doe → (if doe / 36524 < 4 then doe / 36524 else 3) = 3) := by
    split_ifs <;> omega
  generalize (if doe / 36524 < 4 then doe / 36524 else 3) = c at *
  generalize hr1 : doe - 36524 * c = r1 at *
  have hq : 0 ≤ r1 / 1461 ∧ r1 / 1461 ≤ 24 ∧ 0 ≤ r1 - 1461 * (r1 / 1461)
      ∧ r1 - 1461 * (r1 / 1461) ≤ 1460 ∧ (36465 ≤ r1 → r1 / 1461 = 24) := by omega
  generalize r1 / 1461 = q at *
  generalize hr2 : r1 - 1461 * q = r2 at *
  have hyy : 0 ≤ (if r2 / 365 < 4 then r2 / 365 else 3)
      ∧ (if r2 / 365 < 4 then r2 / 365 else 3) ≤ 3
      ∧ 0 ≤ r2 - 365 * (if r2 / 365 < 4 then r2 / 365 else 3)
      ∧ r2 - 365 * (if r2 / 365 < 4 then r2 / 365 else 3) ≤ 365
      ∧ (1401 ≤ r2 → (if r2 / 365 < 4 then r2 / 365 else 3) = 3) := by
    split_ifs <;> omega
  generalize (if r2 / 365 < 4 then r2 / 365 else 3) = yy at *
  generalize hdoy : r2 - 365 * yy = doy at *
  have hmp : 0 ≤ (5 * doy + 2) / 153 ∧ (5 * doy + 2) / 153 ≤ 11
      ∧ (306 ≤ doy → 10 ≤ (5 * doy + 2) / 153) ∧ (doy < 306 → (5 * doy + 2) / 153 < 10)
      ∧ 1 ≤ doy - (153 * ((5 * doy + 2) / 153) + 2) / 5 + 1
      ∧ doy - (153 * ((5 * doy + 2) / 153) + 2) / 5 + 1 ≤ 31 := by omega
  generalize (5 * doy + 2) / 153 = mp at *
  generalize doy - (153 * mp + 2) / 5 + 1 = d at *
  have hlo : era = -1 → 306 ≤ doy := by
    intro he
    have h1 : 146037 ≤ doe := by omega
    have h2 := hc.2.2.2.2 h1
    have h3 := hq.2.2.2.2 (by omega)
    have h4 := hyy.2.2.2.2 (by omega)
    omega
  have hhi : era = 24 → 100 * c + 4 * q + yy = 399 → doy < 306 := by
    intro he hy
    omega
  have hera2 : -1 ≤ era ∧ era ≤ 24 := by omega
  split_ifs <;> omega

/-- The date text of an instant has no character with a special meaning in a
`LIKE` pattern; for an instant of the years 0000 to 9999 it is eight digits. -/
theorem format20060102_spec (t : Time) :
    (∀ c ∈ format20060102 t, isLikeSpecial c = false)
    ∧ (-62167219200000000000 ≤ t → t < 253402300800000000000 →
        (format20060102 t).length = 8 ∧ ∀ c ∈ format20060102 t, c.isDigit = true) := by
  unfold format20060102 civilDate
  refine ⟨?_, ?_⟩
  · intro c hc
    simp only [List.mem_append] at hc
    rcases hc with (hc | hc) | hc <;> exact appendInt_not_special _ _ c hc
  · intro h0 h1
    have hz0 : -719528 ≤ t / Day := by unfold Day; unfold Time at *; omega
    have hz1 : t / Day < 2932897 := by unfold Day; unfold Time at *; omega
    obtain ⟨hy0, hy1, hm0, hm1, hd0, hd1⟩ := civilFromDays_bounds (t / Day) hz0 hz1
    have hy := appendInt_digits (civilFromDays (t / Day)).1 4 (by decide) hy0 (by omega)
    have hm := appendInt_digits (civilFromDays (t / Day)).2.1 2 (by decide) (by omega) (by omega)
    have hd := appendInt_digits (civilFromDays (t / Day)).2.2 2 (by decide) (by omega) (by omega)
    refine ⟨?_, ?_⟩
    · simp only [List.length_append, hy.1, hm.1, hd.1]
    · intro c hc
      simp only [List.mem_append] at hc
      rcases hc with (hc | hc) | hc
      · exact hy.2 c hc
      · exact hm.2 c hc
      · exact hd.2 c hc

/-! ## Booking numbers: the format -/

/-- C4, counterexample: the doctor `D1` has a booking number with serial 9999
for 2024-01-10; the next booking number is `D1-20240110-10000`, whose serial
has five digits, not four. -/
theorem GenerateBookingNumber_five_digit_serial :
    Sample.storeSerial9999.appointments.map (fun a => a.BookingNumber) = ["D1-20240110-9999"]
    ∧ GenerateBookingNumber Sample.storeSerial9999 false false (some "D1")
        (Sample.nineOClockPlus 12) = .ok "D1-20240110-10000" := by
  decide

/-- C4, amended: let the clinic lookup succeed, let `scope` be the scope code
(without `%`, `_` or backslash) and let every stored booking number that
begins with `SCOPE-YYYYMMDD-` continue with a non-empty text of digits whose
value is below 2147483647. Then `GenerateBookingNumber` returns
`SCOPE-YYYYMMDD-NNNN`, where `NNNN` is the decimal text of `serial`, the
largest such existing serial plus one, left-padded with zeros to at least four
digits: it consists of digits, denotes `serial`, has exactly four digits when
`serial` is below 10000, and is `0001` when no booking number of the scope and
day exists; `YYYYMMDD` is the date text of the appointment time, eight digits
for the years 0000 to 9999. -/
theorem GenerateBookingNumber_format (db : DB) (doctorCode : Option String)
    (appointmentTime : Time) (clinicCode scope : String) (serial : Nat)
    (hclinic : clinicCodeQuery db doctorCode = .ok clinicCode)
    (hscope : scopeCode doctorCode clinicCode = scope)
    (hcode : ∀ c ∈ scope.data, isLikeSpecial c = false)
    (hwf : ∀ b ∈ bookingNumbersOf db scope appointmentTime,
      serialText scope appointmentTime b ≠ []
      ∧ (∀ c ∈ serialText scope appointmentTime b, c.isDigit = true)
      ∧ decimalValue 0 (serialText scope appointmentTime b) < 2147483647)
    (hserial : largestSerial db scope appointmentTime + 1 = serial) :
    GenerateBookingNumber db false false doctorCode appointmentTime
        = .ok (String.mk (scope.data ++ '-' :: format20060102 appointmentTime
            ++ '-' :: zeroPad 4 serial))
    ∧ (∀ c ∈ zeroPad 4 serial, c.isDigit = true)
    ∧ decimalValue 0 (zeroPad 4 serial) = serial
    ∧ 4 ≤ (zeroPad 4 serial).length
    ∧ (serial < 10000 → (zeroPad 4 serial).length = 4)
    ∧ (bookingNumbersOf db scope appointmentTime = [] → zeroPad 4 serial = ['0', '0', '0', '1'])
    ∧ (-62167219200000000000 ≤ appointmentTime → appointmentTime < 253402300800000000000 →
        (format20060102 appointmentTime).length = 8
        ∧ ∀ c ∈ format20060102 appointmentTime, c.isDigit = true) := by
  obtain ⟨hval, hdig, _, hlen4, hlen⟩ := zeroPad_spec 4 serial
  refine ⟨?_, hdig, hval, hlen4, fun h => hlen (by decide) (by simpa using h), ?_,
    (format20060102_spec appointmentTime).2⟩
  · have hplain : ∀ c ∈ bookingPrefix scope appointmentTime, isLikeSpecial c = false := by
      intro c hc
      simp only [bookingPrefix, List.mem_append, List.mem_cons, List.mem_singleton,
        List.not_mem_nil, or_false] at hc
      rcases hc with (hc | rfl | hc) | rfl
      · exact hcode c hc
      · decide
      · exact (format20060102_spec appointmentTime).1 c hc
      · decide
    have hq := nextSerialQuery_eq db scope appointmentTime hplain hwf
    have hpat : scope.data ++ '-' :: format20060102 appointmentTime ++ ['-', '%']
        = bookingPrefix scope appointmentTime ++ ['%'] := by
      simp [bookingPrefix]
    have hfmt : sprintf04d ((serial : Nat) : Int) = zeroPad 4 serial := by
      unfold sprintf04d
      rw [if_neg (by omega)]
      rfl
    simp only [GenerateBookingNumber, hclinic, hscope, Bool.false_eq_true, if_false, hpat, hq,
      hserial, hfmt]
  · intro hnone
    have h1 : serial = 1 := by
      rw [← hserial]
      simp [largestSerial, hnone]
    subst h1
    decide

/-- C4, witness: the doctor `D1` has the booking number `D1-20240110-0001`;
the next one for 2024-01-10 is `D1-20240110-0002`. -/
theorem GenerateBookingNumber_format_witness :
    GenerateBookingNumber Sample.storeNineOClock false false (some "D1")
      (Sample.nineOClockPlus 12) = .ok "D1-20240110-0002" :=
  (GenerateBookingNumber_format Sample.storeNineOClock (some "D1") (Sample.nineOClockPlus 12)
    "CL" "D1" 2 (by decide) (by decide) (by decide) (by decide) (by decide)).1.trans (by decide)

/-! ## Time slots: the booked flag, termination, the effect of a booking -/

/-- The loop of `GenerateTimeSlots` appends, for the start instants of
`slotStarts`, the slots of `slotAt`. -/
theorem GenerateTimeSlotsLoop_eq (db : DB) (queryFails : Time → Bool) (doctorID : String)
    (endDateTime : Time) (d : Int) :
    ∀ (fuel : Nat) (current : Time) (slots : List TimeSlot),
      GenerateTimeSlotsLoop db queryFails doctorID endDateTime d fuel current slots
        = (slotStarts endDateTime d fuel current).map (fun starts =>
            slots ++ starts.map (slotAt db queryFails doctorID d)) := by
  intro fuel
  induction fuel with
  | zero =>
    intro current slots
    by_cases h : current < endDateTime <;> simp [GenerateTimeSlotsLoop, slotStarts, h]
  | succ n ih =>
    intro current slots
    by_cases h : current < endDateTime
    · simp only [GenerateTimeSlotsLoop, slotStarts, h, if_true, ih, Option.map_map]
      congr 1
      funext starts
      simp [slotAt]
    · simp [GenerateTimeSlotsLoop, slotStarts, h]

/-- The slots of `GenerateTimeSlots` are the slots of `slotAt` at the start
instants of `slotStarts`. -/
theorem GenerateTimeSlots_eq (db : DB) (queryFails : Time → Bool) (fuel : Nat)
    (targetDate startTime endTime : Time) (d : Int) (doctorID : String) :
    GenerateTimeSlots db queryFails fuel targetDate startTime endTime d doctorID
      = (slotStarts (combineDateTime targetDate endTime) d fuel
          (combineDateTime targetDate startTime)).map (fun starts =>
            starts.map (slotAt db queryFails doctorID d)) := by
  unfold GenerateTimeSlots
  rw [GenerateTimeSlotsLoop_eq]
  simp

/-- The lookup of the slot loop finds an appointment exactly when the store
holds an active appointment of the doctor at that instant. -/
theorem bookedAppointmentAt_isSome (db : DB) (doctorID : String) (t : Time) :
    (bookedAppointmentAt db doctorID t).isSome = true
      ↔ ∃ a ∈ db.appointments, a.DoctorID = doctorID ∧ a.isActive ∧ a.AppointmentTime = t := by
  unfold bookedAppointmentAt
  rw [Option.isSome_map', List.find?_isSome]
  constructor
  · rintro ⟨a, ha, hp⟩
    simp only [Bool.and_eq_true, beq_iff_eq, statusNotCancelledOrNoShow, Bool.not_eq_true',
      Bool.or_eq_false_iff, beq_eq_false_iff_ne, ne_eq] at hp
    exact ⟨a, ha, hp.1.1, ⟨hp.2.1, hp.2.2⟩, hp.1.2⟩
  · rintro ⟨a, ha, hd, hact, ht⟩
    refine ⟨a, ha, ?_⟩
    simp only [Bool.and_eq_true, beq_iff_eq, statusNotCancelledOrNoShow, Bool.not_eq_true',
      Bool.or_eq_false_iff, beq_eq_false_iff_ne, ne_eq]
    exact ⟨⟨hd, ht⟩, hact.1, hact.2⟩

/-- C11, counterexample: in the store whose doctor has an active appointment
at 09:00, slot generation with failing lookups returns the slot of 09:00 with
`IsBooked` false: the loop reads a failed lookup as "no appointment". -/
theorem GenerateTimeSlots_failed_lookup_unbooked :
    GenerateTimeSlots Sample.storeNineOClock (fun _ => true) 3 Sample.jan10 (9 * Hour)
        (9 * Hour + 30 * Minute) 12 Sample.doctorID
      = some [{ StartTime := Sample.nineOClockPlus 0, EndTime := Sample.nineOClockPlus 12,
                IsAvailable := true, IsBooked := false, AppointmentID := none },
              Sample.freeSlot,
              { StartTime := Sample.nineOClockPlus 24, EndTime := Sample.nineOClockPlus 36,
                IsAvailable := true, IsBooked := false, AppointmentID := none }]
    ∧ ∃ a ∈ Sample.storeNineOClock.appointments, a.DoctorID = Sample.doctorID ∧ a.isActive
        ∧ a.AppointmentTime = Sample.nineOClockPlus 0 :=
  ⟨by decide, by decide⟩

/-- C11, amended: every slot returned by `GenerateTimeSlots` has `IsBooked`
true exactly when the lookup for the slot succeeded and the store holds an
appointment of the doctor whose status is neither `cancelled` nor `no_show`
and whose appointment time equals the start of the slot; a slot whose lookup
failed is returned with `IsBooked` false. -/
theorem GenerateTimeSlots_isBooked_iff (db : DB) (queryFails : Time → Bool) (fuel : Nat)
    (targetDate startTime endTime : Time) (slotDuration : Int) (doctorID : String)
    (slots : List TimeSlot)
    (h : GenerateTimeSlots db queryFails fuel targetDate startTime endTime slotDuration
      doctorID = some slots) :
    ∀ slot ∈ slots,
      (slot.IsBooked = true
        ↔ queryFails slot.StartTime = false
          ∧ ∃ a ∈ db.appointments, a.DoctorID = doctorID ∧ a.isActive
              ∧ a.AppointmentTime = slot.StartTime)
      ∧ (queryFails slot.StartTime = true → slot.IsBooked = false) := by
  rw [GenerateTimeSlots_eq] at h
  obtain ⟨starts, _, rfl⟩ := Option.map_eq_some'.mp h
  intro slot hs
  obtain ⟨t, _, rfl⟩ := List.mem_map.mp hs
  simp only [slotAt]
  cases hq : queryFails t with
  | true => simp
  | false =>
    simp only [Bool.false_eq_true, if_false, true_and]
    exact ⟨bookedAppointmentAt_isSome db doctorID t, fun hc => absurd hc (by decide)⟩

/-- C11, witness: the window 09:00 to 09:30 with 12-minute slots in the store
whose doctor has an appointment at 09:00, the lookup failing for the slot of
09:24 only: the slot of 09:00 is booked, its lookup succeeded and an active
appointment of the doctor starts at 09:00; the slot of 09:12 is not booked. -/
theorem GenerateTimeSlots_isBooked_iff_witness :
    (Sample.bookedSlot.IsBooked = true
        ↔ decide (Sample.bookedSlot.StartTime = Sample.nineOClockPlus 24) = false
          ∧ ∃ a ∈ Sample.storeNineOClock.appointments, a.DoctorID = Sample.doctorID ∧ a.isActive
              ∧ a.AppointmentTime = Sample.bookedSlot.StartTime)
      ∧ (Sample.freeSlot.IsBooked = true
        ↔ decide (Sample.freeSlot.StartTime = Sample.nineOClockPlus 24) = false
          ∧ ∃ a ∈ Sample.storeNineOClock.appointments, a.DoctorID = Sample.doctorID ∧ a.isActive
              ∧ a.AppointmentTime = Sample.freeSlot.StartTime) :=
  have h := GenerateTimeSlots_isBooked_iff Sample.storeNineOClock
    (fun t => decide (t = Sample.nineOClockPlus 24)) 3 Sample.jan10 (9 * Hour)
    (9 * Hour + 30 * Minute) 12 Sample.doctorID
    [Sample.bookedSlot, Sample.freeSlot,
     { StartTime := Sample.nineOClockPlus 24, EndTime := Sample.nineOClockPlus 36,
       IsAvailable := true, IsBooked := false, AppointmentID := none }]
    (by decide)
  ⟨(h Sample.bookedSlot (by decide)).1, (h Sample.freeSlot (by decide)).1⟩

/-- With a slot duration that is zero or negative after the conversion to
nanoseconds, the loop never leaves a window it has entered. -/
theorem slotStarts_none (endDateTime : Time) (d : Int) (hd : minutesDuration d ≤ 0) :
    ∀ (fuel : Nat) (current : Time), current < endDateTime →
      slotStarts endDateTime d fuel current = none := by
  intro fuel
  induction fuel with
  | zero => intro current h; simp [slotStarts, h]
  | succ n ih =>
    intro current h
    have h2 : current + minutesDuration d < endDateTime := by unfold Time at *; omega
    simp [slotStarts, h, ih _ h2]

/-- With a slot duration that is positive after the conversion to
nanoseconds, the loop ends within as many iterations as the window has
nanoseconds, and the start instants increase strictly from `current` on. -/
theorem slotStarts_some (endDateTime : Time) (d : Int) (hd : 0 < minutesDuration d) :
    ∀ (fuel : Nat) (current : Time),
      ((endDateTime - current).toNat ≤ fuel →
        ∃ starts, slotStarts endDateTime d fuel current = some starts)
      ∧ (∀ starts, slotStarts endDateTime d fuel current = some starts →
          starts.Pairwise (fun a b => a < b) ∧ ∀ t ∈ starts, current ≤ t) := by
  intro fuel
  induction fuel with
  | zero =>
    intro current
    refine ⟨fun hf => ?_, fun starts hs => ?_⟩
    · have hge : ¬ current < endDateTime := by unfold Time at *; omega
      exact ⟨[], by simp [slotStarts, hge]⟩
    · by_cases h : current < endDateTime
      · simp [slotStarts, h] at hs
      · simp only [slotStarts, h, if_false, Option.some.injEq] at hs
        subst hs
        simp
  | succ n ih =>
    intro current
    by_cases h : current < endDateTime
    · obtain ⟨ih1, ih2⟩ := ih (current + minutesDuration d)
      refine ⟨fun hf => ?_, fun starts hs => ?_⟩
      · obtain ⟨rest, hrest⟩ := ih1 (by unfold Time at *; omega)
        exact ⟨current :: rest, by simp [slotStarts, h, hrest]⟩
      · simp only [slotStarts, h, if_true, Option.map_eq_some'] at hs
        obtain ⟨rest, hrest, rfl⟩ := hs
        obtain ⟨hp, hle⟩ := ih2 rest hrest
        refine ⟨List.pairwise_cons.mpr ⟨fun t ht => ?_, hp⟩, fun t ht => ?_⟩
        · have := hle t ht
          unfold Time at *
          omega
        · rcases List.mem_cons.mp ht with rfl | ht
          · exact le_refl _
          · have := hle t ht
            unfold Time at *
            omega
    · refine ⟨fun _ => ⟨[], by simp [slotStarts, h]⟩, fun starts hs => ?_⟩
      simp only [slotStarts, h, if_false, Option.some.injEq] at hs
      subst hs
      simp

/-- C13, counterexample: for the window 09:00 to 09:30 on 2024-01-10,
`GenerateTimeSlots` returns after no number of loop iterations when the slot
duration is 0, and likewise when it is -12. -/
theorem GenerateTimeSlots_never_returns_for_zero_duration :
    (¬ ∃ fuel slots, GenerateTimeSlots (Sample.store []) (fun _ => false) fuel Sample.jan10
        (9 * Hour) (9 * Hour + 30 * Minute) 0 Sample.doctorID = some slots)
    ∧ (¬ ∃ fuel slots, GenerateTimeSlots (Sample.store []) (fun _ => false) fuel Sample.jan10
        (9 * Hour) (9 * Hour + 30 * Minute) (-12) Sample.doctorID = some slots) := by
  constructor <;>
  · rintro ⟨fuel, slots, h⟩
    rw [GenerateTimeSlots_eq, slotStarts_none _ _ (by decide) fuel _ (by decide)] at h
    simp at h

/-- C13, amended: `GenerateTimeSlots` returns (for some number of loop
iterations) exactly when the window is empty or the slot duration, converted
to nanoseconds in `int64`, is positive; so it returns a finite list for every
window and every positive slot duration of at most 153722867 minutes, and for
a zero or negative slot duration it returns only for an empty window. -/
theorem GenerateTimeSlots_returns_iff (db : DB) (queryFails : Time → Bool)
    (targetDate startTime endTime : Time) (slotDuration : Int) (doctorID : String) :
    ((∃ fuel slots, GenerateTimeSlots db queryFails fuel targetDate startTime endTime
        slotDuration doctorID = some slots)
      ↔ (combineDateTime targetDate endTime ≤ combineDateTime targetDate startTime
          ∨ 0 < minutesDuration slotDuration))
    ∧ (0 < slotDuration → slotDuration ≤ 153722867 →
        ∃ fuel slots, GenerateTimeSlots db queryFails fuel targetDate startTime endTime
          slotDuration doctorID = some slots)
    ∧ (slotDuration ≤ 0 → minInt64 ≤ slotDuration * Minute →
        ((∃ fuel slots, GenerateTimeSlots db queryFails fuel targetDate startTime endTime
            slotDuration doctorID = some slots)
          ↔ combineDateTime targetDate endTime ≤ combineDateTime targetDate startTime)) := by
  have key : (∃ fuel slots, GenerateTimeSlots db queryFails fuel targetDate startTime endTime
        slotDuration doctorID = some slots)
      ↔ (combineDateTime targetDate endTime ≤ combineDateTime targetDate startTime
          ∨ 0 < minutesDuration slotDuration) := by
    constructor
    · rintro ⟨fuel, slots, h⟩
      by_contra hcon
      simp only [not_or, not_le, not_lt] at hcon
      rw [GenerateTimeSlots_eq, slotStarts_none _ _ hcon.2 fuel _ hcon.1] at h
      simp at h
    · rintro (hempty | hpos)
      · refine ⟨0, [], ?_⟩
        rw [GenerateTimeSlots_eq]
        simp [slotStarts, not_lt.mpr hempty]
      · obtain ⟨starts, hs⟩ := (slotStarts_some _ slotDuration hpos
          (combineDateTime targetDate endTime - combineDateTime targetDate startTime).toNat
          (combineDateTime targetDate startTime)).1 (le_refl _)
        exact ⟨_, _, by rw [GenerateTimeSlots_eq, hs]; rfl⟩
  refine ⟨key, fun h0 h1 => ?_, fun h0 h1 => ?_⟩
  · rw [key]
    right
    rw [minutesDuration_eq slotDuration (le_of_lt h0) h1]
    unfold Minute
    omega
  · rw [key]
    have hneg : ¬ 0 < minutesDuration slotDuration := by
      unfold minInt64 Minute at h1
      unfold minutesDuration wrapInt64 Minute
      rw [Int.emod_eq_of_lt (by omega) (by omega)]
      omega
    simp [hneg]

/-- C13, witness: the window 09:00 to 09:30 with 12-minute slots. -/
theorem GenerateTimeSlots_returns_iff_witness :
    ∃ fuel slots, GenerateTimeSlots (Sample.store []) (fun _ => false) fuel Sample.jan10
      (9 * Hour) (9 * Hour + 30 * Minute) 12 Sample.doctorID = some slots :=
  (GenerateTimeSlots_returns_iff (Sample.store []) (fun _ => false) Sample.jan10
    (9 * Hour) (9 * Hour + 30 * Minute) 12 Sample.doctorID).2.1 (by decide) (by decide)

/-- Adding an appointment leaves the lookup of the slot loop at every other
instant as it was. -/
theorem bookedAppointmentAt_append_ne (db : DB) (a : Appointment) (doctorID : String) (t : Time)
    (h : a.AppointmentTime ≠ t) :
    bookedAppointmentAt { db with appointments := db.appointments ++ [a] } doctorID t
      = bookedAppointmentAt db doctorID t := by
  unfold bookedAppointmentAt
  have hf : (a.DoctorID == doctorID && a.AppointmentTime == t
      && statusNotCancelledOrNoShow a.Status) = false := by
    have : (a.AppointmentTime == t) = false := by simpa using h
    simp [this]
  simp only [List.find?_append, List.find?, hf, Option.or_none]

/-- The slots of one schedule row after an active appointment of the doctor is
added at the start of the slot with index `k`, the lookups failing as
`before` tells in the first run and as `after` tells in the second: the slot
with index `k` is booked exactly when its lookup succeeds, and a slot with
another index is as before when its lookup fails in both runs or in neither. -/
theorem slots_after_booking (db : DB) (before after : Time → Bool) (doctorID : String)
    (d : Int) (a : Appointment)
    (starts : List Time) (hnodup : starts.Nodup) (k : Nat)
    (hdoc : a.DoctorID = doctorID) (hact : a.isActive)
    (hk : starts[k]? = some a.AppointmentTime) :
    (∃ slot, (starts.map (slotAt { db with appointments := db.appointments ++ [a] }
          after doctorID d))[k]? = some slot
        ∧ slot.StartTime = a.AppointmentTime
        ∧ slot.EndTime = a.AppointmentTime + minutesDuration d
        ∧ slot.IsBooked = !after a.AppointmentTime)
    ∧ ∀ i s, i ≠ k → (starts.map (slotAt db before doctorID d))[i]? = some s →
        ∃ s2, (starts.map (slotAt { db with appointments := db.appointments ++ [a] }
            after doctorID d))[i]? = some s2
          ∧ s2.StartTime = s.StartTime ∧ s2.EndTime = s.EndTime
          ∧ (after s.StartTime = before s.StartTime → s2 = s) := by
  refine ⟨?_, ?_⟩
  · refine ⟨_, by rw [List.getElem?_map, hk]; rfl, rfl, rfl, ?_⟩
    simp only [slotAt]
    cases hq : after a.AppointmentTime with
    | true => simp
    | false =>
      simp only [Bool.false_eq_true, if_false, Bool.not_false]
      rw [bookedAppointmentAt_isSome]
      exact ⟨a, by simp, hdoc, hact, rfl⟩
  · intro i s hi hs
    rw [List.getElem?_map] at hs ⊢
    cases hti : starts[i]? with
    | none => rw [hti] at hs; cases hs
    | some t =>
      rw [hti] at hs
      simp only [Option.map_some', Option.some.injEq] at hs
      subst hs
      have hne : a.AppointmentTime ≠ t := by
        intro e
        have hlt : i < starts.length := by
          by_contra hcon
          rw [List.getElem?_eq_none (by omega)] at hti
          cases hti
        exact hi (List.getElem?_inj hlt hnodup (by rw [hti, hk, e]))
      refine ⟨_, rfl, rfl, rfl, ?_⟩
      intro hsame
      simp only [slotAt] at hsame ⊢
      simp only [hsame, bookedAppointmentAt_append_ne db a doctorID t hne]

/-- When `GenerateTimeSlots` returns, the start instants of its slots are
pairwise different. -/
theorem slotStarts_nodup (endDateTime : Time) (d : Int) (fuel : Nat) (current : Time)
    (starts : List Time) (h : slotStarts endDateTime d fuel current = some starts) :
    starts.Nodup := by
  by_cases hstep : 0 < minutesDuration d
  · exact ((slotStarts_some endDateTime d hstep fuel current).2 starts h).1.imp
      (fun hab => ne_of_lt hab)
  · by_cases hwin : current < endDateTime
    · rw [slotStarts_none endDateTime d (not_lt.mp hstep) fuel current hwin] at h
      cases h
    · cases fuel <;> simp [slotStarts, hwin] at h <;> subst h <;> exact List.nodup_nil

/-- The slots collected for the schedule rows of a doctor who has a single
schedule row, before and after an active appointment of the doctor is added at
the start of the slot with index `k`. -/
theorem collectTimeSlots_after_booking (db : DB) (before after : Time → Bool) (fuel : Nat)
    (targetDate : Time)
    (doctorID : String) (rows : List DoctorScheduleRow) (hrows : rows.length ≤ 1)
    (slots : List TimeSlot) (a : Appointment) (k : Nat) (slot : TimeSlot)
    (hslots : collectTimeSlots db before fuel targetDate doctorID rows = some slots)
    (hk : slots[k]? = some slot)
    (hdoc : a.DoctorID = doctorID) (hact : a.isActive)
    (htime : a.AppointmentTime = slot.StartTime) :
    ∃ slots2, collectTimeSlots { db with appointments := db.appointments ++ [a] }
        after fuel targetDate doctorID rows = some slots2
      ∧ slots2.length = slots.length
      ∧ (∃ slot2, slots2[k]? = some slot2 ∧ slot2.StartTime = slot.StartTime
          ∧ slot2.EndTime = slot.EndTime ∧ slot2.IsBooked = !after slot.StartTime)
      ∧ ∀ i s, i ≠ k → slots[i]? = some s →
          ∃ s2, slots2[i]? = some s2 ∧ s2.StartTime = s.StartTime ∧ s2.EndTime = s.EndTime
            ∧ (after s.StartTime = before s.StartTime → s2 = s) := by
  match rows, hrows with
  | [], _ =>
    simp only [collectTimeSlots, Option.some.injEq] at hslots
    subst hslots
    simp at hk
  | [row], _ =>
    simp only [collectTimeSlots] at hslots ⊢
    cases hs : parseClock row.StartTime with
    | none =>
      simp only [hs, Option.some.injEq] at hslots
      subst hslots
      simp at hk
    | some startTime =>
      cases he : parseClock row.EndTime with
      | none =>
        simp only [hs, he, Option.some.injEq] at hslots
        subst hslots
        simp at hk
      | some endTime =>
        simp only [hs, he, GenerateTimeSlots_eq] at hslots ⊢
        cases hst : slotStarts (combineDateTime targetDate endTime) row.SlotDurationMinutes fuel
            (combineDateTime targetDate startTime) with
        | none => simp [hst] at hslots
        | some starts =>
          simp only [hst, Option.map_some', List.append_nil, Option.some.injEq] at hslots ⊢
          subst hslots
          have hnodup := slotStarts_nodup _ _ _ _ _ hst
          have hk2 : starts[k]? = some a.AppointmentTime := by
            rw [List.getElem?_map] at hk
            cases hsk : starts[k]? with
            | none => simp [hsk] at hk
            | some t =>
              simp only [hsk, Option.map_some', Option.some.injEq] at hk
              rw [htime, ← hk]
              rfl
          obtain ⟨⟨slot2, h1, h2, h3, h4⟩, hrest⟩ :=
            slots_after_booking db before after doctorID row.SlotDurationMinutes a starts hnodup
              k hdoc hact hk2
          have hslot : slot = slotAt db before doctorID row.SlotDurationMinutes
              a.AppointmentTime := by
            rw [List.getElem?_map, hk2] at hk
            simpa using hk.symm
          refine ⟨_, rfl, by simp, ⟨slot2, h1, ?_, ?_, ?_⟩, hrest⟩
          · rw [h2, htime]
          · rw [h3, hslot]
            rfl
          · rw [h4, htime]

/-- C12, counterexample: the sample schedule on 2024-01-10 yields three free
slots; an active appointment of the doctor is added at 09:12, the start of the
slot with index 1; when the lookup for 09:12 fails in the next slot
generation, the list returned is the old one, the slot with index 1 not
booked; and when the schedule query fails, no list is returned at all. -/
theorem GetAvailableTimeSlots_after_booking_failed_lookup :
    GetAvailableTimeSlots Sample.storeWithSchedule false (fun _ => false) 3 Sample.doctorID
        "2024-01-10" = some (.ok Sample.freeSlots)
    ∧ Sample.freeSlots[1]? = some Sample.freeSlot
    ∧ Sample.freeSlot.StartTime = Sample.nineOClockPlus 12
    ∧ Sample.freeSlot.IsBooked = false
    ∧ GetAvailableTimeSlots
        { Sample.storeWithSchedule with
          appointments := Sample.storeWithSchedule.appointments
            ++ [Sample.appointment "00000000-0000-0000-0000-0000000000f1"
                  (Sample.nineOClockPlus 12) 12 "D1-20240110-0001"] }
        false (fun t => decide (t = Sample.nineOClockPlus 12)) 3 Sample.doctorID "2024-01-10"
        = some (.ok Sample.freeSlots)
    ∧ GetAvailableTimeSlots
        { Sample.storeWithSchedule with
          appointments := Sample.storeWithSchedule.appointments
            ++ [Sample.appointment "00000000-0000-0000-0000-0000000000f1"
                  (Sample.nineOClockPlus 12) 12 "D1-20240110-0001"] }
        true (fun _ => false) 3 Sample.doctorID "2024-01-10"
        = some (.serverError "Database error") := by
  refine ⟨?_, ?_, ?_, ?_, ?_, ?_⟩ <;> decide

/-- C12, amended: let the doctor have a single schedule row and let slot
generation return the list `slots`, its lookups failing as `before` tells
(its schedule query has then succeeded, and a list with a slot of index `k` is
only returned for the positive slot duration of the claim). An active
appointment of the doctor is added that
starts exactly at the start of the slot with index `k`, and slot generation is
run on the new store, its lookups failing as `after` tells. When the schedule
query fails, the answer is the error 500 and no list. Otherwise a list of the
same length is returned, in which the slot with index `k` has the same start
and end and is booked exactly when its lookup succeeds, and the slot with any
other index has the same start and end and is the slot of `slots` at that
index whenever its lookup fails in both runs or in neither. -/
theorem GetAvailableTimeSlots_after_booking (db : DB) (before after : Time → Bool)
    (scheduleQueryFailsBefore scheduleQueryFails : Bool) (fuel : Nat) (doctorID date : String)
    (row : DoctorScheduleRow) (slots : List TimeSlot) (a : Appointment) (k : Nat)
    (slot : TimeSlot)
    (hrow : db.doctor_schedules.filter (fun r => r.DoctorID == doctorID) = [row])
    (hslots : GetAvailableTimeSlots db scheduleQueryFailsBefore before fuel doctorID date
      = some (.ok slots))
    (hk : slots[k]? = some slot)
    (hdoc : a.DoctorID = doctorID) (hact : a.isActive)
    (htime : a.AppointmentTime = slot.StartTime) :
    (scheduleQueryFails = true →
      GetAvailableTimeSlots { db with appointments := db.appointments ++ [a] } scheduleQueryFails
        after fuel doctorID date = some (.serverError "Database error"))
    ∧ (scheduleQueryFails = false →
      ∃ slots2, GetAvailableTimeSlots { db with appointments := db.appointments ++ [a] }
          scheduleQueryFails after fuel doctorID date = some (.ok slots2)
        ∧ slots2.length = slots.length
        ∧ (∃ slot2, slots2[k]? = some slot2 ∧ slot2.StartTime = slot.StartTime
            ∧ slot2.EndTime = slot.EndTime ∧ slot2.IsBooked = !after slot.StartTime)
        ∧ ∀ i s, i ≠ k → slots[i]? = some s →
            ∃ s2, slots2[i]? = some s2 ∧ s2.StartTime = s.StartTime ∧ s2.EndTime = s.EndTime
              ∧ (after s.StartTime = before s.StartTime → s2 = s)) := by
  have hlen : ∀ dow, (scheduleRows db doctorID dow).length ≤ 1 := by
    intro dow
    have : scheduleRows db doctorID dow
        = (db.doctor_schedules.filter (fun r => r.DoctorID == doctorID)).filter
            (fun r => r.DayOfWeek == dow && r.IsActive) := by
      unfold scheduleRows
      rw [List.filter_filter]
      congr 1
      funext r
      cases r.DoctorID == doctorID <;> cases r.DayOfWeek == dow <;> cases r.IsActive <;> rfl
    rw [this, hrow]
    exact le_trans (List.length_filter_le _ _) (le_refl _)
  unfold GetAvailableTimeSlots at hslots ⊢
  by_cases h1 : doctorID = "" ∨ date = ""
  · simp [h1] at hslots
  · rw [if_neg h1] at hslots ⊢
    cases hp : parseDate date with
    | none => simp [hp] at hslots
    | some targetDate =>
      cases scheduleQueryFailsBefore with
      | true => simp [hp] at hslots
      | false =>
      simp only [hp, Bool.false_eq_true, if_false] at hslots ⊢
      constructor
      · intro hq
        rw [hq]
        rfl
      · intro hq
        rw [hq]
        simp only [Bool.false_eq_true, if_false]
        cases hc : collectTimeSlots db before fuel targetDate doctorID
            (scheduleRows db doctorID (scheduleDayOfWeek targetDate)) with
        | none => simp [hc] at hslots
        | some found =>
          simp only [hc, Option.some.injEq, SlotsResponse.ok.injEq] at hslots
          subst hslots
          obtain ⟨slots2, h2, hrest⟩ := collectTimeSlots_after_booking db before after fuel
            targetDate doctorID _ (hlen (scheduleDayOfWeek targetDate)) found a k slot hc hk hdoc
            hact htime
          refine ⟨slots2, ?_, hrest⟩
          have hsame : scheduleRows { db with appointments := db.appointments ++ [a] } doctorID
              (scheduleDayOfWeek targetDate)
                = scheduleRows db doctorID (scheduleDayOfWeek targetDate) := rfl
          rw [hsame, h2]

/-- C12, witness: the sample schedule on 2024-01-10 yields three free slots;
after an appointment of the doctor at 09:12 is added, with all lookups
succeeding, the slot with index 1 is booked and the slots with index 0 and 2
are as before. -/
theorem GetAvailableTimeSlots_after_booking_witness :
    ∃ slots2, GetAvailableTimeSlots
        { Sample.storeWithSchedule with
          appointments := Sample.storeWithSchedule.appointments
            ++ [Sample.appointment "00000000-0000-0000-0000-0000000000f1"
                  (Sample.nineOClockPlus 12) 12 "D1-20240110-0001"] }
        false (fun _ => false) 3 Sample.doctorID "2024-01-10" = some (.ok slots2)
      ∧ slots2.length = Sample.freeSlots.length
      ∧ (∃ slot2, slots2[1]? = some slot2
          ∧ slot2.StartTime = Sample.nineOClockPlus 12
          ∧ slot2.EndTime = Sample.nineOClockPlus 24 ∧ slot2.IsBooked = true)
      ∧ ∀ i s, i ≠ 1 → Sample.freeSlots[i]? = some s →
          ∃ s2, slots2[i]? = some s2 ∧ s2.StartTime = s.StartTime ∧ s2.EndTime = s.EndTime
            ∧ (false = false → s2 = s) :=
  (GetAvailableTimeSlots_after_booking Sample.storeWithSchedule (fun _ => false)
    (fun _ => false) false false 3 Sample.doctorID "2024-01-10"
    Sample.scheduleRow Sample.freeSlots
    (Sample.appointment "00000000-0000-0000-0000-0000000000f1" (Sample.nineOClockPlus 12) 12
      "D1-20240110-0001")
    1 { StartTime := Sample.nineOClockPlus 12, EndTime := Sample.nineOClockPlus 24,
        IsAvailable := true, IsBooked := false, AppointmentID := none }
    (by decide) (by decide) (by decide) (by decide) (by decide) (by decide)).2 rfl

/-! ## The queue of a doctor -/

/-- The order of the queue query relates any two entries one way or the
other. -/
theorem queueOrder_total (x y : QueueEntry) : queueOrder x y ∨ queueOrder y x := by
  unfold queueOrder
  rcases le_total x.CheckinTime y.CheckinTime with h | h <;>
    cases x.IsPriority <;> cases y.IsPriority <;> simp [h]

/-- The order of the queue query is transitive. -/
theorem queueOrder_trans (x y z : QueueEntry) (hxy : queueOrder x y) (hyz : queueOrder y z) :
    queueOrder x z := by
  unfold queueOrder at *
  rcases hxy with ⟨h1, h2⟩ | ⟨h1, h2⟩ <;> rcases hyz with ⟨h3, h4⟩ | ⟨h3, h4⟩
  · rw [h2] at h3; cases h3
  · left; exact ⟨h1, by rw [← h3]; exact h2⟩
  · left; exact ⟨by rw [h1]; exact h3, h4⟩
  · right; exact ⟨h1.trans h3, le_trans h2 h4⟩

/-- C14: whenever `GetDoctorQueue` answers with a queue, the queue holds
exactly the rows of the query (it is a permutation of them), every priority
entry stands before every entry without priority, entries of the same priority
stand in the order of their check-in times, and the reported count is the
number of entries. -/
theorem GetDoctorQueue_sorted (db : DB) (queryFails : Bool) (now : Time) (doctorID : String)
    (dateParam : Option String) (d date : String) (queue : List QueueEntry) (count : Nat)
    (h : GetDoctorQueue db queryFails now doctorID dateParam = .ok d date queue count) :
    queueSorted queue ∧ count = queue.length
      ∧ ∃ targetDate, parseDate date = some targetDate
          ∧ queue.Perm (queueRows db doctorID targetDate) := by
  unfold GetDoctorQueue at h
  cases queryFails with
  | true => simp at h
  | false =>
    simp only [Bool.false_eq_true, if_false] at h
    split at h
    · cases h
    · rename_i targetDate hp
      simp only [QueueResponse.ok.injEq] at h
      obtain ⟨-, hdate, hq, hc⟩ := h
      subst hq
      refine ⟨?_, hc.symm, targetDate, by rw [← hdate]; exact hp, List.perm_insertionSort _ _⟩
      have hs : (List.insertionSort queueOrder (queueRows db doctorID targetDate)).Pairwise
          queueOrder :=
        @List.sorted_insertionSort _ queueOrder _ ⟨queueOrder_total⟩ ⟨queueOrder_trans⟩ _
      refine hs.imp ?_
      intro x y hxy
      unfold queueOrder at hxy
      rcases hxy with ⟨h1, h2⟩ | ⟨h1, h2⟩
      · exact ⟨Or.inl h1, fun h3 => by rw [h1, h2] at h3; cases h3⟩
      · refine ⟨?_, fun _ => h2⟩
        cases hx : x.IsPriority
        · right; rw [← h1]; exact hx
        · left; rfl

/-- C14, witness: check-ins at 09:01 (no priority), 09:02 (priority) and 09:03
(no priority) are returned in the order 09:02, 09:01, 09:03 with count 3. -/
theorem GetDoctorQueue_sorted_witness :
    GetDoctorQueue Sample.storeQueue false Sample.jan10 Sample.doctorID none
        = .ok Sample.doctorID "2024-01-10" Sample.queue 3
      ∧ (queueSorted Sample.queue ∧ 3 = Sample.queue.length
          ∧ ∃ targetDate, parseDate "2024-01-10" = some targetDate
              ∧ Sample.queue.Perm (queueRows Sample.storeQueue Sample.doctorID targetDate)) :=
  ⟨by decide, GetDoctorQueue_sorted Sample.storeQueue false Sample.jan10 Sample.doctorID none
    Sample.doctorID "2024-01-10" Sample.queue 3 (by decide)⟩

/-! ## Status transitions -/

/-- An accepted `CancelAppointment`: with a reason, no store fault and an
existing row, the answer is 200 and the rows with the identifier get status
`cancelled`. -/
theorem CancelAppointment_accepted (db : DB) (appointmentID : String)
    (input : CancelAppointmentInput) (hreason : input.Reason ≠ "")
    (hex : db.appointments.any (fun a => a.ID == appointmentID) = true) :
    CancelAppointment db false appointmentID input
      = ({ db with appointments := db.appointments.map (fun a =>
            if a.ID = appointmentID then { a with Status := "cancelled" } else a) },
         ⟨200, "Appointment cancelled successfully"⟩) := by
  unfold CancelAppointment
  simp [hreason, hex]

/-- A `CancelAppointment` that does not answer 200 leaves the store as it
was. -/
theorem CancelAppointment_rejected (db : DB) (execFails : Bool) (appointmentID : String)
    (input : CancelAppointmentInput)
    (h : (CancelAppointment db execFails appointmentID input).2.status ≠ 200) :
    (CancelAppointment db execFails appointmentID input).1 = db := by
  unfold CancelAppointment at h ⊢
  split_ifs at h ⊢ <;> first | rfl | exact absurd rfl h

/-- The existence test of the handlers finds a row of the store. -/
theorem any_id_of_mem (db : DB) (a : Appointment) (ha : a ∈ db.appointments) :
    db.appointments.any (fun b => b.ID == a.ID) = true := by
  rw [List.any_eq_true]
  exact ⟨a, ha, by simp⟩

/-- C15, counterexample: the sample store holds one completed appointment;
`CancelAppointment` for it answers 200 and the appointment is cancelled. -/
theorem CancelAppointment_cancels_completed_appointment :
    Sample.storeCompletedVisit.appointments.map (fun a => (a.ID, a.Status))
        = [("00000000-0000-0000-0000-0000000000f1", "completed")]
      ∧ (CancelAppointment Sample.storeCompletedVisit false
          "00000000-0000-0000-0000-0000000000f1" { Reason := "patient request" }).2
        = ⟨200, "Appointment cancelled successfully"⟩
      ∧ (CancelAppointment Sample.storeCompletedVisit false
          "00000000-0000-0000-0000-0000000000f1" { Reason := "patient request" }).1.appointments.map
            (fun a => (a.ID, a.Status))
        = [("00000000-0000-0000-0000-0000000000f1", "cancelled")] := by
  decide

/-- C15, amended: `CancelAppointment` does not read the status. For a completed
appointment of the store it never answers with a conflict (409); with a reason
and no store fault it answers 200, the row becomes `cancelled` and no row with
that identifier keeps the status `completed`; without a reason (400) or on a
store fault (500) the store is unchanged. -/
theorem CancelAppointment_completed (db : DB) (execFails : Bool)
    (input : CancelAppointmentInput) (a : Appointment) (ha : a ∈ db.appointments)
    (hdone : a.Status = "completed") :
    (CancelAppointment db execFails a.ID input).2.status ≠ 409
      ∧ (input.Reason ≠ "" → execFails = false →
          (CancelAppointment db execFails a.ID input).2
              = ⟨200, "Appointment cancelled successfully"⟩
            ∧ { a with Status := "cancelled" }
                ∈ (CancelAppointment db execFails a.ID input).1.appointments
            ∧ ∀ b ∈ (CancelAppointment db execFails a.ID input).1.appointments,
                b.ID = a.ID → b.Status = "cancelled" ∧ b.Status ≠ a.Status)
      ∧ (input.Reason = "" ∨ execFails = true →
          (CancelAppointment db execFails a.ID input).1 = db
            ∧ ((CancelAppointment db execFails a.ID input).2.status = 400
                ∨ (CancelAppointment db execFails a.ID input).2.status = 500)) := by
  refine ⟨?_, ?_, ?_⟩
  · unfold CancelAppointment
    split_ifs <;> simp
  · intro hreason hexec
    subst hexec
    rw [CancelAppointment_accepted db a.ID input hreason (any_id_of_mem db a ha)]
    refine ⟨rfl, ?_, ?_⟩
    · simp only [List.mem_map]
      exact ⟨a, ha, by simp⟩
    · intro b hb hid
      simp only [List.mem_map] at hb
      obtain ⟨c, -, hc⟩ := hb
      have hbs : b.Status = "cancelled" := by
        by_cases h : c.ID = a.ID
        · rw [if_pos h] at hc
          rw [← hc]
        · rw [if_neg h] at hc
          rw [hc] at h
          exact absurd hid h
      refine ⟨hbs, ?_⟩
      rw [hbs, hdone]
      decide
  · intro h
    unfold CancelAppointment
    rcases h with h | h
    · simp [h]
    · subst h
      by_cases hr : input.Reason = ""
      · simp [hr]
      · simp [hr]

/-- C15, witness: the completed appointment of the sample store. -/
theorem CancelAppointment_completed_witness :
    (CancelAppointment Sample.storeCompletedVisit false
        "00000000-0000-0000-0000-0000000000f1" { Reason := "patient request" }).2.status ≠ 409
      ∧ (CancelAppointment Sample.storeCompletedVisit false
          "00000000-0000-0000-0000-0000000000f1" { Reason := "patient request" }).2
        = ⟨200, "Appointment cancelled successfully"⟩ :=
  have h := CancelAppointment_completed Sample.storeCompletedVisit false
    { Reason := "patient request" }
    { Sample.appointment "00000000-0000-0000-0000-0000000000f1" (Sample.nineOClockPlus 0) 12
        "D1-20240110-0001" with Status := "completed" }
    (by decide) (by decide)
  ⟨h.1, (h.2.1 (by decide) rfl).1⟩

/-- An accepted `UpdateAppointment`: the binding holds, the time text (if any)
is well-formed, a status is given, no store fault and an existing row. -/
theorem UpdateAppointment_accepted (db : DB) (appointmentID : String)
    (input : UpdateAppointmentInput) (s : String)
    (hbind : bindUpdateAppointmentInput input = true) (hs : input.Status = some s)
    (htime : ∀ text, input.AppointmentTime = some text → (parseDateTime text).isSome = true)
    (hex : db.appointments.any (fun a => a.ID == appointmentID) = true) :
    (UpdateAppointment db false appointmentID input).2 = ⟨200, "Appointment updated successfully"⟩
      ∧ ∀ b ∈ (UpdateAppointment db false appointmentID input).1.appointments,
          b.ID = appointmentID → b.Status = s := by
  have key : ∀ t : Option Time,
      (∀ b ∈ db.appointments.map (fun a =>
            if a.ID = appointmentID then applyUpdate input t a else a),
          b.ID = appointmentID → b.Status = s) := by
    intro t b hb hid
    simp only [List.mem_map] at hb
    obtain ⟨c, -, hc⟩ := hb
    by_cases h : c.ID = appointmentID
    · rw [if_pos h] at hc
      rw [← hc]
      simp [applyUpdate, hs]
    · rw [if_neg h] at hc
      rw [hc] at h
      exact absurd hid h
  unfold UpdateAppointment
  cases ht : input.AppointmentTime with
  | none =>
    simp only [hbind, hs, hex, Bool.not_true, Bool.false_eq_true, if_false, Option.isNone_some,
      Bool.and_false, Bool.false_and]
    exact ⟨trivial, key none⟩
  | some text =>
    obtain ⟨t, hp⟩ := Option.isSome_iff_exists.1 (htime text ht)
    simp only [hbind, hs, hex, hp, Option.map_some', Bool.not_true, Bool.false_eq_true, if_false,
      Option.isNone_some, Bool.and_false, Bool.false_and]
    exact ⟨trivial, key (some t)⟩

/-- An `UpdateAppointment` that does not answer 200 leaves the store as it
was. -/
theorem UpdateAppointment_rejected (db : DB) (execFails : Bool) (appointmentID : String)
    (input : UpdateAppointmentInput)
    (h : (UpdateAppointment db execFails appointmentID input).2.status ≠ 200) :
    (UpdateAppointment db execFails appointmentID input).1 = db := by
  revert h
  unfold UpdateAppointment
  cases input.AppointmentTime with
  | none =>
    intro h
    dsimp only at h ⊢
    split_ifs at h ⊢ <;> first | rfl | exact absurd rfl h
  | some text =>
    dsimp only
    cases parseDateTime text with
    | none =>
      intro h
      dsimp only [Option.map] at h ⊢
      split_ifs at h ⊢ <;> rfl
    | some t =>
      intro h
      dsimp only [Option.map] at h ⊢
      split_ifs at h ⊢ <;> first | rfl | exact absurd rfl h

/-- A `CreateCheckin` that does not create a check-in leaves the store as it
was. -/
theorem CreateCheckin_rejected (db : DB) (env : RequestEnv) (faults : CreateCheckinFaults)
    (input : CreateCheckinInput) (h : (CreateCheckin db env faults input).2.isCreated = false) :
    (CreateCheckin db env faults input).1 = db := by
  unfold CreateCheckin at h ⊢
  split_ifs at h ⊢ <;> first | rfl | simp [CheckinResponse.isCreated] at h

/-- The rows of an appointment after `markArrived` have status `arrived`. -/
theorem markArrived_status (db : DB) (appointmentID : String) :
    ∀ b ∈ (markArrived db appointmentID).appointments,
      b.ID = appointmentID → b.Status = "arrived" := by
  intro b hb hid
  simp only [markArrived, List.mem_map] at hb
  obtain ⟨c, -, hc⟩ := hb
  by_cases h : c.ID = appointmentID
  · rw [if_pos h] at hc
    rw [← hc]
  · rw [if_neg h] at hc
    rw [hc] at h
    exact absurd hid h

/-- The rows of an appointment keep their status under `markPaid`. -/
theorem markPaid_status (db : DB) (appointmentID status : String)
    (h : ∀ b ∈ db.appointments, b.ID = appointmentID → b.Status = status) :
    ∀ b ∈ (markPaid db appointmentID).appointments,
      b.ID = appointmentID → b.Status = status := by
  intro b hb hid
  simp only [markPaid, List.mem_map] at hb
  obtain ⟨c, hcm, hc⟩ := hb
  by_cases hc2 : c.ID = appointmentID
  · rw [if_pos hc2] at hc
    rw [← hc]
    exact h c hcm hc2
  · rw [if_neg hc2] at hc
    rw [hc] at hc2
    exact absurd hid hc2

/-- The appointments after a `CreateCheckin` that created a check-in while the
status statement succeeded: the rows of the appointment have status
`arrived`. -/
theorem CreateCheckin_arrived (db : DB) (env : RequestEnv) (faults : CreateCheckinFaults)
    (input : CreateCheckinInput) (h : (CreateCheckin db env faults input).2.isCreated = true)
    (hfault : faults.updateStatus = false) :
    ∀ b ∈ (CreateCheckin db env faults input).1.appointments,
      b.ID = input.AppointmentID → b.Status = "arrived" := by
  unfold CreateCheckin at h ⊢
  simp only [hfault, Bool.false_eq_true, if_false] at h ⊢
  split_ifs at h ⊢
  all_goals first
    | (exfalso; exact Bool.noConfusion h)
    | exact markPaid_status _ _ _ (markArrived_status _ _)
    | exact markArrived_status _ _

/-- C16, counterexample: on the sample stores whose single appointment is
cancelled, no-show or completed, `CancelAppointment` answers 200 and leaves
the no-show appointment cancelled, `UpdateAppointment` with status `booked`
answers 200 and leaves the cancelled appointment booked, and `CreateCheckin`
creates a check-in and leaves the completed appointment arrived. -/
theorem terminal_status_is_left :
    ((CancelAppointment (Sample.storeWithStatus "no_show") false
          "00000000-0000-0000-0000-0000000000f1" { Reason := "patient request" }).2.status = 200
      ∧ (CancelAppointment (Sample.storeWithStatus "no_show") false
          "00000000-0000-0000-0000-0000000000f1"
          { Reason := "patient request" }).1.appointments.map (fun a => a.Status)
        = ["cancelled"])
    ∧ ((UpdateAppointment (Sample.storeWithStatus "cancelled") false
          "00000000-0000-0000-0000-0000000000f1" (Sample.statusUpdate "booked")).2.status = 200
      ∧ (UpdateAppointment (Sample.storeWithStatus "cancelled") false
          "00000000-0000-0000-0000-0000000000f1"
          (Sample.statusUpdate "booked")).1.appointments.map (fun a => a.Status)
        = ["booked"])
    ∧ ((CreateCheckin (Sample.storeWithStatus "completed")
          (Sample.env "00000000-0000-0000-0000-0000000000f9") {}
          Sample.checkinRequest).2.isCreated = true
      ∧ (CreateCheckin (Sample.storeWithStatus "completed")
          (Sample.env "00000000-0000-0000-0000-0000000000f9") {}
          Sample.checkinRequest).1.appointments.map (fun a => a.Status)
        = ["arrived"]) := by
  refine ⟨⟨?_, ?_⟩, ⟨?_, ?_⟩, ⟨?_, ?_⟩⟩ <;> decide

/-- C16, amended: no handler reads the status before it writes it. For every
appointment of the store, whatever its status: `CancelAppointment` with a
reason answers 200 and sets the status `cancelled`; `UpdateAppointment` with a
valid body that carries the status `s` answers 200 and sets the status `s`;
a `CreateCheckin` that creates the check-in sets the status `arrived` (unless
the status statement fails), and it does create the check-in when the
identifiers are well-formed, the appointment has no check-in, the user is
active and no statement fails. A request that is not accepted leaves the store
as it was. -/
theorem status_is_overwritten (db : DB) (a : Appointment) (ha : a ∈ db.appointments) :
    (∀ input : CancelAppointmentInput, input.Reason ≠ "" →
        (CancelAppointment db false a.ID input).2 = ⟨200, "Appointment cancelled successfully"⟩
          ∧ ∀ b ∈ (CancelAppointment db false a.ID input).1.appointments,
              b.ID = a.ID → b.Status = "cancelled")
    ∧ (∀ (input : UpdateAppointmentInput) (s : String),
        bindUpdateAppointmentInput input = true → input.Status = some s →
        (∀ text, input.AppointmentTime = some text → (parseDateTime text).isSome = true) →
        (UpdateAppointment db false a.ID input).2 = ⟨200, "Appointment updated successfully"⟩
          ∧ ∀ b ∈ (UpdateAppointment db false a.ID input).1.appointments,
              b.ID = a.ID → b.Status = s)
    ∧ (∀ (env : RequestEnv) (faults : CreateCheckinFaults) (input : CreateCheckinInput),
        input.AppointmentID = a.ID →
        (CreateCheckin db env faults input).2.isCreated = true → faults.updateStatus = false →
        ∀ b ∈ (CreateCheckin db env faults input).1.appointments,
          b.ID = a.ID → b.Status = "arrived")
    ∧ (∀ (env : RequestEnv) (input : CreateCheckinInput),
        input.AppointmentID = a.ID → isUUID a.ID = true → isUUID input.CheckedInBy = true →
        db.patient_checkins.any (fun pc => pc.AppointmentID == a.ID) = false →
        db.users.any (fun u => u.ID == input.CheckedInBy && u.IsActive) = true →
        (CreateCheckin db env {} input).2.isCreated = true)
    ∧ (∀ (execFails : Bool) (input : CancelAppointmentInput),
        (CancelAppointment db execFails a.ID input).2.status ≠ 200 →
        (CancelAppointment db execFails a.ID input).1 = db)
    ∧ (∀ (execFails : Bool) (input : UpdateAppointmentInput),
        (UpdateAppointment db execFails a.ID input).2.status ≠ 200 →
        (UpdateAppointment db execFails a.ID input).1 = db)
    ∧ (∀ (env : RequestEnv) (faults : CreateCheckinFaults) (input : CreateCheckinInput),
        (CreateCheckin db env faults input).2.isCreated = false →
        (CreateCheckin db env faults input).1 = db) := by
  have hex := any_id_of_mem db a ha
  refine ⟨?_, ?_, ?_, ?_, ?_, ?_, ?_⟩
  · intro input hreason
    rw [CancelAppointment_accepted db a.ID input hreason hex]
    refine ⟨rfl, ?_⟩
    intro b hb hid
    simp only [List.mem_map] at hb
    obtain ⟨c, -, hc⟩ := hb
    by_cases h : c.ID = a.ID
    · rw [if_pos h] at hc
      rw [← hc]
    · rw [if_neg h] at hc
      rw [hc] at h
      exact absurd hid h
  · intro input s hbind hs htime
    exact UpdateAppointment_accepted db a.ID input s hbind hs htime hex
  · intro env faults input hid hcreated hfault
    rw [← hid]
    exact CreateCheckin_arrived db env faults input hcreated hfault
  · intro env input hid huuid huser hnone hactive
    unfold CreateCheckin
    rw [hid]
    simp [huuid, huser, hex, hnone, hactive, CheckinResponse.isCreated]
  · intro execFails input
    exact CancelAppointment_rejected db execFails a.ID input
  · intro execFails input
    exact UpdateAppointment_rejected db execFails a.ID input
  · intro env faults input
    exact CreateCheckin_rejected db env faults input

/-- C16, witness: the completed appointment of the sample store is cancelled
by `CancelAppointment` with a reason. -/
theorem status_is_overwritten_witness :
    (CancelAppointment Sample.storeCompletedVisit false "00000000-0000-0000-0000-0000000000f1"
        { Reason := "patient request" }).2 = ⟨200, "Appointment cancelled successfully"⟩
      ∧ ∀ b ∈ (CancelAppointment Sample.storeCompletedVisit false
            "00000000-0000-0000-0000-0000000000f1" { Reason := "patient request" }).1.appointments,
          b.ID = "00000000-0000-0000-0000-0000000000f1" → b.Status = "cancelled" :=
  (status_is_overwritten Sample.storeCompletedVisit
    { Sample.appointment "00000000-0000-0000-0000-0000000000f1" (Sample.nineOClockPlus 0) 12
        "D1-20240110-0001" with Status := "completed" }
    (by decide)).1 { Reason := "patient request" } (by decide)

/-! ## Check-ins -/

/-- The check-in rows after `CreateCheckin`: those of before, or those of
before followed by one row of the appointment of the request, which had no
check-in. -/
theorem CreateCheckin_checkins (db : DB) (env : RequestEnv) (faults : CreateCheckinFaults)
    (input : CreateCheckinInput) :
    (CreateCheckin db env faults input).1.patient_checkins = db.patient_checkins
      ∨ (db.patient_checkins.any (fun pc => pc.AppointmentID == input.AppointmentID) = false
          ∧ ∃ c : PatientCheckin, c.AppointmentID = input.AppointmentID
              ∧ (CreateCheckin db env faults input).1.patient_checkins
                  = db.patient_checkins ++ [c]) := by
  generalize hres : CreateCheckin db env faults input = res
  unfold CreateCheckin at hres
  split_ifs at hres with h1 h2 h3 h4 h5 h6 h7 h8
  all_goals subst hres
  · exact Or.inl rfl
  · exact Or.inl rfl
  · exact Or.inl rfl
  · exact Or.inl rfl
  · exact Or.inl rfl
  · exact Or.inl rfl
  · exact Or.inl rfl
  · right
    refine ⟨by simpa using h4, newCheckinRow env input (match input.PaymentCollected with
      | some b => b
      | none => false), rfl, ?_⟩
    dsimp only
    split_ifs <;> rfl
  · right
    refine ⟨by simpa using h4, newCheckinRow env input (match input.PaymentCollected with
      | some b => b
      | none => false), rfl, ?_⟩
    dsimp only
    split_ifs <;> rfl

/-- At most one check-in for each appointment: the appointment identifiers of
the check-in rows are pairwise different. -/
theorem atMostOneCheckin_iff (db : DB) :
    AtMostOneCheckin db ↔ (db.patient_checkins.map (fun pc => pc.AppointmentID)).Nodup := by
  have hcount : ∀ (l : List PatientCheckin) (appointmentID : String),
      (l.filter (fun pc => pc.AppointmentID == appointmentID)).length
        = (l.map (fun pc => pc.AppointmentID)).count appointmentID := by
    intro l appointmentID
    induction l with
    | nil => rfl
    | cons x xs ih =>
      simp only [List.filter_cons, List.map_cons, List.count_cons]
      by_cases h : x.AppointmentID = appointmentID
      · simp [h, ih]
      · simp [h, ih]
  unfold AtMostOneCheckin
  rw [List.nodup_iff_count_le_one]
  constructor
  · intro h appointmentID
    rw [← hcount]
    exact h appointmentID
  · intro h appointmentID
    rw [hcount]
    exact h appointmentID

/-- `CreateCheckin` keeps the store at at most one check-in for each
appointment. -/
theorem CreateCheckin_preserves (db : DB) (env : RequestEnv) (faults : CreateCheckinFaults)
    (input : CreateCheckinInput) (h : AtMostOneCheckin db) :
    AtMostOneCheckin (CreateCheckin db env faults input).1 := by
  rw [atMostOneCheckin_iff] at h ⊢
  rcases CreateCheckin_checkins db env faults input with heq | ⟨hnone, c, hc, heq⟩
  · rw [heq]
    exact h
  · rw [heq, List.map_append, List.nodup_append]
    refine ⟨h, List.nodup_singleton _, ?_⟩
    intro x hx hy
    simp only [List.map_cons, List.map_nil, List.mem_singleton] at hy
    subst hy
    simp only [List.mem_map] at hx
    obtain ⟨pc, hpc, hid⟩ := hx
    have : db.patient_checkins.any (fun pc => pc.AppointmentID == input.AppointmentID) = true := by
      rw [List.any_eq_true]
      exact ⟨pc, hpc, by simp [hid, hc]⟩
    rw [hnone] at this
    cases this

/-- C17: `CreateCheckin` for an appointment that has a check-in row already
does not create a check-in and leaves the whole store as it was (no check-in
row is added, status and payment status stay), whatever the faults of the
store; with well-formed identifiers, an existing appointment and no fault the
answer is 400 `Patient already checked in`. A store with at most one check-in
for each appointment is still such a store after one `CreateCheckin` and after
any sequence of `CreateCheckin` requests. -/
theorem CreateCheckin_at_most_one (db : DB) (env : RequestEnv) (faults : CreateCheckinFaults)
    (input : CreateCheckinInput)
    (requests : List (RequestEnv × CreateCheckinFaults × CreateCheckinInput)) :
    (db.patient_checkins.any (fun pc => pc.AppointmentID == input.AppointmentID) = true →
        (CreateCheckin db env faults input).1 = db
          ∧ (CreateCheckin db env faults input).2.isCreated = false
          ∧ (isUUID input.AppointmentID = true → isUUID input.CheckedInBy = true →
              db.appointments.any (fun a => a.ID == input.AppointmentID) = true →
              (CreateCheckin db env {} input).2 = .error 400 "Patient already checked in"))
      ∧ (AtMostOneCheckin db →
          AtMostOneCheckin (CreateCheckin db env faults input).1
            ∧ AtMostOneCheckin (runCheckins db requests)) := by
  constructor
  · intro hany
    have hrej : (CreateCheckin db env faults input).2.isCreated = false := by
      generalize hres : CreateCheckin db env faults input = res
      unfold CreateCheckin at hres
      split_ifs at hres
      all_goals subst hres
      all_goals rfl
    refine ⟨CreateCheckin_rejected db env faults input hrej, hrej, ?_⟩
    intro h1 h2 h3
    unfold CreateCheckin
    simp [h1, h2, h3, hany]
  · intro h
    refine ⟨CreateCheckin_preserves db env faults input h, ?_⟩
    clear input env faults
    induction requests generalizing db with
    | nil => exact h
    | cons r rest ih =>
      obtain ⟨env, faults, input⟩ := r
      exact ih _ (CreateCheckin_preserves db env faults input h)

/-- C17, witness: a second check-in for the checked-in appointment of the
sample store is rejected and changes nothing, and the store has at most one
check-in for each appointment after two further requests. -/
theorem CreateCheckin_at_most_one_witness :
    ((CreateCheckin Sample.storeCheckedIn (Sample.env "00000000-0000-0000-0000-0000000000f9") {}
          Sample.checkinRequest).1 = Sample.storeCheckedIn
        ∧ (CreateCheckin Sample.storeCheckedIn (Sample.env "00000000-0000-0000-0000-0000000000f9")
            {} Sample.checkinRequest).2.isCreated = false
        ∧ (isUUID Sample.checkinRequest.AppointmentID = true →
            isUUID Sample.checkinRequest.CheckedInBy = true →
            Sample.storeCheckedIn.appointments.any
              (fun a => a.ID == Sample.checkinRequest.AppointmentID) = true →
            (CreateCheckin Sample.storeCheckedIn
              (Sample.env "00000000-0000-0000-0000-0000000000f9") {} Sample.checkinRequest).2
              = .error 400 "Patient already checked in"))
      ∧ (AtMostOneCheckin (CreateCheckin Sample.storeCheckedIn
            (Sample.env "00000000-0000-0000-0000-0000000000f9") {} Sample.checkinRequest).1
          ∧ AtMostOneCheckin (runCheckins Sample.storeCheckedIn
              [(Sample.env "00000000-0000-0000-0000-0000000000f9", {}, Sample.checkinRequest),
               (Sample.env "00000000-0000-0000-0000-0000000000f8", {}, Sample.checkinRequest)])) :=
  have h := CreateCheckin_at_most_one Sample.storeCheckedIn
    (Sample.env "00000000-0000-0000-0000-0000000000f9") {} Sample.checkinRequest
    [(Sample.env "00000000-0000-0000-0000-0000000000f9", {}, Sample.checkinRequest),
     (Sample.env "00000000-0000-0000-0000-0000000000f8", {}, Sample.checkinRequest)]
  ⟨h.1 (by decide), h.2 ((atMostOneCheckin_iff _).2 (by decide))⟩

/-! ## Rescheduling -/

/-- C18: `RescheduleAppointment` passes the new time to
`CheckDoctorAvailability`, whose query counts every active appointment of the
doctor, the one being rescheduled included. So for every active appointment
of the store, a well-formed new time that lies within the current interval of
that appointment (from its start up to, not including, its end) is rejected
with 400 `Doctor is not available at the requested time`, and the store is
left as it was, also when it is the only appointment of the doctor. -/
theorem RescheduleAppointment_rejects_own_slot (db : DB) (a : Appointment)
    (input : RescheduleAppointmentInput) (t : Time)
    (hfind : db.appointments.find? (fun b => b.ID == a.ID) = some a)
    (hact : a.isActive)
    (hparse : parseDateTime input.NewAppointmentTime = some t)
    (hin : a.AppointmentTime ≤ t ∧ t < a.endTime) :
    RescheduleAppointment db {} a.ID input
      = (db, ⟨400, "Doctor is not available at the requested time"⟩) := by
  have hne : input.NewAppointmentTime ≠ "" := by
    intro h
    have hnone : parseDateTime "" = none := by decide
    rw [h, hnone] at hparse
    cases hparse
  have hmem : a ∈ db.appointments := List.mem_of_find?_eq_some hfind
  have hconf : conflictsWith a.DoctorID t (t + minutesDuration a.DurationMinutes) a = true := by
    have h1 : statusNotCancelledOrNoShow a.Status = true := by
      unfold Appointment.isActive at hact
      simp [statusNotCancelledOrNoShow, hact.1, hact.2]
    have h2 : timesConflict t (t + minutesDuration a.DurationMinutes) a = true := by
      simp [timesConflict, hin.1, hin.2]
    simp [conflictsWith, h1, h2]
  have hcheck : CheckDoctorAvailability db false a.DoctorID t (some a.DurationMinutes)
      = .ok false := by
    unfold CheckDoctorAvailability
    have hpos : (db.appointments.filter
        (conflictsWith a.DoctorID t (t + minutesDuration a.DurationMinutes))).length ≠ 0 := by
      intro h0
      have hm : a ∈ db.appointments.filter
          (conflictsWith a.DoctorID t (t + minutesDuration a.DurationMinutes)) :=
        List.mem_filter.2 ⟨hmem, hconf⟩
      rw [List.length_eq_zero] at h0
      rw [h0] at hm
      cases hm
    simp [hpos]
  unfold RescheduleAppointment
  simp only [hne, if_false, hparse, hfind, Bool.false_eq_true, hcheck]

/-- C18, witness: the sample doctor has a single appointment, 09:00 to 09:12;
moving it to 09:05 is rejected. -/
theorem RescheduleAppointment_rejects_own_slot_witness :
    Sample.storeNineOClock.appointments.length = 1
      ∧ RescheduleAppointment Sample.storeNineOClock {} "00000000-0000-0000-0000-0000000000f1"
          { NewAppointmentTime := "2024-01-10 09:05:00", Reason := "five minutes later" }
        = (Sample.storeNineOClock, ⟨400, "Doctor is not available at the requested time"⟩) :=
  ⟨rfl, RescheduleAppointment_rejects_own_slot Sample.storeNineOClock
    (Sample.appointment "00000000-0000-0000-0000-0000000000f1" (Sample.nineOClockPlus 0) 12
      "D1-20240110-0001")
    { NewAppointmentTime := "2024-01-10 09:05:00", Reason := "five minutes later" }
    (Sample.nineOClockPlus 5) (by decide) (by decide) (by decide) (by decide)⟩

/-! ## Payment at creation -/

/-- The patient stage leaves appointments and check-ins as they are, and when
it ends the request, the response is not a created appointment. -/
theorem resolvePatient_spec (db : DB) (env : RequestEnv) (faults : CreateAppointmentFaults)
    (input : CreateAppointmentInput) :
    (∀ db1 patientID patientCreated,
        resolvePatient db env faults input = .ok (db1, patientID, patientCreated) →
        db1.patient_checkins = db.patient_checkins ∧ db1.appointments = db.appointments)
      ∧ (∀ response, resolvePatient db env faults input = .error response →
          response.isCreated = false) := by
  have huser : ∀ userID,
      (∀ db1 patientID patientCreated,
        resolvePatient.resolveUser db env faults input userID
          = .ok (db1, patientID, patientCreated) →
        db1.patient_checkins = db.patient_checkins ∧ db1.appointments = db.appointments)
      ∧ (∀ response, resolvePatient.resolveUser db env faults input userID = .error response →
          response.isCreated = false) := by
    intro userID
    unfold resolvePatient.resolveUser
    constructor
    · intro db1 patientID patientCreated h
      repeat' (first | split at h | dsimp only at h)
      all_goals first
        | (cases h; done)
        | (simp only [Except.ok.injEq, Prod.mk.injEq] at h
           obtain ⟨h1, -, -⟩ := h
           subst h1
           exact ⟨rfl, rfl⟩)
    · intro response h
      repeat' (first | split at h | dsimp only at h)
      all_goals first
        | (cases h; done)
        | (simp only [Except.error.injEq] at h
           subst h
           rfl)
  unfold resolvePatient
  constructor
  · intro db1 patientID patientCreated h
    repeat' (first | split at h | dsimp only at h)
    all_goals first
      | (cases h; done)
      | exact (huser _).1 _ _ _ h
      | (simp only [Except.ok.injEq, Prod.mk.injEq] at h
         obtain ⟨h1, -, -⟩ := h
         subst h1
         exact ⟨rfl, rfl⟩)
  · intro response h
    repeat' (first | split at h | dsimp only at h)
    all_goals first
      | (cases h; done)
      | exact (huser _).2 _ h
      | (simp only [Except.error.injEq] at h
         subst h
         rfl)

/-- The patient stage does not read the fault flag of the check-in insert. -/
theorem resolvePatient_insertCheckin (db : DB) (env : RequestEnv)
    (faults : CreateAppointmentFaults) (input : CreateAppointmentInput) (b : Bool) :
    resolvePatient db env { faults with insertCheckin := b } input
      = resolvePatient db env faults input := rfl

/-- The response of `CreateAppointment` and the appointments it leaves do not
depend on whether the check-in insert fails. -/
theorem CreateAppointment_insertCheckin (db : DB) (env : RequestEnv)
    (faults : CreateAppointmentFaults) (input : CreateAppointmentInput) (b : Bool) :
    (CreateAppointment db env { faults with insertCheckin := b } input).2
        = (CreateAppointment db env faults input).2
      ∧ (CreateAppointment db env { faults with insertCheckin := b } input).1.appointments
        = (CreateAppointment db env faults input).1.appointments := by
  unfold CreateAppointment
  rw [resolvePatient_insertCheckin]
  dsimp only
  cases bindCreateAppointmentInput input with
  | false => exact ⟨rfl, rfl⟩
  | true =>
  cases (input.UserID.isNone && input.PatientID.isNone) with
  | true => exact ⟨rfl, rfl⟩
  | false =>
  cases parseDate input.AppointmentDate with
  | none => exact ⟨rfl, rfl⟩
  | some appointmentDate =>
  cases parseDateTime input.AppointmentTime with
  | none => exact ⟨rfl, rfl⟩
  | some appointmentTime =>
  cases resolvePatient db env faults input with
  | error response => exact ⟨rfl, rfl⟩
  | ok v =>
  obtain ⟨db1, patientID, patientCreated⟩ := v
  simp only [Bool.not_true, Bool.false_eq_true, if_false]
  cases faults.checkClinic with
  | true => exact ⟨rfl, rfl⟩
  | false =>
  cases db1.clinics.any (fun c => c.ID == input.ClinicID && c.IsActive) with
  | false => exact ⟨rfl, rfl⟩
  | true =>
  cases (if faults.getDoctor = true then none else getDoctor db1 input.DoctorID) with
  | none => exact ⟨rfl, rfl⟩
  | some v =>
  obtain ⟨doctor, isDoctorActive⟩ := v
  cases isDoctorActive with
  | false => exact ⟨rfl, rfl⟩
  | true =>
  simp only [Bool.not_true, Bool.false_eq_true, if_false]
  split
  · exact ⟨rfl, rfl⟩
  · exact ⟨rfl, rfl⟩
  cases GenerateBookingNumber db1 faults.clinicCode faults.nextSerial doctor.DoctorCode
      appointmentTime with
  | error e => exact ⟨rfl, rfl⟩
  | ok bookingNumber =>
  cases (faults.insertAppointment || !patientReferenceHolds db1 patientID) with
  | true => exact ⟨rfl, rfl⟩
  | false =>
  cases input.PaymentMode with
  | none => exact ⟨rfl, rfl⟩
  | some mode =>
  by_cases hmode : mode = ""
  · simp only [Bool.false_eq_true, if_false, hmode, if_true]
    exact ⟨trivial, trivial⟩
  · simp only [Bool.false_eq_true, if_false, hmode]
    cases faults.updatePaymentStatus with
    | true => exact ⟨rfl, rfl⟩
    | false => cases b <;> cases faults.insertCheckin <;> exact ⟨rfl, rfl⟩

/-- C19: let `CreateAppointment` answer 201 with an appointment. The row of
that appointment is in the store. If the request carries a non-empty payment
mode, the returned appointment has payment status `paid`; when the check-in
insert succeeds, the check-in rows are those of before followed by one row for
the appointment with `payment_collected = true`, and when it fails the
check-in rows are as before; whether or not that insert fails, the answer is
the same 201 with the same appointment and the appointments of the store are
the same. If the request carries no payment mode (or an empty one), the
returned appointment has the default payment status, which is not `paid`, and
the check-in rows are as before. -/
theorem CreateAppointment_payment (db : DB) (env : RequestEnv)
    (faults : CreateAppointmentFaults) (input : CreateAppointmentInput) (db2 : DB)
    (appointment : Appointment) (createdPatient : Option String)
    (h : CreateAppointment db env faults input = (db2, .created appointment createdPatient)) :
    appointment ∈ db2.appointments
      ∧ (∀ mode, input.PaymentMode = some mode → mode ≠ "" →
          appointment.PaymentStatus = "paid"
            ∧ (faults.insertCheckin = false →
                db2.patient_checkins = db.patient_checkins ++ [autoCheckinRow env appointment.ID]
                  ∧ (autoCheckinRow env appointment.ID).AppointmentID = appointment.ID
                  ∧ (autoCheckinRow env appointment.ID).PaymentCollected = true)
            ∧ (faults.insertCheckin = true → db2.patient_checkins = db.patient_checkins))
      ∧ (input.PaymentMode = none ∨ input.PaymentMode = some "" →
          appointment.PaymentStatus = defaultPaymentStatus
            ∧ appointment.PaymentStatus ≠ "paid"
            ∧ db2.patient_checkins = db.patient_checkins)
      ∧ ∀ b : Bool,
          (CreateAppointment db env { faults with insertCheckin := b } input).2
              = .created appointment createdPatient
            ∧ (CreateAppointment db env { faults with insertCheckin := b } input).1.appointments
                = db2.appointments := by
  have hind : ∀ b : Bool,
      (CreateAppointment db env { faults with insertCheckin := b } input).2
          = .created appointment createdPatient
        ∧ (CreateAppointment db env { faults with insertCheckin := b } input).1.appointments
            = db2.appointments := by
    intro b
    have hb := CreateAppointment_insertCheckin db env faults input b
    rw [h] at hb
    exact hb
  suffices hmain : appointment ∈ db2.appointments
      ∧ (∀ mode, input.PaymentMode = some mode → mode ≠ "" →
          appointment.PaymentStatus = "paid"
            ∧ (faults.insertCheckin = false →
                db2.patient_checkins = db.patient_checkins ++ [autoCheckinRow env appointment.ID]
                  ∧ (autoCheckinRow env appointment.ID).AppointmentID = appointment.ID
                  ∧ (autoCheckinRow env appointment.ID).PaymentCollected = true)
            ∧ (faults.insertCheckin = true → db2.patient_checkins = db.patient_checkins))
      ∧ (input.PaymentMode = none ∨ input.PaymentMode = some "" →
          appointment.PaymentStatus = defaultPaymentStatus
            ∧ appointment.PaymentStatus ≠ "paid"
            ∧ db2.patient_checkins = db.patient_checkins) from
    ⟨hmain.1, hmain.2.1, hmain.2.2, hind⟩
  clear hind
  unfold CreateAppointment at h
  cases hbind : bindCreateAppointmentInput input with
  | false =>
    simp only [hbind, Bool.not_false, if_true] at h
    cases h
  | true =>
  simp only [hbind, Bool.not_true, Bool.false_eq_true, if_false] at h
  cases hmissing : (input.UserID.isNone && input.PatientID.isNone) with
  | true =>
    simp only [hmissing, if_true] at h
    cases h
  | false =>
  simp only [hmissing, Bool.false_eq_true, if_false] at h
  cases hdate : parseDate input.AppointmentDate with
  | none =>
    simp only [hdate] at h
    cases h
  | some appointmentDate =>
  simp only [hdate] at h
  cases htime : parseDateTime input.AppointmentTime with
  | none =>
    simp only [htime] at h
    cases h
  | some appointmentTime =>
  simp only [htime] at h
  cases hpatient : resolvePatient db env faults input with
  | error response =>
    simp only [hpatient, Prod.mk.injEq] at h
    have hno := (resolvePatient_spec db env faults input).2 response hpatient
    rw [h.2] at hno
    cases hno
  | ok v =>
  obtain ⟨db1, patientID, patientCreated⟩ := v
  obtain ⟨hcheckins, -⟩ := (resolvePatient_spec db env faults input).1 db1 patientID
    patientCreated hpatient
  simp only [hpatient] at h
  cases hcf : faults.checkClinic with
  | true =>
    simp only [hcf, if_true] at h
    cases h
  | false =>
  simp only [hcf, Bool.false_eq_true, if_false] at h
  cases hclinic : db1.clinics.any (fun c => c.ID == input.ClinicID && c.IsActive) with
  | false =>
    simp only [hclinic, Bool.not_false, if_true] at h
    cases h
  | true =>
  simp only [hclinic, Bool.not_true, Bool.false_eq_true, if_false] at h
  cases hdoctor : (if faults.getDoctor = true then none else getDoctor db1 input.DoctorID) with
  | none =>
    simp only [hdoctor] at h
    cases h
  | some v =>
  obtain ⟨doctor, isDoctorActive⟩ := v
  simp only [hdoctor] at h
  cases isDoctorActive with
  | false =>
    simp only [Bool.not_false, if_true] at h
    cases h
  | true =>
  simp only [Bool.not_true, Bool.false_eq_true, if_false] at h
  split at h
  · cases h
  · cases h
  cases hbook : GenerateBookingNumber db1 faults.clinicCode faults.nextSerial doctor.DoctorCode
      appointmentTime with
  | error e =>
    simp only [hbook] at h
    cases h
  | ok bookingNumber =>
  simp only [hbook] at h
  cases hinsert : (faults.insertAppointment || !patientReferenceHolds db1 patientID) with
  | true =>
    simp only [hinsert, if_true] at h
    cases h
  | false =>
  simp only [hinsert, Bool.false_eq_true, if_false] at h
  cases hmode : input.PaymentMode with
  | none =>
    simp only [hmode, Prod.mk.injEq, Response.created.injEq] at h
    obtain ⟨hdb, happ, -⟩ := h
    subst hdb happ
    refine ⟨by simp, ?_, ?_⟩
    · intro mode hsome
      cases hsome
    · intro _
      exact ⟨rfl, by show defaultPaymentStatus ≠ "paid"; decide, hcheckins⟩
  | some mode =>
    simp only [hmode] at h
    by_cases hempty : mode = ""
    · simp only [hempty, if_true, Prod.mk.injEq, Response.created.injEq] at h
      obtain ⟨hdb, happ, -⟩ := h
      subst hdb happ
      refine ⟨by simp, ?_, ?_⟩
      · intro mode2 hsome hne
        simp only [Option.some.injEq] at hsome
        rw [← hsome, hempty] at hne
        exact absurd rfl hne
      · intro _
        exact ⟨rfl, by show defaultPaymentStatus ≠ "paid"; decide, hcheckins⟩
    · simp only [hempty, if_false] at h
      cases hpay : faults.updatePaymentStatus with
      | true =>
        simp only [hpay, if_true] at h
        cases h
      | false =>
        simp only [hpay, Bool.false_eq_true, if_false, Prod.mk.injEq, Response.created.injEq] at h
        obtain ⟨hdb, happ, -⟩ := h
        subst hdb happ
        refine ⟨?_, ?_, ?_⟩
        · cases faults.insertCheckin <;> simp [markPaid, newAppointmentRow]
        · intro mode2 _ _
          refine ⟨rfl, ?_, ?_⟩
          · intro hfault
            simp only [hfault, Bool.false_eq_true, if_false]
            exact ⟨by rw [← hcheckins]; rfl, rfl, rfl⟩
          · intro hfault
            simp only [hfault, if_true]
            exact hcheckins
        · intro hnone
          rcases hnone with hnone | hnone
          · cases hnone
          · simp only [Option.some.injEq] at hnone
            exact absurd hnone hempty

/-- C19, witness: the sample request paid in cash is answered with the paid
appointment, which is in the store, and the store holds the check-in row of
that appointment. -/
theorem CreateAppointment_payment_witness :
    Sample.paidAppointment
        ∈ (CreateAppointment (Sample.store []) (Sample.env "00000000-0000-0000-0000-0000000000f9")
            {} Sample.paidRequest).1.appointments
      ∧ Sample.paidAppointment.PaymentStatus = "paid"
      ∧ (CreateAppointment (Sample.store []) (Sample.env "00000000-0000-0000-0000-0000000000f9")
            {} Sample.paidRequest).1.patient_checkins
          = (Sample.store []).patient_checkins
              ++ [autoCheckinRow (Sample.env "00000000-0000-0000-0000-0000000000f9")
                    Sample.paidAppointment.ID] :=
  have h := CreateAppointment_payment (Sample.store [])
    (Sample.env "00000000-0000-0000-0000-0000000000f9") {} Sample.paidRequest
    (CreateAppointment (Sample.store []) (Sample.env "00000000-0000-0000-0000-0000000000f9")
      {} Sample.paidRequest).1
    Sample.paidAppointment none (by decide)
  ⟨h.1, (h.2.1 "cash" rfl (by decide)).1, ((h.2.1 "cash" rfl (by decide)).2.1 rfl).1⟩

/-! ## Rejected requests -/

/-- C20: two rejected `CreateAppointment` requests that leave rows behind. The
request for a user without a patient record and for an unknown doctor is
answered 404 `doctor` after the patient row and the patient-clinic row have
been inserted; the paid request whose payment-status update fails is answered
500 after the appointment row has been inserted. -/
theorem CreateAppointment_rejected_leaves_rows :
    ((CreateAppointment (Sample.store []) (Sample.env "00000000-0000-0000-0000-0000000000f9")
          {} Sample.userRequest).2 = .notFoundError "doctor"
      ∧ (CreateAppointment (Sample.store []) (Sample.env "00000000-0000-0000-0000-0000000000f9")
          {} Sample.userRequest).1.patients
        = (Sample.store []).patients
            ++ [{ ID := "00000000-0000-0000-0000-0000000000a9", UserID := Sample.doctorUserID,
                  IsActive := true }]
      ∧ (CreateAppointment (Sample.store []) (Sample.env "00000000-0000-0000-0000-0000000000f9")
          {} Sample.userRequest).1.patient_clinics
        = [{ PatientID := "00000000-0000-0000-0000-0000000000a9", ClinicID := Sample.clinicID,
             IsPrimary := true }])
    ∧ ((CreateAppointment (Sample.store []) (Sample.env "00000000-0000-0000-0000-0000000000f9")
          { updatePaymentStatus := true } Sample.paidRequest).2
        = .databaseError "Failed to update payment status"
      ∧ (Sample.store []).appointments = []
      ∧ (CreateAppointment (Sample.store []) (Sample.env "00000000-0000-0000-0000-0000000000f9")
          { updatePaymentStatus := true } Sample.paidRequest).1.appointments
        = [{ Sample.paidAppointment with PaymentStatus := "pending" }]) := by
  refine ⟨⟨?_, ?_, ?_⟩, ⟨?_, ?_, ?_⟩⟩ <;> decide

/-! ## Kinds of errors -/

/-- C21, counterexample: in the sample store whose doctor is booked from 09:00
to 09:12, a request for 09:05 is answered `Doctor not available` and a request
with a malformed date is answered `Invalid appointment date format`; both are
sent with status 400 and code `VALIDATION_ERROR`, none with status 409. -/
theorem CreateAppointment_unavailable_sent_as_validation :
    (CreateAppointment Sample.storeNineOClock (Sample.env "00000000-0000-0000-0000-0000000000f9")
        {} (Sample.request "2024-01-10 09:05:00" none)).2.sent
      = (400, some { Error := "Validation failed", Message := "Doctor not available",
                     Code := "VALIDATION_ERROR" })
    ∧ (CreateAppointment Sample.storeNineOClock (Sample.env "00000000-0000-0000-0000-0000000000f9")
        {} Sample.badDateRequest).2.sent
      = (400, some { Error := "Validation failed", Message := "Invalid appointment date format",
                     Code := "VALIDATION_ERROR" }) := by
  constructor <;> decide

/-- C21, amended: when the earlier stages of `CreateAppointment` pass and the
availability check answers that the doctor is not available, the request is
answered with the validation error `Doctor not available`, sent with status
400 and code `VALIDATION_ERROR`, and the store is as the patient stage left
it. A request with a well-formed body whose appointment date or time is
malformed is answered with status 400 and code `VALIDATION_ERROR` as well: the
responses differ in the message only. -/
theorem CreateAppointment_unavailable (db : DB) (env : RequestEnv)
    (faults : CreateAppointmentFaults) (input : CreateAppointmentInput)
    (appointmentDate appointmentTime : Time) (db1 : DB) (patientID : String)
    (patientCreated : Bool) (doctor : DoctorInfo)
    (hbind : bindCreateAppointmentInput input = true)
    (hgiven : (input.UserID.isNone && input.PatientID.isNone) = false)
    (hdate : parseDate input.AppointmentDate = some appointmentDate)
    (htime : parseDateTime input.AppointmentTime = some appointmentTime)
    (hpatient : resolvePatient db env faults input = .ok (db1, patientID, patientCreated))
    (hfault : faults.checkClinic = false)
    (hclinic : db1.clinics.any (fun c => c.ID == input.ClinicID && c.IsActive) = true)
    (hdoctor : (if faults.getDoctor = true then none else getDoctor db1 input.DoctorID)
      = some (doctor, true))
    (havail : CheckDoctorAvailability db1 faults.checkAvailability input.DoctorID
      appointmentTime (some (input.DurationMinutes.getD 12)) = .ok false) :
    CreateAppointment db env faults input = (db1, .validationError "Doctor not available")
      ∧ (CreateAppointment db env faults input).2.sent
          = (400, some { Error := "Validation failed", Message := "Doctor not available",
                         Code := CodeValidationError })
      ∧ (∀ input2 : CreateAppointmentInput, bindCreateAppointmentInput input2 = true →
          (input2.UserID.isNone && input2.PatientID.isNone) = false →
          parseDate input2.AppointmentDate = none →
          (CreateAppointment db env faults input2).2.sent
            = (400, some { Error := "Validation failed",
                           Message := "Invalid appointment date format",
                           Code := CodeValidationError }))
      ∧ (∀ input2 : CreateAppointmentInput, bindCreateAppointmentInput input2 = true →
          (input2.UserID.isNone && input2.PatientID.isNone) = false →
          (parseDate input2.AppointmentDate).isSome = true →
          parseDateTime input2.AppointmentTime = none →
          (CreateAppointment db env faults input2).2.sent
            = (400, some { Error := "Validation failed",
                           Message := "Invalid appointment time format",
                           Code := CodeValidationError })) := by
  have hmain : CreateAppointment db env faults input
      = (db1, .validationError "Doctor not available") := by
    unfold CreateAppointment
    cases hd : input.DurationMinutes with
    | none =>
      simp only [hd, Option.getD_none] at havail
      simp only [hbind, hgiven, hdate, htime, hpatient, hfault, hclinic, hdoctor, havail,
        Bool.not_true, Bool.false_eq_true, if_false]
    | some d =>
      simp only [hd, Option.getD_some] at havail
      simp only [hbind, hgiven, hdate, htime, hpatient, hfault, hclinic, hdoctor, havail,
        Bool.not_true, Bool.false_eq_true, if_false]
  refine ⟨hmain, by rw [hmain]; rfl, ?_, ?_⟩
  · intro input2 h1 h2 h3
    unfold CreateAppointment
    simp only [h1, h2, h3, Bool.not_true, Bool.false_eq_true, if_false]
    rfl
  · intro input2 h1 h2 h3 h4
    obtain ⟨date2, h5⟩ := Option.isSome_iff_exists.1 h3
    unfold CreateAppointment
    simp only [h1, h2, h5, h4, Bool.not_true, Bool.false_eq_true, if_false]
    rfl

/-- C21, witness: the sample store whose doctor is booked from 09:00 to 09:12
and the request for 09:05. -/
theorem CreateAppointment_unavailable_witness :
    CreateAppointment Sample.storeNineOClock (Sample.env "00000000-0000-0000-0000-0000000000f9")
        {} (Sample.request "2024-01-10 09:05:00" none)
      = (Sample.storeNineOClock, .validationError "Doctor not available") :=
  (CreateAppointment_unavailable Sample.storeNineOClock
    (Sample.env "00000000-0000-0000-0000-0000000000f9") {}
    (Sample.request "2024-01-10 09:05:00" none) Sample.jan10 (Sample.nineOClockPlus 5)
    Sample.storeNineOClock Sample.patientID false Sample.doctorInfo
    (by decide) (by decide) (by decide) (by decide) (by decide) (by decide) (by decide)
    (by decide) (by decide)).1

/-- C22: for an appointment identifier that the store does not hold (the
identifiers of the request being well-formed), `CreateCheckin` answers 500
`Database error`, not a not-found error: the first query selects the status of
the appointment as well, which is `NULL` then and cannot be scanned into a Go
string, so the branch `Appointment not found` is never reached. The store is
left as it was and no check-in row is created. -/
theorem CreateCheckin_unknown_appointment (db : DB) (env : RequestEnv)
    (faults : CreateCheckinFaults) (input : CreateCheckinInput)
    (huuid : isUUID input.AppointmentID = true) (huser : isUUID input.CheckedInBy = true)
    (hnone : ∀ a ∈ db.appointments, a.ID ≠ input.AppointmentID) :
    CreateCheckin db env faults input = (db, .error 500 "Database error") := by
  have hany : db.appointments.any (fun a => a.ID == input.AppointmentID) = false := by
    rw [List.any_eq_false]
    intro a ha
    simpa using hnone a ha
  unfold CreateCheckin
  simp only [huuid, huser, hany, Bool.and_self, Bool.not_true, Bool.false_eq_true, if_false,
    Bool.not_false, Bool.or_true, if_true]

/-- C22, witness: a check-in for an unknown appointment in the sample store. -/
theorem CreateCheckin_unknown_appointment_witness :
    CreateCheckin Sample.storeNineOClock (Sample.env "00000000-0000-0000-0000-0000000000f9") {}
        Sample.unknownCheckinRequest
      = (Sample.storeNineOClock, .error 500 "Database error") :=
  CreateCheckin_unknown_appointment Sample.storeNineOClock
    (Sample.env "00000000-0000-0000-0000-0000000000f9") {} Sample.unknownCheckinRequest
    (by decide) (by decide) (by decide)

/-! ## Schedules -/

/-- For two windows with start before end, the time condition of the overlap
query holds exactly when the windows overlap as half-open intervals. -/
theorem scheduleTimesOverlap_iff (rowStart rowEnd newStart newEnd : Time)
    (hrow : rowStart < rowEnd) (hnew : newStart < newEnd) :
    scheduleTimesOverlap rowStart rowEnd newStart newEnd = true
      ↔ rowStart < newEnd ∧ newStart < rowEnd := by
  unfold scheduleTimesOverlap
  simp only [Bool.or_eq_true, Bool.and_eq_true, decide_eq_true_eq, ge_iff_le, gt_iff_lt]
  unfold Time at *
  omega

/-- C23: let the request be well-formed, for a doctor of the store, with time
texts that read as a window with start before end, let every existing row
read as a window with start before end, and let the doctor and overlap lookups
succeed. Then `CreateDoctorSchedule` answers 409 `Schedule overlaps with
existing schedule` exactly when an active row of the same doctor and day of
week overlaps the new window as a half-open interval (row start before new
end and new start before row end), and it leaves the store as it was then. -/
theorem CreateDoctorSchedule_conflict_iff (db : DB) (faults : CreateDoctorScheduleFaults)
    (input : CreateDoctorScheduleInput) (newStart newEnd : Time)
    (hbind : bindCreateDoctorScheduleInput input = true)
    (hdoctor : db.doctors.any (fun d => d.ID == input.DoctorID) = true)
    (hcheck : faults.checkDoctor = false) (hlookup : faults.checkOverlap = false)
    (hstart : clockValue input.StartTime = some newStart)
    (hend : clockValue input.EndTime = some newEnd)
    (hnew : newStart < newEnd)
    (hrows : ∀ r ∈ db.doctor_schedules, ∃ s e, scheduleWindow r = some (s, e) ∧ s < e) :
    ((CreateDoctorSchedule db faults input).2 = ⟨409, "Schedule overlaps with existing schedule"⟩
        ↔ ∃ r ∈ db.doctor_schedules, r.DoctorID = input.DoctorID
            ∧ r.DayOfWeek = input.DayOfWeek ∧ r.IsActive = true
            ∧ ∃ s e, scheduleWindow r = some (s, e) ∧ s < newEnd ∧ newStart < e)
      ∧ ((CreateDoctorSchedule db faults input).2.status = 409 →
          (CreateDoctorSchedule db faults input).1 = db) := by
  have hall : (db.doctor_schedules.filter (fun r =>
      r.DoctorID == input.DoctorID && r.DayOfWeek == input.DayOfWeek && r.IsActive)).all
      (fun r => (scheduleWindow r).isSome) = true := by
    rw [List.all_eq_true]
    intro r hr
    obtain ⟨s, e, hw, -⟩ := hrows r (List.mem_of_mem_filter hr)
    rw [hw]
    rfl
  have hquery : ∃ found, overlappingExists db faults.checkOverlap input = .ok found
      ∧ (found = true
        ↔ ∃ r ∈ db.doctor_schedules, r.DoctorID = input.DoctorID
            ∧ r.DayOfWeek = input.DayOfWeek ∧ r.IsActive = true
            ∧ ∃ s e, scheduleWindow r = some (s, e) ∧ s < newEnd ∧ newStart < e) := by
    unfold overlappingExists
    simp only [hlookup, Bool.false_eq_true, if_false, hstart, hend, hall, if_true]
    refine ⟨_, rfl, ?_⟩
    rw [List.any_eq_true]
    constructor
    · rintro ⟨r, hr, hov⟩
      rw [List.mem_filter] at hr
      obtain ⟨hmem, hsel⟩ := hr
      simp only [Bool.and_eq_true, beq_iff_eq] at hsel
      obtain ⟨s, e, hw, hse⟩ := hrows r hmem
      rw [hw] at hov
      exact ⟨r, hmem, hsel.1.1, hsel.1.2, hsel.2, s, e, hw,
        (scheduleTimesOverlap_iff s e newStart newEnd hse hnew).1 hov⟩
    · rintro ⟨r, hmem, h1, h2, h3, s, e, hw, hov⟩
      obtain ⟨s2, e2, hw2, hse⟩ := hrows r hmem
      rw [hw] at hw2
      simp only [Option.some.injEq, Prod.mk.injEq] at hw2
      obtain ⟨rfl, rfl⟩ := hw2
      refine ⟨r, ?_, ?_⟩
      · rw [List.mem_filter]
        exact ⟨hmem, by simp [h1, h2, h3]⟩
      · rw [hw]
        exact (scheduleTimesOverlap_iff s e newStart newEnd hse hnew).2 hov
  obtain ⟨found, hfound, hiff⟩ := hquery
  rw [← hiff]
  unfold CreateDoctorSchedule
  simp only [hbind, hdoctor, hcheck, hfound, Bool.not_true, Bool.false_eq_true, if_false,
    Bool.or_false]
  cases found with
  | true => simp
  | false =>
    simp only [hstart, hend, Option.isNone_some, Bool.or_false]
    constructor
    · constructor
      · intro h
        split_ifs at h <;> simp at h
      · intro h
        cases h
    · intro h
      split_ifs at h <;> simp at h

/-- C23, witness: the sample doctor has the schedule row 09:00 to 09:30 on
Wednesdays; a new row 09:30 to 10:00, which touches it at 09:30, is answered
with a conflict exactly when an active row overlaps it, and it is created; a
new row 09:15 to 09:45 is answered with a conflict. -/
theorem CreateDoctorSchedule_conflict_iff_witness :
    ((CreateDoctorSchedule Sample.storeWithSchedule {}
          (Sample.scheduleRequest "09:30:00" "10:00:00")).2
        = ⟨409, "Schedule overlaps with existing schedule"⟩
      ↔ ∃ r ∈ Sample.storeWithSchedule.doctor_schedules,
          r.DoctorID = (Sample.scheduleRequest "09:30:00" "10:00:00").DoctorID
            ∧ r.DayOfWeek = (Sample.scheduleRequest "09:30:00" "10:00:00").DayOfWeek
            ∧ r.IsActive = true
            ∧ ∃ s e, scheduleWindow r = some (s, e) ∧ s < timeDate 0 1 1 10 0 0
                ∧ timeDate 0 1 1 9 30 0 < e)
      ∧ (CreateDoctorSchedule Sample.storeWithSchedule {}
          (Sample.scheduleRequest "09:30:00" "10:00:00")).2.status = 201
      ∧ (CreateDoctorSchedule Sample.storeWithSchedule {}
          (Sample.scheduleRequest "09:15:00" "09:45:00")).2.status = 409 :=
  ⟨(CreateDoctorSchedule_conflict_iff Sample.storeWithSchedule {}
      (Sample.scheduleRequest "09:30:00" "10:00:00") (timeDate 0 1 1 9 30 0)
      (timeDate 0 1 1 10 0 0)
      (by decide) (by decide) rfl rfl (by decide) (by decide) (by decide)
      (fun r hr => by
        rw [List.mem_singleton.1 (show r ∈ [Sample.scheduleRow] from hr)]
        exact ⟨timeDate 0 1 1 9 0 0, timeDate 0 1 1 9 30 0, by decide, by decide⟩)).1,
   by decide, by decide⟩

/-! ## Booking numbers under interleaving -/

/-- Run one after the other on the same request, the two steps of
`CreateAppointment` are `CreateAppointment`. -/
theorem CreateAppointment_eq_prepare_insert (db : DB) (env : RequestEnv)
    (faults : CreateAppointmentFaults) (input : CreateAppointmentInput) :
    CreateAppointment db env faults input
      = match CreateAppointmentPrepare db env faults input with
        | (db1, .error response) => (db1, response)
        | (db1, .ok (appointment, patientCreated)) =>
          CreateAppointmentInsert db1 env faults input appointment patientCreated := by
  unfold CreateAppointment CreateAppointmentPrepare
  cases bindCreateAppointmentInput input with
  | false => rfl
  | true =>
  cases (input.UserID.isNone && input.PatientID.isNone) with
  | true => rfl
  | false =>
  cases parseDate input.AppointmentDate with
  | none => rfl
  | some appointmentDate =>
  cases parseDateTime input.AppointmentTime with
  | none => rfl
  | some appointmentTime =>
  cases resolvePatient db env faults input with
  | error response => rfl
  | ok v =>
  obtain ⟨db1, patientID, patientCreated⟩ := v
  simp only [Bool.not_true, Bool.false_eq_true, if_false]
  cases faults.checkClinic with
  | true => rfl
  | false =>
  cases db1.clinics.any (fun c => c.ID == input.ClinicID && c.IsActive) with
  | false => rfl
  | true =>
  cases (if faults.getDoctor = true then none else getDoctor db1 input.DoctorID) with
  | none => rfl
  | some v =>
  obtain ⟨doctor, isDoctorActive⟩ := v
  cases isDoctorActive with
  | false => rfl
  | true =>
  simp only [Bool.not_true, Bool.false_eq_true, if_false]
  split
  · rfl
  · rfl
  cases GenerateBookingNumber db1 faults.clinicCode faults.nextSerial doctor.DoctorCode
      appointmentTime with
  | error e => rfl
  | ok bookingNumber => rfl

/-- C24: two requests for the sample doctor on 2024-01-10, at 09:00 and at
09:30, in a store without appointments. Run one after the other they get the
serials 0001 and 0002. When both run their statements up to the booking number
before either runs its insert, both are answered 201 and both appointments are
stored with the booking number `D1-20240110-0001`: the serial computation and
the insert are separate statements, with nothing that keeps another request
from computing the same serial in between. -/
theorem CreateAppointment_interleaved_same_booking_number :
    ((CreateAppointment
        (CreateAppointment (Sample.store []) (Sample.env "00000000-0000-0000-0000-0000000000f8")
          {} (Sample.request "2024-01-10 09:00:00" none)).1
        (Sample.env "00000000-0000-0000-0000-0000000000f9") {}
        (Sample.request "2024-01-10 09:30:00" none)).1.appointments.map
          (fun a => a.BookingNumber) = ["D1-20240110-0001", "D1-20240110-0002"])
      ∧ ((CreateAppointmentInterleaved (Sample.store [])
          (Sample.env "00000000-0000-0000-0000-0000000000f8")
          (Sample.env "00000000-0000-0000-0000-0000000000f9") {}
          (Sample.request "2024-01-10 09:00:00" none)
          (Sample.request "2024-01-10 09:30:00" none)).1.appointments.map
            (fun a => (a.ID, a.BookingNumber))
          = [("00000000-0000-0000-0000-0000000000f8", "D1-20240110-0001"),
             ("00000000-0000-0000-0000-0000000000f9", "D1-20240110-0001")])
      ∧ (CreateAppointmentInterleaved (Sample.store [])
          (Sample.env "00000000-0000-0000-0000-0000000000f8")
          (Sample.env "00000000-0000-0000-0000-0000000000f9") {}
          (Sample.request "2024-01-10 09:00:00" none)
          (Sample.request "2024-01-10 09:30:00" none)).2.1.isCreated = true
      ∧ (CreateAppointmentInterleaved (Sample.store [])
          (Sample.env "00000000-0000-0000-0000-0000000000f8")
          (Sample.env "00000000-0000-0000-0000-0000000000f9") {}
          (Sample.request "2024-01-10 09:00:00" none)
          (Sample.request "2024-01-10 09:30:00" none)).2.2.isCreated = true
      ∧ ∀ (db : DB) (env : RequestEnv) (faults : CreateAppointmentFaults)
          (input : CreateAppointmentInput),
          CreateAppointment db env faults input
            = match CreateAppointmentPrepare db env faults input with
              | (db1, .error response) => (db1, response)
              | (db1, .ok (appointment, patientCreated)) =>
                CreateAppointmentInsert db1 env faults input appointment patientCreated := by
  refine ⟨by decide, by decide, by decide, by decide, ?_⟩
  intro db env faults input
  exact CreateAppointment_eq_prepare_insert db env faults input

/-! ## Time slots: the order of the slots -/

/-- The start instants of the slot loop begin at `current` when `current` lies
before the end of the window, there are none otherwise, and each one is the
one before it plus the slot duration as the loop computes it. -/
theorem slotStarts_chain (endDateTime : Time) (d : Int) :
    ∀ (fuel : Nat) (current : Time) (starts : List Time),
      slotStarts endDateTime d fuel current = some starts →
      (current < endDateTime → ∃ rest, starts = current :: rest)
        ∧ (¬ current < endDateTime → starts = [])
        ∧ starts.Chain' (fun a b => b = a + minutesDuration d) := by
  intro fuel
  induction fuel with
  | zero =>
    intro current starts h
    by_cases hlt : current < endDateTime
    · simp [slotStarts, hlt] at h
    · simp only [slotStarts, hlt, if_false, Option.some.injEq] at h
      subst h
      exact ⟨fun hc => absurd hc hlt, fun _ => rfl, List.chain'_nil⟩
  | succ n ih =>
    intro current starts h
    by_cases hlt : current < endDateTime
    · simp only [slotStarts, hlt, if_true, Option.map_eq_some'] at h
      obtain ⟨rest, hrest, hstarts⟩ := h
      subst hstarts
      obtain ⟨hhead, hnil, hchain⟩ := ih _ rest hrest
      refine ⟨fun _ => ⟨rest, rfl⟩, fun hc => absurd hlt hc, ?_⟩
      by_cases hnext : current + minutesDuration d < endDateTime
      · obtain ⟨rest2, hr⟩ := hhead hnext
        subst hr
        exact List.Chain'.cons rfl hchain
      · rw [hnil hnext]
        exact List.chain'_singleton _
    · simp only [slotStarts, hlt, if_false, Option.some.injEq] at h
      subst h
      exact ⟨fun hc => absurd hc hlt, fun _ => rfl, List.chain'_nil⟩

/-- C25, counterexample: the window 09:00 to 09:02 with the positive slot
duration of 2^53 + 1 minutes, whose length in nanoseconds wraps around to one
minute: the slots returned are one minute long, not 2^53 + 1 minutes. -/
theorem GenerateTimeSlots_slot_length_wraps_around :
    (0 : Int) < 9007199254740993
      ∧ GenerateTimeSlots (Sample.store []) (fun _ => false) 2 Sample.jan10 (9 * Hour)
          (9 * Hour + 2 * Minute) 9007199254740993 Sample.doctorID
        = some [
            { StartTime := Sample.nineOClockPlus 0, EndTime := Sample.nineOClockPlus 1,
              IsAvailable := true, IsBooked := false, AppointmentID := none },
            { StartTime := Sample.nineOClockPlus 1, EndTime := Sample.nineOClockPlus 2,
              IsAvailable := true, IsBooked := false, AppointmentID := none }]
      ∧ Sample.nineOClockPlus 1 ≠ Sample.nineOClockPlus 0 + 9007199254740993 * Minute := by
  decide

/-- C25, amended: for a positive slot duration of at most 153722867 minutes
(the durations whose length in nanoseconds fits `int64`), `GenerateTimeSlots`
returns once its loop is given as many iterations as the window has
nanoseconds; the slots are in strictly increasing start order; when the
window's start lies before its end the first slot starts at the window's start
on the target date; every slot ends one slot duration after it starts; every
slot after the first starts exactly where the one before it ends; and when the
window's start does not lie before its end the list is empty. -/
theorem GenerateTimeSlots_contiguous (db : DB) (queryFails : Time → Bool)
    (targetDate startTime endTime : Time) (slotDuration : Int) (doctorID : String)
    (h0 : 0 < slotDuration) (h1 : slotDuration ≤ 153722867) (fuel : Nat)
    (hfuel : (combineDateTime targetDate endTime
      - combineDateTime targetDate startTime).toNat ≤ fuel) :
    ∃ slots, GenerateTimeSlots db queryFails fuel targetDate startTime endTime slotDuration
        doctorID = some slots
      ∧ slots.Pairwise (fun x y => x.StartTime < y.StartTime)
      ∧ (combineDateTime targetDate startTime < combineDateTime targetDate endTime →
          ∃ first rest, slots = first :: rest
            ∧ first.StartTime = combineDateTime targetDate startTime)
      ∧ (∀ slot ∈ slots, slot.EndTime = slot.StartTime + slotDuration * Minute)
      ∧ slots.Chain' (fun x y => y.StartTime = x.EndTime)
      ∧ (combineDateTime targetDate endTime ≤ combineDateTime targetDate startTime →
          slots = []) := by
  have hm := minutesDuration_eq slotDuration (le_of_lt h0) h1
  have hpos : 0 < minutesDuration slotDuration := by
    rw [hm]
    unfold Minute
    omega
  obtain ⟨hex, hinc⟩ := slotStarts_some (combineDateTime targetDate endTime) slotDuration hpos
    fuel (combineDateTime targetDate startTime)
  obtain ⟨starts, hstarts⟩ := hex hfuel
  obtain ⟨hpair, -⟩ := hinc starts hstarts
  obtain ⟨hhead, hnil, hchain⟩ := slotStarts_chain (combineDateTime targetDate endTime)
    slotDuration fuel (combineDateTime targetDate startTime) starts hstarts
  refine ⟨starts.map (slotAt db queryFails doctorID slotDuration), ?_, ?_, ?_, ?_, ?_, ?_⟩
  · rw [GenerateTimeSlots_eq, hstarts]
    rfl
  · rw [List.pairwise_map]
    exact hpair
  · intro hlt
    obtain ⟨rest, hr⟩ := hhead hlt
    exact ⟨_, _, by rw [hr]; rfl, rfl⟩
  · intro slot hs
    rw [List.mem_map] at hs
    obtain ⟨t, -, rfl⟩ := hs
    show t + minutesDuration slotDuration = t + slotDuration * Minute
    rw [hm]
  · rw [List.chain'_map]
    exact hchain
  · intro hle
    rw [hnil (not_lt.2 hle)]
    rfl

/-- C25, witness: the window 09:00 to 09:30 on 2024-01-10 with 12-minute
slots. -/
theorem GenerateTimeSlots_contiguous_witness :
    ∃ slots, GenerateTimeSlots (Sample.store []) (fun _ => false) 1800000000000 Sample.jan10
        (9 * Hour) (9 * Hour + 30 * Minute) 12 Sample.doctorID = some slots
      ∧ slots.Pairwise (fun x y => x.StartTime < y.StartTime)
      ∧ (combineDateTime Sample.jan10 (9 * Hour)
            < combineDateTime Sample.jan10 (9 * Hour + 30 * Minute) →
          ∃ first rest, slots = first :: rest
            ∧ first.StartTime = combineDateTime Sample.jan10 (9 * Hour))
      ∧ (∀ slot ∈ slots, slot.EndTime = slot.StartTime + 12 * Minute)
      ∧ slots.Chain' (fun x y => y.StartTime = x.EndTime)
      ∧ (combineDateTime Sample.jan10 (9 * Hour + 30 * Minute)
            ≤ combineDateTime Sample.jan10 (9 * Hour) → slots = []) :=
  GenerateTimeSlots_contiguous (Sample.store []) (fun _ => false) Sample.jan10 (9 * Hour)
    (9 * Hour + 30 * Minute) 12 Sample.doctorID (by decide) (by decide) 1800000000000
    (by decide)

/-- C26: the day index that `GetAvailableTimeSlots` looks schedules up with is
always in 1..7, with 1 for Monday 2024-01-08 up to 7 for Sunday 2024-01-14;
but the binding of `CreateDoctorScheduleInput` (`required,min=0,max=6`)
accepts the day indices 1..6 only: a request for day 7 is answered 400 for
every store, as is one for day 0, so no schedule row can be created for the
index that the lookup uses on a Sunday. -/
theorem CreateDoctorSchedule_refuses_sunday :
    (∀ t : Time, 1 ≤ scheduleDayOfWeek t ∧ scheduleDayOfWeek t ≤ 7)
      ∧ (["2024-01-08", "2024-01-09", "2024-01-10", "2024-01-11", "2024-01-12", "2024-01-13",
          "2024-01-14"].map (fun date => (parseDate date).map scheduleDayOfWeek)
            = [some 1, some 2, some 3, some 4, some 5, some 6, some 7])
      ∧ (∀ input : CreateDoctorScheduleInput, bindCreateDoctorScheduleInput input = true →
          1 ≤ input.DayOfWeek ∧ input.DayOfWeek ≤ 6)
      ∧ (∀ (db : DB) (faults : CreateDoctorScheduleFaults) (input : CreateDoctorScheduleInput),
          input.DayOfWeek = 7 ∨ input.DayOfWeek = 0 →
          CreateDoctorSchedule db faults input = (db, ⟨400, "binding error"⟩))
      ∧ CreateDoctorSchedule (Sample.store []) {} (Sample.scheduleRequestOn 7)
          = (Sample.store [], ⟨400, "binding error"⟩)
      ∧ (CreateDoctorSchedule (Sample.store []) {} (Sample.scheduleRequestOn 6)).2.status
          = 201 := by
  have hbind : ∀ input : CreateDoctorScheduleInput, bindCreateDoctorScheduleInput input = true →
      1 ≤ input.DayOfWeek ∧ input.DayOfWeek ≤ 6 := by
    intro input h
    unfold bindCreateDoctorScheduleInput at h
    simp only [Bool.and_eq_true, bne_iff_ne, ne_eq, decide_eq_true_eq] at h
    obtain ⟨⟨⟨⟨⟨⟨-, h0⟩, h1⟩, h2⟩, -⟩, -⟩, -⟩ := h
    omega
  refine ⟨?_, by decide, hbind, ?_, by decide, by decide⟩
  · intro t
    unfold scheduleDayOfWeek weekdayOf Day
    split_ifs <;> omega
  · intro db faults input h
    have hno : bindCreateDoctorScheduleInput input = false := by
      cases hb : bindCreateDoctorScheduleInput input with
      | false => rfl
      | true =>
        have := hbind input hb
        omega
    unfold CreateDoctorSchedule
    simp only [hno, Bool.not_false, if_true]

/-! ## Availability: soundness -/

/-- C27, counterexample: the doctor's only appointment runs from 09:00 to
09:12; a candidate that starts at 09:12 with the positive duration of 2^53
minutes is reported unavailable although no active appointment of the doctor
overlaps the candidate interval, because the duration in nanoseconds wraps
around to zero. -/
theorem CheckDoctorAvailability_rejects_without_overlap :
    (0 : Int) < 9007199254740992
      ∧ (∀ a ∈ Sample.storeNineOClock.appointments, 0 < a.DurationMinutes)
      ∧ CheckDoctorAvailability Sample.storeNineOClock false Sample.doctorID
          (Sample.nineOClockPlus 12) (some 9007199254740992) = .ok false
      ∧ ¬ ∃ a ∈ Sample.storeNineOClock.appointments, a.DoctorID = Sample.doctorID ∧ a.isActive
          ∧ intervalsOverlap a.AppointmentTime a.endTime (Sample.nineOClockPlus 12)
              (Sample.nineOClockPlus 12 + 9007199254740992 * Minute) := by
  decide

/-- C27, amended: for a candidate with a positive duration of at most
153722867 minutes (the durations whose length in nanoseconds fits `int64`; the
default of 12 minutes when none is given), whenever `CheckDoctorAvailability`
returns false the store holds an active appointment of that doctor that
overlaps the candidate interval as a half-open interval. -/
theorem CheckDoctorAvailability_sound (db : DB) (doctorID : String) (s : Time)
    (durationMinutes : Option Int) (h0 : 0 < durationMinutes.getD 12)
    (h1 : durationMinutes.getD 12 ≤ 153722867)
    (h : CheckDoctorAvailability db false doctorID s durationMinutes = .ok false) :
    ∃ a ∈ db.appointments, a.DoctorID = doctorID ∧ a.isActive
      ∧ intervalsOverlap a.AppointmentTime a.endTime s
          (s + durationMinutes.getD 12 * Minute) := by
  have key : ∀ d : Int, 0 < d → d ≤ 153722867 →
      db.appointments.filter (conflictsWith doctorID s (s + minutesDuration d)) ≠ [] →
      ∃ a ∈ db.appointments, a.DoctorID = doctorID ∧ a.isActive
        ∧ intervalsOverlap a.AppointmentTime a.endTime s (s + d * Minute) := by
    intro d hd0 hd1 hne
    have hm := minutesDuration_eq d (le_of_lt hd0) hd1
    have hpos : 0 < d * Minute := by unfold Minute; omega
    obtain ⟨a, ha⟩ := List.exists_mem_of_ne_nil _ hne
    rw [List.mem_filter] at ha
    obtain ⟨hmem, hconf⟩ := ha
    rw [hm] at hconf
    unfold conflictsWith at hconf
    simp only [Bool.and_eq_true, beq_iff_eq] at hconf
    obtain ⟨⟨hdoc, hstatus⟩, htimes⟩ := hconf
    refine ⟨a, hmem, hdoc, ?_, ?_⟩
    · unfold Appointment.isActive
      unfold statusNotCancelledOrNoShow at hstatus
      simpa using hstatus
    · unfold timesConflict at htimes
      simp only [Bool.or_eq_true, Bool.and_eq_true, decide_eq_true_eq, gt_iff_lt, ge_iff_le]
        at htimes
      unfold intervalsOverlap
      unfold Time at *
      omega
  unfold CheckDoctorAvailability at h
  cases durationMinutes with
  | none =>
    simp only [Bool.false_eq_true, if_false, Except.ok.injEq, beq_eq_false_iff_ne, ne_eq,
      List.length_eq_zero] at h
    exact key 12 h0 h1 h
  | some d =>
    simp only [Bool.false_eq_true, if_false, Except.ok.injEq, beq_eq_false_iff_ne, ne_eq,
      List.length_eq_zero] at h
    exact key d h0 h1 h

/-- C27, witness: the sample store whose doctor is booked from 09:00 to 09:12
and a candidate at 09:05 for 12 minutes. -/
theorem CheckDoctorAvailability_sound_witness :
    ∃ a ∈ Sample.storeNineOClock.appointments, a.DoctorID = Sample.doctorID ∧ a.isActive
      ∧ intervalsOverlap a.AppointmentTime a.endTime (Sample.nineOClockPlus 5)
          (Sample.nineOClockPlus 5 + (some (12 : Int)).getD 12 * Minute) :=
  CheckDoctorAvailability_sound Sample.storeNineOClock Sample.doctorID (Sample.nineOClockPlus 5)
    (some 12) (by decide) (by decide) (by decide)

/-! ## Time slots and the availability check -/

/-- Every start instant of the slot loop lies before the end of the window. -/
theorem slotStarts_lt_end (endDateTime : Time) (d : Int) :
    ∀ (fuel : Nat) (current : Time) (starts : List Time),
      slotStarts endDateTime d fuel current = some starts →
      ∀ t ∈ starts, t < endDateTime := by
  intro fuel
  induction fuel with
  | zero =>
    intro current starts h
    by_cases hlt : current < endDateTime
    · simp [slotStarts, hlt] at h
    · simp only [slotStarts, hlt, if_false, Option.some.injEq] at h
      subst h
      simp
  | succ n ih =>
    intro current starts h
    by_cases hlt : current < endDateTime
    · simp only [slotStarts, hlt, if_true, Option.map_eq_some'] at h
      obtain ⟨rest, hrest, hstarts⟩ := h
      subst hstarts
      intro t ht
      rcases List.mem_cons.1 ht with rfl | ht
      · exact hlt
      · exact ih _ rest hrest t ht
    · simp only [slotStarts, hlt, if_false, Option.some.injEq] at h
      subst h
      simp

/-- Two different start instants of the slot loop are at least one slot
duration apart. -/
theorem slotStarts_spaced (endDateTime : Time) (d : Int) (hd : 0 < minutesDuration d)
    (fuel : Nat) (current : Time) (starts : List Time)
    (h : slotStarts endDateTime d fuel current = some starts) :
    ∀ t ∈ starts, ∀ u ∈ starts, t ≠ u →
      t + minutesDuration d ≤ u ∨ u + minutesDuration d ≤ t := by
  obtain ⟨-, -, hchain⟩ := slotStarts_chain endDateTime d fuel current starts h
  have hchain2 : starts.Chain' (fun a b => a + minutesDuration d ≤ b) :=
    hchain.imp (fun a b hab => by rw [hab])
  have hpair : starts.Pairwise (fun a b => a + minutesDuration d ≤ b) :=
    (@List.chain'_iff_pairwise _ (fun a b => a + minutesDuration d ≤ b)
      ⟨fun a b c hab hbc => by unfold Time at *; omega⟩ starts).1 hchain2
  have hsym : starts.Pairwise
      (fun a b => a + minutesDuration d ≤ b ∨ b + minutesDuration d ≤ a) :=
    hpair.imp (fun hab => Or.inl hab)
  intro t ht u hu hne
  exact List.Pairwise.forall (fun a b hab => hab.symm) hsym ht hu hne

/-- C28, counterexample: the doctor's only appointment runs from 09:05 to
09:17; the slot 09:00 to 09:12 is listed as available, and
`CheckDoctorAvailability` for 09:00 and the slot duration of 12 minutes
returns false. -/
theorem GenerateTimeSlots_available_slot_not_bookable :
    GenerateTimeSlots Sample.storeOffGrid (fun _ => false) 3 Sample.jan10 (9 * Hour)
        (9 * Hour + 30 * Minute) 12 Sample.doctorID
      = some Sample.freeSlots
    ∧ Sample.freeSlots.head? = some
        { StartTime := Sample.nineOClockPlus 0, EndTime := Sample.nineOClockPlus 12,
          IsAvailable := true, IsBooked := false, AppointmentID := none }
    ∧ CheckDoctorAvailability Sample.storeOffGrid false Sample.doctorID
        (Sample.nineOClockPlus 0) (some 12) = .ok false := by
  decide

/-- C28, amended: the slot lookup tests only whether an active appointment
starts exactly at the slot's start. Let the slot duration be positive and at
most 153722867 minutes, let the lookups succeed, and let every active
appointment of the doctor either start at the start of a listed slot and last
the slot duration, or end at or before the window's start, or start at least
one slot duration after the window's end. Then for every slot listed with
`IsAvailable = true`, `CheckDoctorAvailability` for the slot's start and the
slot duration returns true. -/
theorem GenerateTimeSlots_available_is_bookable (db : DB) (fuel : Nat)
    (targetDate startTime endTime : Time) (slotDuration : Int) (doctorID : String)
    (slots : List TimeSlot) (h0 : 0 < slotDuration) (h1 : slotDuration ≤ 153722867)
    (hslots : GenerateTimeSlots db (fun _ => false) fuel targetDate startTime endTime
      slotDuration doctorID = some slots)
    (hgrid : ∀ a ∈ db.appointments, a.DoctorID = doctorID → a.isActive →
      (a.DurationMinutes = slotDuration ∧ ∃ slot ∈ slots, a.AppointmentTime = slot.StartTime)
      ∨ a.endTime ≤ combineDateTime targetDate startTime
      ∨ combineDateTime targetDate endTime + slotDuration * Minute ≤ a.AppointmentTime) :
    ∀ slot ∈ slots, slot.IsAvailable = true →
      CheckDoctorAvailability db false doctorID slot.StartTime (some slotDuration)
        = .ok true := by
  have hm := minutesDuration_eq slotDuration (le_of_lt h0) h1
  have hpos : 0 < minutesDuration slotDuration := by
    rw [hm]
    unfold Minute
    omega
  rw [GenerateTimeSlots_eq] at hslots
  simp only [Option.map_eq_some'] at hslots
  obtain ⟨starts, hstarts, hmap⟩ := hslots
  subst hmap
  have hspaced := slotStarts_spaced _ slotDuration hpos fuel _ starts hstarts
  have hlt := slotStarts_lt_end _ slotDuration fuel _ starts hstarts
  obtain ⟨-, hge⟩ := (slotStarts_some _ slotDuration hpos fuel
    (combineDateTime targetDate startTime)).2 starts hstarts
  intro slot hslot havailable
  rw [List.mem_map] at hslot
  obtain ⟨t, ht, rfl⟩ := hslot
  have hfree : ¬ ∃ a ∈ db.appointments, a.DoctorID = doctorID ∧ a.isActive
      ∧ a.AppointmentTime = t := by
    rw [← bookedAppointmentAt_isSome]
    simpa [slotAt] using havailable
  have hnone : db.appointments.filter
      (conflictsWith doctorID t (t + minutesDuration slotDuration)) = [] := by
    rw [List.filter_eq_nil_iff]
    intro a ha hconf
    unfold conflictsWith at hconf
    simp only [Bool.and_eq_true, beq_iff_eq] at hconf
    obtain ⟨⟨hdoc, hstatus⟩, htimes⟩ := hconf
    have hact : a.isActive := by
      unfold Appointment.isActive
      unfold statusNotCancelledOrNoShow at hstatus
      simpa using hstatus
    unfold timesConflict at htimes
    simp only [Bool.or_eq_true, Bool.and_eq_true, decide_eq_true_eq, gt_iff_lt, ge_iff_le]
      at htimes
    have hwin := hge t ht
    have hend := hlt t ht
    rcases hgrid a ha hdoc hact with ⟨hdur, slot2, hslot2, hat⟩ | hbefore | hafter
    · rw [List.mem_map] at hslot2
      obtain ⟨u, hu, rfl⟩ := hslot2
      have hne : t ≠ u := by
        intro h
        exact hfree ⟨a, ha, hdoc, hact, by rw [hat, h]; rfl⟩
      have hsp := hspaced t ht u hu hne
      have hau : a.AppointmentTime = u := hat
      have haend : a.endTime = u + minutesDuration slotDuration := by
        unfold Appointment.endTime
        rw [hau, hdur, hm]
      rw [haend, hau] at htimes
      unfold Time at *
      omega
    · rw [hm] at htimes hpos
      have hstart : a.AppointmentTime ≤ a.endTime ∨ a.endTime < a.AppointmentTime :=
        le_or_lt _ _
      unfold Time at *
      omega
    · rw [hm] at htimes hpos
      unfold Time at *
      omega
  show CheckDoctorAvailability db false doctorID t (some slotDuration) = .ok true
  unfold CheckDoctorAvailability
  simp only [Bool.false_eq_true, if_false, hnone, List.length_nil, beq_self_eq_true]

/-- C28, witness: the sample store whose doctor is booked from 09:00 to 09:12,
on a slot of the list: the slot of 09:12 is available and can be booked. -/
theorem GenerateTimeSlots_available_is_bookable_witness :
    CheckDoctorAvailability Sample.storeNineOClock false Sample.doctorID
        Sample.freeSlot.StartTime (some 12) = .ok true :=
  GenerateTimeSlots_available_is_bookable Sample.storeNineOClock 3 Sample.jan10 (9 * Hour)
    (9 * Hour + 30 * Minute) 12 Sample.doctorID
    [Sample.bookedSlot, Sample.freeSlot,
     { StartTime := Sample.nineOClockPlus 24, EndTime := Sample.nineOClockPlus 36,
       IsAvailable := true, IsBooked := false, AppointmentID := none }]
    (by decide) (by decide) (by decide) (by decide) Sample.freeSlot (by decide) rfl

/-! ## The appointment date -/

/-- The appointment that `CreateAppointment` answers 201 with is the row of
`newAppointmentRow` for the parsed date and time of the request and a booking
number of `GenerateBookingNumber` for that time, with payment status `paid`
when a payment mode was given. -/
theorem CreateAppointment_created_row (db : DB) (env : RequestEnv)
    (faults : CreateAppointmentFaults) (input : CreateAppointmentInput) (db2 : DB)
    (appointment : Appointment) (createdPatient : Option String)
    (h : CreateAppointment db env faults input = (db2, .created appointment createdPatient)) :
    ∃ (db1 : DB) (doctor : DoctorInfo) (patientID bookingNumber : String)
      (appointmentDate appointmentTime : Time) (durationMinutes : Int) (feeAmount : Option Float64)
      (isPriority : Bool),
      parseDate input.AppointmentDate = some appointmentDate
        ∧ parseDateTime input.AppointmentTime = some appointmentTime
        ∧ GenerateBookingNumber db1 faults.clinicCode faults.nextSerial doctor.DoctorCode
            appointmentTime = .ok bookingNumber
        ∧ (appointment = newAppointmentRow env input patientID bookingNumber appointmentDate
              appointmentTime durationMinutes feeAmount isPriority
          ∨ appointment = { newAppointmentRow env input patientID bookingNumber appointmentDate
              appointmentTime durationMinutes feeAmount isPriority with
              PaymentStatus := "paid" }) := by
  unfold CreateAppointment at h
  cases hbind : bindCreateAppointmentInput input with
  | false =>
    simp only [hbind, Bool.not_false, if_true] at h
    cases h
  | true =>
  simp only [hbind, Bool.not_true, Bool.false_eq_true, if_false] at h
  cases hmissing : (input.UserID.isNone && input.PatientID.isNone) with
  | true =>
    simp only [hmissing, if_true] at h
    cases h
  | false =>
  simp only [hmissing, Bool.false_eq_true, if_false] at h
  cases hdate : parseDate input.AppointmentDate with
  | none =>
    simp only [hdate] at h
    cases h
  | some appointmentDate =>
  simp only [hdate] at h
  cases htime : parseDateTime input.AppointmentTime with
  | none =>
    simp only [htime] at h
    cases h
  | some appointmentTime =>
  simp only [htime] at h
  cases hpatient : resolvePatient db env faults input with
  | error response =>
    simp only [hpatient, Prod.mk.injEq] at h
    have hno := (resolvePatient_spec db env faults input).2 response hpatient
    rw [h.2] at hno
    cases hno
  | ok v =>
  obtain ⟨db1, patientID, patientCreated⟩ := v
  simp only [hpatient] at h
  cases hcf : faults.checkClinic with
  | true =>
    simp only [hcf, if_true] at h
    cases h
  | false =>
  simp only [hcf, Bool.false_eq_true, if_false] at h
  cases hclinic : db1.clinics.any (fun c => c.ID == input.ClinicID && c.IsActive) with
  | false =>
    simp only [hclinic, Bool.not_false, if_true] at h
    cases h
  | true =>
  simp only [hclinic, Bool.not_true, Bool.false_eq_true, if_false] at h
  cases hdoctor : (if faults.getDoctor = true then none else getDoctor db1 input.DoctorID) with
  | none =>
    simp only [hdoctor] at h
    cases h
  | some v =>
  obtain ⟨doctor, isDoctorActive⟩ := v
  simp only [hdoctor] at h
  cases isDoctorActive with
  | false =>
    simp only [Bool.not_false, if_true] at h
    cases h
  | true =>
  simp only [Bool.not_true, Bool.false_eq_true, if_false] at h
  split at h
  · cases h
  · cases h
  cases hbook : GenerateBookingNumber db1 faults.clinicCode faults.nextSerial doctor.DoctorCode
      appointmentTime with
  | error e =>
    simp only [hbook] at h
    cases h
  | ok bookingNumber =>
  simp only [hbook] at h
  cases hinsert : (faults.insertAppointment || !patientReferenceHolds db1 patientID) with
  | true =>
    simp only [hinsert, if_true] at h
    cases h
  | false =>
  simp only [hinsert, Bool.false_eq_true, if_false] at h
  cases hmode : input.PaymentMode with
  | none =>
    simp only [hmode, Prod.mk.injEq, Response.created.injEq] at h
    exact ⟨db1, doctor, patientID, bookingNumber, appointmentDate, appointmentTime, _, _, _,
      rfl, rfl, hbook, Or.inl h.2.1.symm⟩
  | some mode =>
    simp only [hmode] at h
    by_cases hempty : mode = ""
    · simp only [hempty, if_true, Prod.mk.injEq, Response.created.injEq] at h
      exact ⟨db1, doctor, patientID, bookingNumber, appointmentDate, appointmentTime, _, _, _,
        rfl, rfl, hbook, Or.inl h.2.1.symm⟩
    · simp only [hempty, if_false] at h
      cases hpay : faults.updatePaymentStatus with
      | true =>
        simp only [hpay, if_true] at h
        cases h
      | false =>
        simp only [hpay, Bool.false_eq_true, if_false, Prod.mk.injEq, Response.created.injEq]
          at h
        exact ⟨db1, doctor, patientID, bookingNumber, appointmentDate, appointmentTime, _, _, _,
          rfl, rfl, hbook, Or.inr h.2.1.symm⟩

/-- A booking number of `GenerateBookingNumber` holds the date text of the
appointment time between two hyphens. -/
theorem GenerateBookingNumber_date (db : DB) (clinicQueryFails serialQueryFails : Bool)
    (doctorCode : Option String) (appointmentTime : Time) (bookingNumber : String)
    (h : GenerateBookingNumber db clinicQueryFails serialQueryFails doctorCode appointmentTime
      = .ok bookingNumber) :
    ∃ code serial : List Char,
      bookingNumber = String.mk (code ++ '-' :: format20060102 appointmentTime ++ '-' :: serial)
        := by
  unfold GenerateBookingNumber at h
  split at h
  · cases h
  · dsimp only at h
    split at h
    · cases h
    · simp only [Except.ok.injEq] at h
      exact ⟨_, _, h.symm⟩

/-- A `RescheduleAppointment` answered 200 has read the new time from the
request and written it to the rows with the identifier, and to nothing else. -/
theorem RescheduleAppointment_accepted (db : DB) (faults : RescheduleFaults)
    (appointmentID : String) (input : RescheduleAppointmentInput) :
    (RescheduleAppointment db faults appointmentID input).2.status = 200 →
    ∃ newTime, parseDateTime input.NewAppointmentTime = some newTime
      ∧ (RescheduleAppointment db faults appointmentID input).1.appointments
          = db.appointments.map (fun a =>
              if a.ID = appointmentID then { a with AppointmentTime := newTime } else a) := by
  unfold RescheduleAppointment
  by_cases h1 : input.NewAppointmentTime = ""
  · simp [h1]
  · simp only [h1, if_false]
    cases parseDateTime input.NewAppointmentTime with
    | none => simp
    | some newTime =>
      cases (if faults.getAppointment = true then none
          else db.appointments.find? (fun a => a.ID == appointmentID)) with
      | none => simp
      | some current =>
        dsimp only
        cases CheckDoctorAvailability db faults.checkAvailability current.DoctorID newTime
            (some current.DurationMinutes) with
        | error e => simp
        | ok available =>
          cases available with
          | false => simp
          | true =>
            cases faults.updateTime with
            | true => simp
            | false =>
              intro _
              exact ⟨newTime, rfl, rfl⟩

/-- C29, counterexample: a request with appointment date 2024-01-10 and
appointment time 2024-01-11 09:00 is answered 201 with an appointment whose
stored date is 2024-01-10 while its time, and its booking number, are of
2024-01-11; and rescheduling the appointment of 2024-01-10 to 2024-01-12 is
answered 200 and leaves the stored date 2024-01-10. -/
theorem appointment_date_differs_from_time :
    ((CreateAppointment (Sample.store []) (Sample.env "00000000-0000-0000-0000-0000000000f9") {}
          Sample.twoDatesRequest).1.appointments.map
        (fun a => (a.AppointmentDate, String.mk (formatDashedDate a.AppointmentTime),
          a.BookingNumber))
      = [(some "2024-01-10", "2024-01-11", "D1-20240111-0001")])
    ∧ (CreateAppointment (Sample.store []) (Sample.env "00000000-0000-0000-0000-0000000000f9") {}
          Sample.twoDatesRequest).2.isCreated = true
    ∧ ((RescheduleAppointment Sample.storeNineOClock {} "00000000-0000-0000-0000-0000000000f1"
          { NewAppointmentTime := "2024-01-12 09:00:00", Reason := "another day" }).1.appointments.map
        (fun a => (a.AppointmentDate, String.mk (formatDashedDate a.AppointmentTime)))
      = [(some "2024-01-10", "2024-01-12")])
    ∧ (RescheduleAppointment Sample.storeNineOClock {} "00000000-0000-0000-0000-0000000000f1"
          { NewAppointmentTime := "2024-01-12 09:00:00", Reason := "another day" }).2.status
        = 200 := by
  refine ⟨?_, ?_, ?_, ?_⟩ <;> decide

/-- C29, amended: the appointment that `CreateAppointment` answers 201 with
stores the date text of the request's `appointment_date` and the instant of
the request's `appointment_time`, which are parsed separately and never
compared; the stored date is the calendar date of the stored time when the two
name the same day. The booking number holds the date of the stored time. A
`RescheduleAppointment` answered 200 writes the new time and leaves the stored
date as it was, so a row is date consistent afterwards exactly when its stored
date is the calendar date of the new time. -/
theorem CreateAppointment_date (db : DB) (env : RequestEnv)
    (faults : CreateAppointmentFaults) (input : CreateAppointmentInput) (db2 : DB)
    (appointment : Appointment) (createdPatient : Option String)
    (h : CreateAppointment db env faults input = (db2, .created appointment createdPatient)) :
    (∃ appointmentDate appointmentTime,
        parseDate input.AppointmentDate = some appointmentDate
          ∧ parseDateTime input.AppointmentTime = some appointmentTime
          ∧ appointment.AppointmentDate = some (String.mk (formatDashedDate appointmentDate))
          ∧ appointment.AppointmentTime = appointmentTime
          ∧ (civilDate appointmentDate = civilDate appointmentTime →
              appointment.dateConsistent))
      ∧ (∃ code serial : List Char, appointment.BookingNumber
          = String.mk (code ++ '-' :: format20060102 appointment.AppointmentTime
              ++ '-' :: serial))
      ∧ ∀ (store : DB) (rescheduleFaults : RescheduleFaults) (appointmentID : String)
          (reschedule : RescheduleAppointmentInput),
          (RescheduleAppointment store rescheduleFaults appointmentID reschedule).2.status = 200 →
          ∃ newTime, parseDateTime reschedule.NewAppointmentTime = some newTime
            ∧ ∀ a ∈ store.appointments, a.ID = appointmentID →
                { a with AppointmentTime := newTime }
                    ∈ (RescheduleAppointment store rescheduleFaults appointmentID
                        reschedule).1.appointments
                  ∧ (({ a with AppointmentTime := newTime } : Appointment).dateConsistent
                      ↔ a.AppointmentDate = some (String.mk (formatDashedDate newTime))) := by
  obtain ⟨db1, doctor, patientID, bookingNumber, appointmentDate, appointmentTime,
    durationMinutes, feeAmount, isPriority, hdate, htime, hbook, hrow⟩ :=
    CreateAppointment_created_row db env faults input db2 appointment createdPatient h
  have hfmt : civilDate appointmentDate = civilDate appointmentTime →
      formatDashedDate appointmentDate = formatDashedDate appointmentTime := by
    intro hc
    unfold formatDashedDate
    rw [hc]
  obtain ⟨code, serial, hbn⟩ := GenerateBookingNumber_date db1 _ _ _ _ _ hbook
  refine ⟨⟨appointmentDate, appointmentTime, hdate, htime, ?_, ?_, ?_⟩, ⟨code, serial, ?_⟩, ?_⟩
  · rcases hrow with rfl | rfl <;> rfl
  · rcases hrow with rfl | rfl <;> rfl
  · intro hc
    unfold Appointment.dateConsistent
    rcases hrow with rfl | rfl
    · show some (String.mk (formatDashedDate appointmentDate))
        = some (String.mk (formatDashedDate appointmentTime))
      rw [hfmt hc]
    · show some (String.mk (formatDashedDate appointmentDate))
        = some (String.mk (formatDashedDate appointmentTime))
      rw [hfmt hc]
  · rcases hrow with rfl | rfl <;> exact hbn
  · intro store rescheduleFaults appointmentID reschedule hok
    obtain ⟨newTime, hparse, happ⟩ :=
      RescheduleAppointment_accepted store rescheduleFaults appointmentID reschedule hok
    refine ⟨newTime, hparse, ?_⟩
    intro a ha hid
    refine ⟨?_, Iff.rfl⟩
    rw [happ, List.mem_map]
    exact ⟨a, ha, by simp [hid]⟩

/-- C29, witness: the sample request for 2024-01-10 09:00, whose date and time
name the same day, creates a date-consistent appointment. -/
theorem CreateAppointment_date_witness :
    (∃ appointmentDate appointmentTime,
        parseDate (Sample.request "2024-01-10 09:00:00" none).AppointmentDate
            = some appointmentDate
          ∧ parseDateTime (Sample.request "2024-01-10 09:00:00" none).AppointmentTime
            = some appointmentTime
          ∧ (Sample.appointment "00000000-0000-0000-0000-0000000000f9" (Sample.nineOClockPlus 0)
              12 "D1-20240110-0001").AppointmentDate
            = some (String.mk (formatDashedDate appointmentDate))
          ∧ (Sample.appointment "00000000-0000-0000-0000-0000000000f9" (Sample.nineOClockPlus 0)
              12 "D1-20240110-0001").AppointmentTime = appointmentTime
          ∧ (civilDate appointmentDate = civilDate appointmentTime →
              (Sample.appointment "00000000-0000-0000-0000-0000000000f9"
                (Sample.nineOClockPlus 0) 12 "D1-20240110-0001").dateConsistent))
      ∧ (Sample.appointment "00000000-0000-0000-0000-0000000000f9" (Sample.nineOClockPlus 0) 12
          "D1-20240110-0001").dateConsistent :=
  have h := CreateAppointment_date (Sample.store [])
    (Sample.env "00000000-0000-0000-0000-0000000000f9") {}
    (Sample.request "2024-01-10 09:00:00" none)
    (CreateAppointment (Sample.store []) (Sample.env "00000000-0000-0000-0000-0000000000f9") {}
      (Sample.request "2024-01-10 09:00:00" none)).1
    (Sample.appointment "00000000-0000-0000-0000-0000000000f9" (Sample.nineOClockPlus 0) 12
      "D1-20240110-0001") none (by decide)
  ⟨h.1, by decide⟩

/-! ## Check-in and status -/

/-- C30, counterexample: in the sample store without appointments and
check-ins, the request
paid in cash is answered 201; afterwards the store holds a check-in row for
the new appointment while the status of the appointment is `booked`, not
`arrived`: the auto check-in of `CreateAppointment` inserts the row without
the status update that `CreateCheckin` makes. The appointment is missing from
the queue of its doctor and date, and a `CreateCheckin` for it is answered 400
`Patient already checked in`, so it does not become `arrived` that way
either. -/
theorem CreateAppointment_checkin_without_arrival :
    (Sample.store []).appointments = [] ∧ (Sample.store []).patient_checkins = []
      ∧ (CreateAppointment (Sample.store []) (Sample.env "00000000-0000-0000-0000-0000000000f9")
          {} Sample.paidRequest).2 = .created Sample.paidAppointment none
      ∧ Sample.storeAfterPaidRequest.patient_checkins.map (fun pc => pc.AppointmentID)
          = ["00000000-0000-0000-0000-0000000000f9"]
      ∧ Sample.storeAfterPaidRequest.appointments.map (fun a => (a.ID, a.Status))
          = [("00000000-0000-0000-0000-0000000000f9", "booked")]
      ∧ GetDoctorQueue Sample.storeAfterPaidRequest false Sample.jan10 Sample.doctorID
          (some "2024-01-10") = .ok Sample.doctorID "2024-01-10" [] 0
      ∧ CreateCheckin Sample.storeAfterPaidRequest
          (Sample.env "00000000-0000-0000-0000-0000000000f7") {} Sample.paidCheckinRequest
        = (Sample.storeAfterPaidRequest, .error 400 "Patient already checked in") := by
  refine ⟨rfl, rfl, ?_, ?_, ?_, ?_, ?_⟩ <;> decide

/-- The store after a `CreateAppointment` answered 201: the patient stage
leaves appointments and check-ins as they are; the new row, with the
identifier of the request and the default status, is appended; without a
payment mode nothing else happens, and with one the row is marked paid and,
unless the check-in insert fails, the automatic check-in row is appended. -/
theorem CreateAppointment_created_store (db : DB) (env : RequestEnv)
    (faults : CreateAppointmentFaults) (input : CreateAppointmentInput) (db2 : DB)
    (appointment : Appointment) (createdPatient : Option String)
    (h : CreateAppointment db env faults input = (db2, .created appointment createdPatient)) :
    ∃ (db1 : DB) (row : Appointment),
      db1.appointments = db.appointments ∧ db1.patient_checkins = db.patient_checkins
        ∧ row.ID = env.newAppointmentID ∧ row.Status = defaultStatus
        ∧ (((input.PaymentMode = none ∨ input.PaymentMode = some "") ∧ appointment = row
              ∧ db2 = { db1 with appointments := db1.appointments ++ [row] })
          ∨ (∃ mode, input.PaymentMode = some mode ∧ mode ≠ ""
              ∧ appointment = { row with PaymentStatus := "paid" }
              ∧ db2 = (if faults.insertCheckin then
                    markPaid { db1 with appointments := db1.appointments ++ [row] } row.ID
                  else
                    { markPaid { db1 with appointments := db1.appointments ++ [row] } row.ID with
                      patient_checkins :=
                        (markPaid { db1 with appointments := db1.appointments ++ [row] }
                          row.ID).patient_checkins ++ [autoCheckinRow env row.ID] }))) := by
  unfold CreateAppointment at h
  cases hbind : bindCreateAppointmentInput input with
  | false =>
    simp only [hbind, Bool.not_false, if_true] at h
    cases h
  | true =>
  simp only [hbind, Bool.not_true, Bool.false_eq_true, if_false] at h
  cases hmissing : (input.UserID.isNone && input.PatientID.isNone) with
  | true =>
    simp only [hmissing, if_true] at h
    cases h
  | false =>
  simp only [hmissing, Bool.false_eq_true, if_false] at h
  cases hdate : parseDate input.AppointmentDate with
  | none =>
    simp only [hdate] at h
    cases h
  | some appointmentDate =>
  simp only [hdate] at h
  cases htime : parseDateTime input.AppointmentTime with
  | none =>
    simp only [htime] at h
    cases h
  | some appointmentTime =>
  simp only [htime] at h
  cases hpatient : resolvePatient db env faults input with
  | error response =>
    simp only [hpatient, Prod.mk.injEq] at h
    have hno := (resolvePatient_spec db env faults input).2 response hpatient
    rw [h.2] at hno
    cases hno
  | ok v =>
  obtain ⟨db1, patientID, patientCreated⟩ := v
  have hsame := (resolvePatient_spec db env faults input).1 db1 patientID patientCreated hpatient
  simp only [hpatient] at h
  cases hcf : faults.checkClinic with
  | true =>
    simp only [hcf, if_true] at h
    cases h
  | false =>
  simp only [hcf, Bool.false_eq_true, if_false] at h
  cases hclinic : db1.clinics.any (fun c => c.ID == input.ClinicID && c.IsActive) with
  | false =>
    simp only [hclinic, Bool.not_false, if_true] at h
    cases h
  | true =>
  simp only [hclinic, Bool.not_true, Bool.false_eq_true, if_false] at h
  cases hdoctor : (if faults.getDoctor = true then none else getDoctor db1 input.DoctorID) with
  | none =>
    simp only [hdoctor] at h
    cases h
  | some v =>
  obtain ⟨doctor, isDoctorActive⟩ := v
  simp only [hdoctor] at h
  cases isDoctorActive with
  | false =>
    simp only [Bool.not_false, if_true] at h
    cases h
  | true =>
  simp only [Bool.not_true, Bool.false_eq_true, if_false] at h
  split at h
  · cases h
  · cases h
  cases hbook : GenerateBookingNumber db1 faults.clinicCode faults.nextSerial doctor.DoctorCode
      appointmentTime with
  | error e =>
    simp only [hbook] at h
    cases h
  | ok bookingNumber =>
  simp only [hbook] at h
  cases hinsert : (faults.insertAppointment || !patientReferenceHolds db1 patientID) with
  | true =>
    simp only [hinsert, if_true] at h
    cases h
  | false =>
  simp only [hinsert, Bool.false_eq_true, if_false] at h
  cases hmode : input.PaymentMode with
  | none =>
    simp only [hmode, Prod.mk.injEq, Response.created.injEq] at h
    exact ⟨db1, _, hsame.2, hsame.1, rfl, rfl, Or.inl ⟨Or.inl rfl, h.2.1.symm, h.1.symm⟩⟩
  | some mode =>
    simp only [hmode] at h
    by_cases hempty : mode = ""
    · simp only [hempty, if_true, Prod.mk.injEq, Response.created.injEq] at h
      exact ⟨db1, _, hsame.2, hsame.1, rfl, rfl,
        Or.inl ⟨Or.inr (by rw [hempty]), h.2.1.symm, h.1.symm⟩⟩
    · simp only [hempty, if_false] at h
      cases hpay : faults.updatePaymentStatus with
      | true =>
        simp only [hpay, if_true] at h
        cases h
      | false =>
        simp only [hpay, Bool.false_eq_true, if_false, Prod.mk.injEq, Response.created.injEq]
          at h
        refine ⟨db1, _, hsame.2, hsame.1, rfl, rfl,
          Or.inr ⟨mode, rfl, hempty, h.2.1.symm, ?_⟩⟩
        rw [← h.1]

/-- C30, amended: check-in and status are in step for check-ins made by
`CreateCheckin`, not for the automatic check-in of `CreateAppointment`. A
`CreateCheckin` that creates a check-in while its status statement succeeds
leaves the rows of the appointment with status `arrived`. A `CreateAppointment`
answered 201 for a request with a non-empty payment mode, the check-in insert
succeeding and the new identifier being unused, leaves the new appointment
with a check-in row and with status `booked`; the appointment is in no
doctor queue, and a later `CreateCheckin` for it creates nothing and leaves
the store as it is, so it does not become `arrived` that way. -/
theorem CreateAppointment_auto_checkin_status (db : DB) (env : RequestEnv)
    (faults : CreateAppointmentFaults) (input : CreateAppointmentInput) (db2 : DB)
    (appointment : Appointment) (createdPatient : Option String) (mode : String)
    (h : CreateAppointment db env faults input = (db2, .created appointment createdPatient))
    (hmode : input.PaymentMode = some mode) (hne : mode ≠ "")
    (hins : faults.insertCheckin = false)
    (hfresh : ∀ b ∈ db.appointments, b.ID ≠ env.newAppointmentID) :
    (∀ (store : DB) (checkinEnv : RequestEnv) (checkinFaults : CreateCheckinFaults)
        (checkin : CreateCheckinInput),
        (CreateCheckin store checkinEnv checkinFaults checkin).2.isCreated = true →
        checkinFaults.updateStatus = false →
        ∀ b ∈ (CreateCheckin store checkinEnv checkinFaults checkin).1.appointments,
          b.ID = checkin.AppointmentID → b.Status = "arrived")
    ∧ appointment.ID = env.newAppointmentID
    ∧ appointment.Status = "booked"
    ∧ (∃ pc ∈ db2.patient_checkins, pc.AppointmentID = appointment.ID)
    ∧ (∃ b ∈ db2.appointments, b.ID = appointment.ID)
    ∧ (∀ b ∈ db2.appointments, b.ID = appointment.ID → b.Status = "booked")
    ∧ (∀ (doctorID : String) (targetDate : Time),
        ∀ q ∈ queueRows db2 doctorID targetDate, q.AppointmentID ≠ appointment.ID)
    ∧ (∀ (checkinEnv : RequestEnv) (checkinFaults : CreateCheckinFaults)
        (checkin : CreateCheckinInput), checkin.AppointmentID = appointment.ID →
        (CreateCheckin db2 checkinEnv checkinFaults checkin).2.isCreated = false
        ∧ (CreateCheckin db2 checkinEnv checkinFaults checkin).1 = db2) := by
  obtain ⟨db1, row, happ, hchk, hid, hstatus, hcase⟩ :=
    CreateAppointment_created_store db env faults input db2 appointment createdPatient h
  rcases hcase with ⟨hnomode, -, -⟩ | ⟨mode2, hmode2, -, happointment, hdb2⟩
  · rcases hnomode with hn | hn
    · rw [hmode] at hn; cases hn
    · rw [hmode] at hn
      exact absurd (Option.some.inj hn) hne
  rw [hins] at hdb2
  simp only [Bool.false_eq_true, if_false] at hdb2
  have hrows : ∀ b ∈ db2.appointments, b.ID = appointment.ID → b.Status = "booked" := by
    intro b hb hbid
    rw [hdb2] at hb
    have hbase : ∀ c ∈ ({ db1 with appointments := db1.appointments ++ [row] } : DB).appointments,
        c.ID = row.ID → c.Status = "booked" := by
      intro c hc hcid
      rcases List.mem_append.mp hc with hc | hc
      · rw [happ] at hc
        exact absurd (hcid.trans hid) (hfresh c hc)
      · rw [List.mem_singleton.mp hc]
        exact hstatus
    exact markPaid_status _ row.ID "booked" hbase b hb (by rw [hbid, happointment])
  have hcheckin : ∃ pc ∈ db2.patient_checkins, pc.AppointmentID = appointment.ID := by
    refine ⟨autoCheckinRow env row.ID, ?_, by rw [happointment]; rfl⟩
    rw [hdb2]
    exact List.mem_append_right _ (List.mem_singleton.mpr rfl)
  refine ⟨fun store checkinEnv checkinFaults checkin hc hf =>
      CreateCheckin_arrived store checkinEnv checkinFaults checkin hc hf,
    by rw [happointment]; exact hid, by rw [happointment]; exact hstatus, hcheckin, ?_, hrows,
    ?_, ?_⟩
  · refine ⟨{ row with PaymentStatus := "paid" }, ?_, by rw [happointment]⟩
    rw [hdb2]
    simp only [markPaid, List.mem_map]
    exact ⟨row, List.mem_append_right _ (List.mem_singleton.mpr rfl), by simp⟩
  · intro doctorID targetDate q hq hqid
    simp only [queueRows, List.mem_flatMap, List.mem_map, List.mem_filter] at hq
    obtain ⟨pc, -, a, ⟨ha, hcond⟩, p, -, u, -, hqe⟩ := hq
    simp only [Bool.and_eq_true, Bool.or_eq_true, beq_iff_eq] at hcond
    have haid : a.ID = appointment.ID := by
      rw [hcond.1.1.1, ← hqid, ← hqe]
    have hst := hrows a ha haid
    rcases hcond.2 with h1 | h1 <;> rw [hst] at h1 <;> exact absurd h1 (by decide)
  · intro checkinEnv checkinFaults checkin hcid
    have hany : db2.patient_checkins.any (fun pc => pc.AppointmentID == checkin.AppointmentID)
        = true := by
      obtain ⟨pc, hpc, hpcid⟩ := hcheckin
      rw [List.any_eq_true]
      exact ⟨pc, hpc, by simp [hpcid, hcid]⟩
    have hnot : (CreateCheckin db2 checkinEnv checkinFaults checkin).2.isCreated = false := by
      generalize hres : CreateCheckin db2 checkinEnv checkinFaults checkin = res
      unfold CreateCheckin at hres
      simp only [hany, if_true] at hres
      split_ifs at hres <;> subst hres <;> rfl
    exact ⟨hnot, CreateCheckin_rejected db2 checkinEnv checkinFaults checkin hnot⟩

/-- C30, witness: the request paid in cash on the sample store without
appointments: the new appointment has a check-in row and status `booked`. -/
theorem CreateAppointment_auto_checkin_status_witness :
    Sample.paidAppointment.Status = "booked"
      ∧ (∃ pc ∈ Sample.storeAfterPaidRequest.patient_checkins,
          pc.AppointmentID = Sample.paidAppointment.ID)
      ∧ (∀ b ∈ Sample.storeAfterPaidRequest.appointments,
          b.ID = Sample.paidAppointment.ID → b.Status = "booked") :=
  have h := CreateAppointment_auto_checkin_status (Sample.store [])
    (Sample.env "00000000-0000-0000-0000-0000000000f9") {} Sample.paidRequest
    Sample.storeAfterPaidRequest Sample.paidAppointment none "cash"
    (by decide) (by decide) (by decide) rfl (by decide)
  ⟨h.2.2.1, h.2.2.2.1, h.2.2.2.2.2.1⟩

end AppointmentService
